import Mathlib

/-!
# Windowless paint / invalidate coordination of `WebPluginProxy`

A shallow embedding of the damage tracking and paint scheduling code of
`chrome/plugin/webplugin_proxy.cc`, followed by the properties proved about it.

The proxy is a record of the member variables the paint path reads and writes.
The message loop is the list `posted` of `OnPaint` tasks that were posted and
have not run yet (oldest first), and everything the proxy does to the outside
world (drawing calls, messages sent over the channel) is appended to `trace`.
A call that can fail to return (`UpdateGeometry`, through `SetWindowlessBuffer`)
returns an `Except`.

The file goes on with the two registries of the same proxy, the deferred tasks of
`chrome/renderer/translate_helper.cc` and the update screen of
`chrome/browser/chromeos/login/update_screen.cc`. All definitions come first, the
theorems follow in the same order.
-/

namespace WebPlugin

/-! ## Rectangles -/

/-- Modelled from the spec: `gfx::Rect` (base/gfx/rect.h is not among the sources).
An axis-aligned rectangle with an integer origin and a size that is never negative.
Coordinates are mathematical integers: `int` overflow is not modelled. -/
structure Rect where
  x : Int
  y : Int
  width : Nat
  height : Nat
deriving DecidableEq, Repr

namespace Rect

/-- Modelled from the spec: the default constructor `gfx::Rect()`, the empty rectangle at the origin. -/
def zero : Rect := ⟨0, 0, 0, 0⟩

/-- Modelled from the spec: the constructor `gfx::Rect(x, y, width, height)`; a negative
dimension is stored as `0`. -/
def make (x y w h : Int) : Rect := ⟨x, y, w.toNat, h.toNat⟩

/-- Modelled from the spec: `right()`, the x coordinate just past the rectangle. -/
def right (r : Rect) : Int := r.x + r.width

/-- Modelled from the spec: `bottom()`, the y coordinate just past the rectangle. -/
def bottom (r : Rect) : Int := r.y + r.height

/-- Modelled from the spec: `IsEmpty()`, true when the rectangle has no area. -/
def IsEmpty (r : Rect) : Bool := r.width == 0 || r.height == 0

/-- Modelled from the spec: `a.Intersects(rect)`, the usual overlap test on the four edges. -/
def Intersects (a rect : Rect) : Bool :=
  !(decide (rect.x ≥ a.right) || decide (rect.right ≤ a.x) ||
    decide (rect.y ≥ a.bottom) || decide (rect.bottom ≤ a.y))

/-- Modelled from the spec: `a.Contains(rect)`, every edge of `rect` lies inside `a`. -/
def Contains (a rect : Rect) : Bool :=
  decide (rect.x ≥ a.x) && decide (rect.right ≤ a.right) &&
  decide (rect.y ≥ a.y) && decide (rect.bottom ≤ a.bottom)

/-- Modelled from the spec: `a.Union(rect)`, the bounding box of the two rectangles, where an
empty operand contributes nothing. -/
def Union (a rect : Rect) : Rect :=
  if a.IsEmpty then rect
  else if rect.IsEmpty then a
  else
    let rx := min a.x rect.x
    let ry := min a.y rect.y
    let rr := max a.right rect.right
    let rb := max a.bottom rect.bottom
    make rx ry (rr - rx) (rb - ry)

/-- Modelled from the spec: `Offset(dx, dy)`, the rectangle moved by the given amounts. -/
def Offset (r : Rect) (dx dy : Int) : Rect := { r with x := r.x + dx, y := r.y + dy }

end Rect

/-! ## Collaborators of the proxy -/

/-- Modelled from the spec: the geometry the `WebPluginDelegate` reports (its class is not
among the sources): the window rectangle, the clip rectangle and whether the plugin is
windowless. -/
structure WebPluginDelegate where
  rect : Rect
  clip_rect : Rect
  windowless : Bool
deriving DecidableEq, Repr

/-- Modelled from the spec: `WebPluginDelegate::UpdateGeometry`, which stores the new window and
clip rectangles ("always updates stored geometry first"). -/
def WebPluginDelegate.UpdateGeometry (d : WebPluginDelegate) (window_rect clip_rect : Rect) :
    WebPluginDelegate :=
  { d with rect := window_rect, clip_rect := clip_rect }

/-- Modelled from the spec: a `TransportDIB::Handle` as this process sees it (transport_dib.h
is not among the sources): whether `TransportDIB::is_valid` accepts it (on Windows, whether the
`HANDLE` is non-null), whether mapping it into the process succeeds (`TransportDIB::Map`, on
Windows `GetSectionFromProcess`), and, for the two further steps of `ConvertBuffer` on Windows,
whether `CreateDIBSection` and `CreateCompatibleDC` succeed. -/
structure TransportDIBHandle where
  is_valid : Bool
  maps : Bool
  dib_section : Bool
  compatible_dc : Bool
deriving DecidableEq, Repr

/-- The two ways the source is built: with assertions (`DCHECK`, `NOTREACHED`) or without. -/
inductive Build where
  | debug
  | release
deriving DecidableEq, Repr

/-- Why a call into the plugin process does not return: a `NOTREACHED()` ended a build with
assertions, or a null pointer was dereferenced. -/
inductive Crash where
  | notreached
  | nullDereference
deriving DecidableEq, Repr

/-- The three build configurations the source branches on. -/
inductive Platform where
  | win
  | mac
  | linux
deriving DecidableEq, Repr

/-- What the proxy does to the outside world, in the order it does it. -/
inductive Event where
  /-- The damaged area of the buffer is reset, from the background buffer when there is one. -/
  | clearDamaged (rect : Rect) (fromBackground : Bool)
  /-- Call of `delegate_->Paint` with the clip region `clip` on the windowless buffer. -/
  | delegatePaint (clip : Rect) (rect : Rect)
  /-- Message `PluginHostMsg_InvalidateRect(route_id, rect)` sent to the peer. -/
  | sendInvalidateRect (route_id : Int) (rect : Rect)
  /-- Call of `SetWindowlessBuffer`. -/
  | setWindowlessBuffer (windowless_buffer background_buffer : TransportDIBHandle)
  /-- Call of `UpdateTransform`. -/
  | updateTransform
  /-- Call of `SetWorldTransform` for the window origin `(x, y)`: the translation handed over is
  `static_cast<FLOAT>(-x)`, `static_cast<FLOAT>(-y)`; the floating point values are not
  computed here. -/
  | setWorldTransform (x y : Int)
deriving DecidableEq, Repr

/-! ## The proxy -/

/-- The member variables of `WebPluginProxy` used by the paint path. `windowless_buffer_` says
whether a windowless drawing target is installed (`windowless_hdc_`, `windowless_context_` or
`windowless_canvas_` is non-null), `background_buffer_` the same for the background. -/
structure WebPluginProxy where
  platform : Platform
  route_id_ : Int
  delegate_ : WebPluginDelegate
  damaged_rect_ : Rect
  waiting_for_paint_ : Bool
  windowless_buffer_ : Bool
  background_buffer_ : Bool
  posted : List Rect
  trace : List Event
deriving DecidableEq, Repr

/-- The constructor (webplugin_proxy.cc:45-65): no paint pending, empty damage, no buffer,
nothing posted. -/
def WebPluginProxy.create (platform : Platform) (route_id : Int) (delegate : WebPluginDelegate) :
    WebPluginProxy :=
  { platform := platform, route_id_ := route_id, delegate_ := delegate,
    damaged_rect_ := Rect.zero, waiting_for_paint_ := false,
    windowless_buffer_ := false, background_buffer_ := false,
    posted := [], trace := [] }

/-- `WebPluginProxy::InvalidateRect` (webplugin_proxy.cc:180-205). Posting the task copies
`damaged_rect_` into it. -/
def InvalidateRect (s : WebPluginProxy) (rect : Rect) : WebPluginProxy :=
  let s1 := { s with damaged_rect_ := s.damaged_rect_.Union rect }
  if rect.IsEmpty || !(s1.delegate_.clip_rect.Intersects rect) then s1
  else if !s1.waiting_for_paint_ then
    { s1 with waiting_for_paint_ := true,
              posted := s1.posted ++ [s1.damaged_rect_],
              damaged_rect_ := Rect.zero }
  else s1

/-- `WebPluginProxy::Invalidate` (webplugin_proxy.cc:173-178). -/
def Invalidate (s : WebPluginProxy) : WebPluginProxy :=
  InvalidateRect s (Rect.make 0 0 s.delegate_.rect.width s.delegate_.rect.height)

/-- `WebPluginProxy::DidPaint` (webplugin_proxy.cc:312-318). -/
def DidPaint (s : WebPluginProxy) : WebPluginProxy :=
  let s1 := { s with waiting_for_paint_ := false }
  if !s1.damaged_rect_.IsEmpty then InvalidateRect s1 s1.damaged_rect_ else s1

/-- `WebPluginProxy::Paint` (webplugin_proxy.cc:430-496). It returns at once when no windowless
drawing target is installed; otherwise it resets the damaged area and calls the delegate's
`Paint`, with the rectangle each platform passes. -/
def Paint (s : WebPluginProxy) (rect : Rect) : WebPluginProxy :=
  if !s.windowless_buffer_ then s
  else
    let offset_rect := rect.Offset s.delegate_.rect.x s.delegate_.rect.y
    match s.platform with
    | Platform.win =>
      { s with trace := s.trace ++
          [Event.clearDamaged offset_rect s.background_buffer_,
           Event.delegatePaint rect offset_rect] }
    | Platform.mac =>
      { s with trace := s.trace ++
          [Event.clearDamaged rect s.background_buffer_,
           Event.delegatePaint rect rect] }
    | Platform.linux =>
      { s with trace := s.trace ++
          (if s.background_buffer_ then [Event.clearDamaged rect true] else []) ++
          [Event.delegatePaint rect offset_rect] }

/-- `WebPluginProxy::OnPaint` (webplugin_proxy.cc:674-679). -/
def OnPaint (s : WebPluginProxy) (damaged_rect : Rect) : WebPluginProxy :=
  let s1 := Paint s damaged_rect
  { s1 with trace := s1.trace ++ [Event.sendInvalidateRect s1.route_id_ damaged_rect] }

/-- `WebPluginProxy::UpdateTransform` (webplugin_proxy.cc:579-591 on Windows, empty elsewhere).
On Windows, with a drawing target, the world transform is set from the delegate's origin. -/
def UpdateTransform (s : WebPluginProxy) : WebPluginProxy :=
  let s1 := { s with trace := s.trace ++ [Event.updateTransform] }
  match s1.platform with
  | Platform.win =>
    if !s1.windowless_buffer_ then s1
    else { s1 with trace := s1.trace ++
             [Event.setWorldTransform s1.delegate_.rect.x s1.delegate_.rect.y] }
  | Platform.mac => s1
  | Platform.linux => s1

/-- `WebPluginProxy::ConvertBuffer` (webplugin_proxy.cc:543-577, Windows only), as far as the
device context goes: `old_hdc` says whether `*hdc` was set before, the result whether it is set
afterwards. A null section or bitmap leaves `*hdc` as it was, a failed `CreateCompatibleDC`
sets it to null; each failure reaches a `NOTREACHED()`, which ends a build with assertions. -/
def ConvertBuffer (build : Build) (buffer : TransportDIBHandle) (old_hdc : Bool) :
    Except Crash Bool :=
  if !buffer.maps then
    match build with
    | Build.debug => Except.error Crash.notreached
    | Build.release => Except.ok old_hdc
  else if !buffer.dib_section then
    match build with
    | Build.debug => Except.error Crash.notreached
    | Build.release => Except.ok old_hdc
  else if !buffer.compatible_dc then
    match build with
    | Build.debug => Except.error Crash.notreached
    | Build.release => Except.ok false
  else Except.ok true

/-- `WebPluginProxy::SetWindowlessBuffer` (webplugin_proxy.cc:524-653, one body per platform).
On Windows both buffers go through `ConvertBuffer`, the background only for a non-null handle,
and `UpdateTransform` is called at the end. On Mac the memory of the mapped windowless buffer
is read with no null test, so a failed mapping is a null dereference; the background context
is rebuilt only when its mapping succeeds (`CGBitmapContextCreate` is taken to succeed). On
Linux both canvases are reset to what the mappings give. -/
def SetWindowlessBuffer (build : Build) (s : WebPluginProxy)
    (windowless_buffer background_buffer : TransportDIBHandle) : Except Crash WebPluginProxy :=
  let s1 := { s with trace := s.trace ++
                [Event.setWindowlessBuffer windowless_buffer background_buffer] }
  match s1.platform with
  | Platform.win =>
    match ConvertBuffer build windowless_buffer s1.windowless_buffer_ with
    | Except.error e => Except.error e
    | Except.ok hdc =>
      let s2 := { s1 with windowless_buffer_ := hdc }
      if background_buffer.is_valid then
        match ConvertBuffer build background_buffer s2.background_buffer_ with
        | Except.error e => Except.error e
        | Except.ok background_hdc =>
          Except.ok (UpdateTransform { s2 with background_buffer_ := background_hdc })
      else Except.ok (UpdateTransform s2)
  | Platform.mac =>
    if !windowless_buffer.maps then Except.error Crash.nullDereference
    else
      Except.ok { s1 with windowless_buffer_ := true,
                          background_buffer_ := background_buffer.maps || s1.background_buffer_ }
  | Platform.linux =>
    Except.ok { s1 with windowless_buffer_ := windowless_buffer.maps,
                        background_buffer_ := background_buffer.maps }

/-- The first part of `WebPluginProxy::UpdateGeometry` (webplugin_proxy.cc:503-515): the
delegate stores the new geometry, then the buffer is installed or the transform updated. -/
def UpdateGeometry.install (build : Build) (s : WebPluginProxy) (window_rect clip_rect : Rect)
    (windowless_buffer background_buffer : TransportDIBHandle) : Except Crash WebPluginProxy :=
  let old := s.delegate_.rect
  let s1 := { s with delegate_ := s.delegate_.UpdateGeometry window_rect clip_rect }
  let moved := old.x != window_rect.x || old.y != window_rect.y
  if windowless_buffer.is_valid then
    SetWindowlessBuffer build s1 windowless_buffer background_buffer
  else if moved then Except.ok (UpdateTransform s1)
  else Except.ok s1

/-- `WebPluginProxy::UpdateGeometry` (webplugin_proxy.cc:498-522). The call does not return when
`SetWindowlessBuffer` does not. -/
def UpdateGeometry (build : Build) (s : WebPluginProxy) (window_rect clip_rect : Rect)
    (windowless_buffer background_buffer : TransportDIBHandle) : Except Crash WebPluginProxy :=
  let old_clip_rect := s.delegate_.clip_rect
  match UpdateGeometry.install build s window_rect clip_rect windowless_buffer
      background_buffer with
  | Except.error e => Except.error e
  | Except.ok s2 =>
    if s2.delegate_.windowless && !clip_rect.IsEmpty &&
        old_clip_rect.IsEmpty && !s2.damaged_rect_.IsEmpty then
      Except.ok (InvalidateRect s2 s2.damaged_rect_)
    else Except.ok s2

/-- Whether a call of `ConvertBuffer` returns: always in a build without assertions, and in a
build with assertions when every step succeeds. -/
def ConvertBufferReturns (build : Build) (buffer : TransportDIBHandle) : Bool :=
  build == Build.release || (buffer.maps && buffer.dib_section && buffer.compatible_dc)

/-- Whether a call of `UpdateGeometry` returns: always when no valid front buffer is supplied
and always on Linux; on Mac when the front buffer maps; on Windows when the conversions
return. -/
def UpdateGeometryReturns (build : Build) (platform : Platform)
    (windowless_buffer background_buffer : TransportDIBHandle) : Bool :=
  !windowless_buffer.is_valid ||
  match platform with
  | Platform.win =>
    ConvertBufferReturns build windowless_buffer &&
      (!background_buffer.is_valid || ConvertBufferReturns build background_buffer)
  | Platform.mac => windowless_buffer.maps
  | Platform.linux => true

/-- The message loop runs the oldest posted `OnPaint` task, if there is one. -/
def RunPostedTask (s : WebPluginProxy) : WebPluginProxy :=
  match s.posted with
  | [] => s
  | d :: rest => OnPaint { s with posted := rest } d

/-- A run of `InvalidateRect` calls, in order. -/
def InvalidateRects (s : WebPluginProxy) (rects : List Rect) : WebPluginProxy :=
  rects.foldl InvalidateRect s

/-- The union of a list of rectangles, accumulated from the left onto `d`. -/
def UnionAll (d : Rect) (rects : List Rect) : Rect :=
  rects.foldl Rect.Union d

/-! ## Sequences of operations -/

/-- The invalidations made while a paint is in flight: `before` arrive while the posted task is
still queued, then the task runs, then `after` arrive while the peer has not answered yet. -/
def DuringFlight (s : WebPluginProxy) (before after : List Rect) : WebPluginProxy :=
  InvalidateRects (RunPostedTask (InvalidateRects s before)) after

/-- The operations of the paint path that the plugin, the peer and the message loop can start. -/
inductive Op where
  | invalidate
  | invalidateRect (rect : Rect)
  | updateGeometry (window_rect clip_rect : Rect)
      (windowless_buffer background_buffer : TransportDIBHandle)
  | runPostedTask
  | didPaint
deriving DecidableEq, Repr

/-- One operation applied to the proxy; only `UpdateGeometry` can fail to return. -/
def Op.apply (build : Build) (s : WebPluginProxy) : Op → Except Crash WebPluginProxy
  | Op.invalidate => Except.ok (Invalidate s)
  | Op.invalidateRect rect => Except.ok (InvalidateRect s rect)
  | Op.updateGeometry w c wb bb => UpdateGeometry build s w c wb bb
  | Op.runPostedTask => Except.ok (RunPostedTask s)
  | Op.didPaint => Except.ok (DidPaint s)

/-- A sequence of operations applied in order, with no restriction on the order; it ends where
an operation does not return. -/
def ApplyOps (build : Build) (s : WebPluginProxy) : List Op → Except Crash WebPluginProxy
  | [] => Except.ok s
  | op :: ops =>
    match Op.apply build s op with
    | Except.error e => Except.error e
    | Except.ok t => ApplyOps build t ops

/-- A sequence of operations applied in order when the peer follows the paint protocol: it calls
`DidPaint` only in answer to an `InvalidateRect` notice, once per notice. `pending` counts the
notices sent by executed `OnPaint` tasks that are not answered yet; the result is `none` when a
`DidPaint` arrives with no notice to answer, or when an operation does not return. -/
def ApplyAnswered (build : Build) (s : WebPluginProxy) (pending : Nat) :
    List Op → Option (WebPluginProxy × Nat)
  | [] => some (s, pending)
  | Op.didPaint :: ops =>
    match pending with
    | 0 => none
    | n + 1 => ApplyAnswered build (DidPaint s) n ops
  | Op.runPostedTask :: ops =>
    ApplyAnswered build (RunPostedTask s)
      (if s.posted.isEmpty then pending else pending + 1) ops
  | Op.invalidate :: ops => ApplyAnswered build (Invalidate s) pending ops
  | Op.invalidateRect rect :: ops => ApplyAnswered build (InvalidateRect s rect) pending ops
  | Op.updateGeometry w c wb bb :: ops =>
    match UpdateGeometry build s w c wb bb with
    | Except.error _ => none
    | Except.ok t => ApplyAnswered build t pending ops

/-- The invariant that keeps a single paint outstanding: the posted tasks and the notices the
peer has not answered yet are at most one in all, and while there is one `waiting_for_paint_`
is set. -/
def PaintInvariant (s : WebPluginProxy) (pending : Nat) : Prop :=
  s.posted.length + pending ≤ 1 ∧
  (s.posted.length + pending = 1 → s.waiting_for_paint_ = true)

/-! ## The resource client registry and the script object wrappers -/

/-- Model of `std::map<int, WebPluginResourceClient*>` (`ResourceClientMap`): the entries in
iteration order. A client pointer is an address, `0` is `NULL`. -/
abbrev ResourceClientMap := List (Int × Nat)

namespace ResourceClientMap

/-- Model of `std::map::find`: the value stored under `id`, or nothing (`end()`). -/
def find (m : ResourceClientMap) (id : Int) : Option Nat := List.lookup id m

/-- Model of `std::map::erase(key)`: the entry with this key is removed, if there is one. -/
def erase (m : ResourceClientMap) (id : Int) : ResourceClientMap :=
  List.filter (fun e => e.1 != id) m

/-- Model of `m[id] = client`: the entry for `id` is created in key order or overwritten. -/
def assign : ResourceClientMap → Int → Nat → ResourceClientMap
  | [], id, client => [(id, client)]
  | (k, v) :: rest, id, client =>
    if id < k then (id, client) :: (k, v) :: rest
    else if id = k then (id, client) :: rest
    else (k, v) :: assign rest id client

end ResourceClientMap

/-- The wrapper object behind an `NPObject*` handed to the plugin: the route id and remote
pointer it was created for, and its reference count. -/
structure NPObject where
  route_id : Int
  npobject_ptr : Int
  referenceCount : Nat
deriving DecidableEq, Repr

/-- Modelled from the spec: `WebBindings::retainObject` (WebKit, not among the sources), which
returns the same object "with an incremented reference". -/
def retainObject (o : NPObject) : NPObject :=
  { o with referenceCount := o.referenceCount + 1 }

/-- Modelled from the spec: `NPObjectProxy::Create` (npobject_proxy.cc is not among the sources),
which "constructs a new wrapper" for the remote object; a new object holds one reference. -/
def NPObjectProxy.Create (route_id : Int) (npobject_ptr : Int) : NPObject :=
  { route_id := route_id, npobject_ptr := npobject_ptr, referenceCount := 1 }

/-- Messages the registry code sends to the peer. -/
inductive HostMsg where
  /-- Message `PluginHostMsg_CancelResource(route_id, id)`. -/
  | CancelResource (route_id : Int) (id : Int)
  /-- Message `PluginHostMsg_GetWindowScriptNPObject(route_id, npobject_route_id, ...)`. -/
  | GetWindowScriptNPObject (route_id : Int) (npobject_route_id : Int)
  /-- Message `PluginHostMsg_GetPluginElement(route_id, npobject_route_id, ...)`. -/
  | GetPluginElement (route_id : Int) (npobject_route_id : Int)
deriving DecidableEq, Repr

/-- The members of `WebPluginProxy` behind the two registries: the resource clients, the cached
window and plugin-element wrappers, the channel's route id generator (modelled from the spec as
a counter of fresh ids) and the messages sent to the peer, oldest first. -/
structure ProxyRegistries where
  route_id_ : Int
  resource_clients_ : ResourceClientMap
  window_npobject_ : Option NPObject
  plugin_element_ : Option NPObject
  next_route_id : Int
  sent : List HostMsg
deriving DecidableEq, Repr

/-- The assertion that stopped a debug build. -/
inductive AssertionFailure where
  | notreached
  | dcheck
deriving DecidableEq, Repr

/-- `WebPluginProxy::CancelResource` (webplugin_proxy.cc:168-171). -/
def CancelResource (s : ProxyRegistries) (id : Int) : ProxyRegistries :=
  { s with sent := s.sent ++ [HostMsg.CancelResource s.route_id_ id],
           resource_clients_ := s.resource_clients_.erase id }

/-- `WebPluginProxy::GetResourceClient` (webplugin_proxy.cc:294-304): the pointer returned
(`0` for `NULL`) and the proxy after the call. -/
def GetResourceClient (s : ProxyRegistries) (id : Int) : Nat × ProxyRegistries :=
  match s.resource_clients_.find id with
  | none => (0, s)
  | some client => (client, s)

/-- `WebPluginProxy::OnResourceCreated` (webplugin_proxy.cc:320-330). A failed assertion ends a
debug build; a release build has no assertions. -/
def OnResourceCreated (build : Build) (s : ProxyRegistries) (resource_id : Int) (cookie : Nat) :
    Except AssertionFailure ProxyRegistries :=
  let resource_client := cookie
  if resource_client = 0 then
    match build with
    | Build.debug => Except.error AssertionFailure.notreached
    | Build.release => Except.ok s
  else
    if build = Build.debug ∧ ¬ (s.resource_clients_.find resource_id = none) then
      Except.error AssertionFailure.dcheck
    else
      Except.ok { s with resource_clients_ :=
                    s.resource_clients_.assign resource_id resource_client }

/-- The loop of `WebPluginProxy::ResourceClientDeleted`: `visited` are the entries the iterator
has passed and kept, `remaining` the entries from the iterator to `end()`. -/
def ResourceClientDeleted.loop (resource_client : Nat) :
    ResourceClientMap → ResourceClientMap → ResourceClientMap
  | visited, [] => visited
  | visited, (id, client) :: rest =>
    if client = resource_client then ResourceClientDeleted.loop resource_client visited rest
    else ResourceClientDeleted.loop resource_client (visited ++ [(id, client)]) rest

/-- `WebPluginProxy::ResourceClientDeleted` (webplugin_proxy.cc:685-697). -/
def ResourceClientDeleted (s : ProxyRegistries) (resource_client : Nat) : ProxyRegistries :=
  { s with resource_clients_ :=
      ResourceClientDeleted.loop resource_client [] s.resource_clients_ }

/-- `WebPluginProxy::GetWindowScriptNPObject` (webplugin_proxy.cc:207-224). `reply` is what the
peer answers to the synchronous request: the success flag and the remote pointer. -/
def GetWindowScriptNPObject (s : ProxyRegistries) (reply : Bool × Int) :
    Option NPObject × ProxyRegistries :=
  match s.window_npobject_ with
  | some w => (some (retainObject w), { s with window_npobject_ := some (retainObject w) })
  | none =>
    let npobject_route_id := s.next_route_id
    let s1 := { s with next_route_id := s.next_route_id + 1,
                       sent := s.sent ++
                         [HostMsg.GetWindowScriptNPObject s.route_id_ npobject_route_id] }
    if !reply.1 then (none, s1)
    else
      let w := NPObjectProxy.Create npobject_route_id reply.2
      (some w, { s1 with window_npobject_ := some w })

/-- `WebPluginProxy::GetPluginElement` (webplugin_proxy.cc:226-243). -/
def GetPluginElement (s : ProxyRegistries) (reply : Bool × Int) :
    Option NPObject × ProxyRegistries :=
  match s.plugin_element_ with
  | some w => (some (retainObject w), { s with plugin_element_ := some (retainObject w) })
  | none =>
    let npobject_route_id := s.next_route_id
    let s1 := { s with next_route_id := s.next_route_id + 1,
                       sent := s.sent ++
                         [HostMsg.GetPluginElement s.route_id_ npobject_route_id] }
    if !reply.1 then (none, s1)
    else
      let w := NPObjectProxy.Create npobject_route_id reply.2
      (some w, { s1 with plugin_element_ := some w })

/-- A run of later `GetWindowScriptNPObject` calls, one per peer reply, keeping the proxy. -/
def LaterWindowCalls (s : ProxyRegistries) (replies : List (Bool × Int)) : ProxyRegistries :=
  replies.foldl (fun t r => (GetWindowScriptNPObject t r).2) s

/-- A run of later `GetPluginElement` calls, one per peer reply, keeping the proxy. -/
def LaterElementCalls (s : ProxyRegistries) (replies : List (Bool × Int)) : ProxyRegistries :=
  replies.foldl (fun t r => (GetPluginElement t r).2) s

end WebPlugin

/-! # The retry and poll cycles of `TranslateHelper`

A shallow embedding of the deferred tasks of `chrome/renderer/translate_helper.cc`. The helper
is a record of its member variables; `posted` holds the tasks of `method_factory_` that were
posted and have not run yet (oldest first, each with its delay), and `trace` records in order
the scripts executed in the page, the tasks posted and the messages sent to the browser. A
method that can reach a `DCHECK` or a `NOTREACHED()` returns an `Except`: a build with
assertions ends there, a build without goes on as the source says.
-/

namespace Translate

/-- The constant `kTranslateInitCheckDelayMs` (translate_helper.cc:17). -/
def kTranslateInitCheckDelayMs : Int := 150

/-- The constant `kMaxTranslateInitCheckAttempts` (translate_helper.cc:21). -/
def kMaxTranslateInitCheckAttempts : Int := 5

/-- The constant `kTranslateStatusCheckDelayMs` (translate_helper.cc:25). -/
def kTranslateStatusCheckDelayMs : Int := 400

/-- The constant `kAutoDetectionLanguage` (translate_helper.cc:28). -/
def kAutoDetectionLanguage : String := "auto"

/-- What evaluating a script in the page can give back: nothing, a boolean, a string, or a value
of another kind. -/
inductive V8Value where
  | empty
  | boolean (b : Bool)
  | string (s : String)
  | other
deriving DecidableEq, Repr

/-- Modelled from the spec: the `RenderView` the helper works for (render_view.h is not among the
sources): the id of the page it shows, its routing id, and its main frame, if any. The frame is
the function that gives, for the scripts evaluated in it so far (oldest first) and the script
evaluated now, the value the page gives back; so what the page answers can change from one
evaluation to the next. -/
structure RenderView where
  page_id : Int
  routing_id : Int
  main_frame : Option (List String → String → V8Value)

/-- Modelled from the spec: the values of `TranslateErrors::Type` (translate_errors.h is not among
the sources) that the helper reports. -/
inductive TranslateErrors where
  | NONE
  | INITIALIZATION_ERROR
  | TRANSLATION_ERROR
deriving DecidableEq, Repr

/-- The methods the helper posts to the message loop through `method_factory_`. -/
inductive TranslateTask where
  | TranslatePageImpl (count : Int)
  | CheckTranslateStatus
deriving DecidableEq, Repr

/-- What the helper does, in the order it does it. -/
inductive TranslateEvent where
  /-- A script is evaluated in the main frame. -/
  | executeScript (script : String)
  /-- A call of `IsTranslateLibReady` has returned `result`. -/
  | libReadyChecked (result : Bool)
  /-- Call of `PostDelayedTask` with this task and delay in milliseconds. -/
  | postDelayedTask (task : TranslateTask) (delay_ms : Int)
  /-- Message `ViewHostMsg_PageTranslated` sent to the browser. -/
  | pageTranslated (routing_id page_id : Int) (source_lang target_lang : String)
      (error : TranslateErrors)
deriving DecidableEq, Repr

/-- The member variables of `TranslateHelper`. `dont_delay_tasks` is what the virtual
`DontDelayTasks()` returns (modelled from the spec: translate_helper.h is not among the
sources). -/
structure TranslateHelper where
  dont_delay_tasks : Bool
  translation_pending_ : Bool
  page_id_ : Int
  source_lang_ : String
  target_lang_ : String
  posted : List (TranslateTask × Int)
  trace : List TranslateEvent
deriving DecidableEq, Repr

/-- The scripts evaluated in the main frame so far, oldest first, read off the trace. -/
def ExecutedScripts (tr : List TranslateEvent) : List String :=
  tr.filterMap (fun e =>
    match e with
    | TranslateEvent.executeScript script => some script
    | _ => none)

/-- The script evaluations a call of `ExecuteScriptAndGetBoolResult` adds to the trace: one when
there is a main frame, none otherwise. -/
def ScriptLog (rv : RenderView) (script : String) : List TranslateEvent :=
  match rv.main_frame with
  | none => []
  | some _ => [TranslateEvent.executeScript script]

/-- `TranslateHelper::ExecuteScriptAndGetBoolResult` (translate_helper.cc:220-234): `some b` when
it returns true with `*value = b`, `none` when it returns false. `DCHECK(value)` holds at every
call, each passes the address of a local. -/
def ExecuteScriptAndGetBoolResult (rv : RenderView) (h : TranslateHelper) (script : String) :
    Option Bool × TranslateHelper :=
  match rv.main_frame with
  | none => (none, h)
  | some frame =>
    let h1 := { h with trace := h.trace ++ [TranslateEvent.executeScript script] }
    match frame (ExecutedScripts h.trace) script with
    | V8Value.boolean b => (some b, h1)
    | _ => (none, h1)

/-- `TranslateHelper::ExecuteScriptAndGetStringResult` (translate_helper.cc:236-254). -/
def ExecuteScriptAndGetStringResult (rv : RenderView) (h : TranslateHelper) (script : String) :
    Option String × TranslateHelper :=
  match rv.main_frame with
  | none => (none, h)
  | some frame =>
    let h1 := { h with trace := h.trace ++ [TranslateEvent.executeScript script] }
    match frame (ExecutedScripts h.trace) script with
    | V8Value.string v => (some v, h1)
    | _ => (none, h1)

/-- The statement `NOTREACHED(); return fallback;`: a build with assertions ends there, a build
without returns `fallback`. -/
def NotReached {α : Type} (build : WebPlugin.Build) (fallback : α) :
    Except WebPlugin.AssertionFailure α :=
  match build with
  | WebPlugin.Build.debug => Except.error WebPlugin.AssertionFailure.notreached
  | WebPlugin.Build.release => Except.ok fallback

/-- `TranslateHelper::IsTranslateLibReady` (translate_helper.cc:116-124); a call that returns is
recorded in the trace with its result. -/
def IsTranslateLibReady (build : WebPlugin.Build) (rv : RenderView) (h : TranslateHelper) :
    Except WebPlugin.AssertionFailure (Bool × TranslateHelper) :=
  let r := ExecuteScriptAndGetBoolResult rv h "cr.googleTranslate.libReady"
  match r.1 with
  | none =>
    NotReached build
      (false, { r.2 with trace := r.2.trace ++ [TranslateEvent.libReadyChecked false] })
  | some lib_ready =>
    Except.ok
      (lib_ready, { r.2 with trace := r.2.trace ++ [TranslateEvent.libReadyChecked lib_ready] })

/-- `TranslateHelper::HasTranslationFinished` (translate_helper.cc:126-135). -/
def HasTranslationFinished (build : WebPlugin.Build) (rv : RenderView) (h : TranslateHelper) :
    Except WebPlugin.AssertionFailure (Bool × TranslateHelper) :=
  let r := ExecuteScriptAndGetBoolResult rv h "cr.googleTranslate.finished"
  match r.1 with
  | none => NotReached build (true, r.2)
  | some translation_finished => Except.ok (translation_finished, r.2)

/-- `TranslateHelper::HasTranslationFailed` (translate_helper.cc:137-146). -/
def HasTranslationFailed (build : WebPlugin.Build) (rv : RenderView) (h : TranslateHelper) :
    Except WebPlugin.AssertionFailure (Bool × TranslateHelper) :=
  let r := ExecuteScriptAndGetBoolResult rv h "cr.googleTranslate.error"
  match r.1 with
  | none => NotReached build (true, r.2)
  | some translation_failed => Except.ok (translation_failed, r.2)

/-- The script `StartTranslation` evaluates for these languages. -/
def TranslateScript (source_lang target_lang : String) : String :=
  "cr.googleTranslate.translate('" ++ source_lang ++ "','" ++ target_lang ++ "')"

/-- `TranslateHelper::StartTranslation` (translate_helper.cc:148-157). -/
def StartTranslation (build : WebPlugin.Build) (rv : RenderView) (h : TranslateHelper) :
    Except WebPlugin.AssertionFailure (Bool × TranslateHelper) :=
  let r := ExecuteScriptAndGetBoolResult rv h (TranslateScript h.source_lang_ h.target_lang_)
  match r.1 with
  | none => NotReached build (false, r.2)
  | some translate_success => Except.ok (translate_success, r.2)

/-- `TranslateHelper::GetOriginalPageLanguage` (translate_helper.cc:159-163). -/
def GetOriginalPageLanguage (rv : RenderView) (h : TranslateHelper) : String × TranslateHelper :=
  let r := ExecuteScriptAndGetStringResult rv h "cr.googleTranslate.sourceLang"
  match r.1 with
  | none => ("", r.2)
  | some lang => (lang, r.2)

/-- `TranslateHelper::NotifyBrowserTranslationFailed` (translate_helper.cc:285-291). -/
def NotifyBrowserTranslationFailed (rv : RenderView) (h : TranslateHelper)
    (error : TranslateErrors) : TranslateHelper :=
  { h with translation_pending_ := false,
           trace := h.trace ++ [TranslateEvent.pageTranslated rv.routing_id h.page_id_
             h.source_lang_ h.target_lang_ error] }

/-- The delay of a status check: `DontDelayTasks() ? 0 : kTranslateStatusCheckDelayMs`. -/
def StatusCheckDelay (h : TranslateHelper) : Int :=
  if h.dont_delay_tasks then 0 else kTranslateStatusCheckDelayMs

/-- The delay of a retry: `DontDelayTasks() ? 0 : count * kTranslateInitCheckDelayMs`. -/
def InitCheckDelay (h : TranslateHelper) (count : Int) : Int :=
  if h.dont_delay_tasks then 0 else count * kTranslateInitCheckDelayMs

/-- `MessageLoop::current()->PostDelayedTask` for a method of the helper. -/
def PostDelayedTask (h : TranslateHelper) (task : TranslateTask) (delay_ms : Int) :
    TranslateHelper :=
  { h with posted := h.posted ++ [(task, delay_ms)],
           trace := h.trace ++ [TranslateEvent.postDelayedTask task delay_ms] }

/-- `TranslateHelper::CheckTranslateStatus` (translate_helper.cc:168-210). -/
def CheckTranslateStatus (build : WebPlugin.Build) (rv : RenderView) (h : TranslateHelper) :
    Except WebPlugin.AssertionFailure TranslateHelper :=
  if h.page_id_ != rv.page_id then Except.ok h
  else
    match HasTranslationFailed build rv h with
    | Except.error e => Except.error e
    | Except.ok failed =>
      if failed.1 then
        Except.ok
          (NotifyBrowserTranslationFailed rv failed.2 TranslateErrors.TRANSLATION_ERROR)
      else
        match HasTranslationFinished build rv failed.2 with
        | Except.error e => Except.error e
        | Except.ok finished =>
          if finished.1 then
            let h2 := finished.2
            let detected :=
              if h2.source_lang_ == kAutoDetectionLanguage then GetOriginalPageLanguage rv h2
              else (h2.source_lang_, h2)
            if h2.source_lang_ == kAutoDetectionLanguage && detected.1.isEmpty then
              Except.ok
                (NotifyBrowserTranslationFailed rv detected.2 TranslateErrors.TRANSLATION_ERROR)
            else if !detected.2.translation_pending_ then NotReached build detected.2
            else
              Except.ok
                { detected.2 with
                  translation_pending_ := false,
                  trace := detected.2.trace ++
                    [TranslateEvent.pageTranslated rv.routing_id rv.page_id
                      detected.1 detected.2.target_lang_ TranslateErrors.NONE] }
          else
            Except.ok
              (PostDelayedTask finished.2 TranslateTask.CheckTranslateStatus
                (StatusCheckDelay finished.2))

/-- `TranslateHelper::TranslatePageImpl` (translate_helper.cc:256-283). A build with assertions
ends at `DCHECK_LT(count, kMaxTranslateInitCheckAttempts)` when `count` is not below the
maximum. -/
def TranslatePageImpl (build : WebPlugin.Build) (rv : RenderView) (h : TranslateHelper)
    (count : Int) : Except WebPlugin.AssertionFailure TranslateHelper :=
  if build = WebPlugin.Build.debug ∧ ¬ (count < kMaxTranslateInitCheckAttempts) then
    Except.error WebPlugin.AssertionFailure.dcheck
  else if h.page_id_ != rv.page_id then Except.ok h
  else
    match IsTranslateLibReady build rv h with
    | Except.error e => Except.error e
    | Except.ok ready =>
      if !ready.1 then
        let count1 := count + 1
        if count1 ≥ kMaxTranslateInitCheckAttempts then
          Except.ok
            (NotifyBrowserTranslationFailed rv ready.2 TranslateErrors.INITIALIZATION_ERROR)
        else
          Except.ok
            (PostDelayedTask ready.2 (TranslateTask.TranslatePageImpl count1)
              (InitCheckDelay ready.2 count1))
      else
        match StartTranslation build rv ready.2 with
        | Except.error e => Except.error e
        | Except.ok started =>
          if !started.1 then
            Except.ok
              (NotifyBrowserTranslationFailed rv started.2 TranslateErrors.TRANSLATION_ERROR)
          else
            Except.ok
              (PostDelayedTask started.2 TranslateTask.CheckTranslateStatus
                (StatusCheckDelay started.2))

/-- The message loop runs the oldest posted task of the helper, if there is one. -/
def RunTask (build : WebPlugin.Build) (rv : RenderView) (h : TranslateHelper) :
    Except WebPlugin.AssertionFailure TranslateHelper :=
  match h.posted with
  | [] => Except.ok h
  | (TranslateTask.TranslatePageImpl count, _) :: rest =>
    TranslatePageImpl build rv { h with posted := rest } count
  | (TranslateTask.CheckTranslateStatus, _) :: rest =>
    CheckTranslateStatus build rv { h with posted := rest }

/-- The message loop runs `n` posted tasks, one after the other, on a page whose id does not
change; it ends where a task does not return. -/
def RunTasks (build : WebPlugin.Build) (rv : RenderView) :
    Nat → TranslateHelper → Except WebPlugin.AssertionFailure TranslateHelper
  | 0, h => Except.ok h
  | n + 1, h =>
    match RunTask build rv h with
    | Except.error e => Except.error e
    | Except.ok t => RunTasks build rv n t

/-- The tasks posted so far, with their delays, read off the trace. -/
def PostedLog (tr : List TranslateEvent) : List (TranslateTask × Int) :=
  tr.filterMap (fun e =>
    match e with
    | TranslateEvent.postDelayedTask task delay_ms => some (task, delay_ms)
    | _ => none)

/-- The messages sent to the browser so far, read off the trace. -/
def SentLog (tr : List TranslateEvent) : List TranslateEvent :=
  tr.filter (fun e =>
    match e with
    | TranslateEvent.pageTranslated _ _ _ _ _ => true
    | _ => false)

/-- The number of calls of `IsTranslateLibReady` that returned so far, read off the trace. -/
def LibReadyChecks (tr : List TranslateEvent) : Nat :=
  (tr.filter (fun e =>
    match e with
    | TranslateEvent.libReadyChecked _ => true
    | _ => false)).length

/-- The trace of `n` readiness checks that found the library not ready and posted a retry:
the `i`-th evaluates the script, records the failed check and posts `TranslatePageImpl(i)`. -/
def RetryTrace (rv : RenderView) (h : TranslateHelper) : Nat → List TranslateEvent
  | 0 => []
  | n + 1 =>
    RetryTrace rv h n ++ ScriptLog rv "cr.googleTranslate.libReady" ++
      [TranslateEvent.libReadyChecked false,
       TranslateEvent.postDelayedTask (TranslateTask.TranslatePageImpl ((n : Int) + 1))
         (InitCheckDelay h ((n : Int) + 1))]

/-- The trace of `n` status checks that found the translation neither failed nor finished:
each evaluates the two scripts and posts the next `CheckTranslateStatus`. -/
def PollTrace (h : TranslateHelper) : Nat → List TranslateEvent
  | 0 => []
  | n + 1 =>
    PollTrace h n ++
      [TranslateEvent.executeScript "cr.googleTranslate.error",
       TranslateEvent.executeScript "cr.googleTranslate.finished",
       TranslateEvent.postDelayedTask TranslateTask.CheckTranslateStatus (StatusCheckDelay h)]

/-- `TranslateHelper::CancelPendingTranslation` (translate_helper.cc:94-100); `RevokeAll` drops
every task posted through `method_factory_`. -/
def CancelPendingTranslation (h : TranslateHelper) : TranslateHelper :=
  { h with posted := [], translation_pending_ := false, page_id_ := -1,
           source_lang_ := "", target_lang_ := "" }

/-- `TranslateHelper::ExecuteScript` (translate_helper.cc:212-218). -/
def ExecuteScript (rv : RenderView) (h : TranslateHelper) (script : String) :
    Bool × TranslateHelper :=
  match rv.main_frame with
  | none => (false, h)
  | some _ => (true, { h with trace := h.trace ++ [TranslateEvent.executeScript script] })

/-- The script `IsTranslateLibAvailable` evaluates. -/
def LibAvailableScript : String :=
  "typeof cr != 'undefined' && typeof cr.googleTranslate != 'undefined' && " ++
    "typeof cr.googleTranslate.translate == 'function'"

/-- `TranslateHelper::IsTranslateLibAvailable` (translate_helper.cc:105-114). -/
def IsTranslateLibAvailable (build : WebPlugin.Build) (rv : RenderView) (h : TranslateHelper) :
    Except WebPlugin.AssertionFailure (Bool × TranslateHelper) :=
  let r := ExecuteScriptAndGetBoolResult rv h LibAvailableScript
  match r.1 with
  | none => NotReached build (false, r.2)
  | some lib_available => Except.ok (lib_available, r.2)

/-- `TranslateHelper::TranslatePage` (translate_helper.cc:40-73). `kUnknownLanguageCode` is the
constant `RenderView::kUnknownLanguageCode`, which is not among the sources. In a build with
assertions the `DCHECK` after `ExecuteScript` evaluates `IsTranslateLibAvailable()` once more and
ends the build when the library is still not available. -/
def TranslatePage (build : WebPlugin.Build) (kUnknownLanguageCode : String) (rv : RenderView)
    (h : TranslateHelper) (page_id : Int) (source_lang target_lang translate_script : String) :
    Except WebPlugin.AssertionFailure TranslateHelper :=
  if rv.page_id != page_id then Except.ok h
  else if h.translation_pending_ && page_id == h.page_id_ && h.target_lang_ == target_lang then
    Except.ok h
  else
    let h1 := CancelPendingTranslation h
    let h2 := { h1 with
      translation_pending_ := true,
      page_id_ := page_id,
      source_lang_ :=
        if source_lang != kUnknownLanguageCode then source_lang else kAutoDetectionLanguage,
      target_lang_ := target_lang }
    match IsTranslateLibAvailable build rv h2 with
    | Except.error e => Except.error e
    | Except.ok available =>
      if !available.1 then
        let executed := ExecuteScript rv available.2 translate_script
        match build with
        | WebPlugin.Build.debug =>
          match IsTranslateLibAvailable build rv executed.2 with
          | Except.error e => Except.error e
          | Except.ok again =>
            if !again.1 then Except.error WebPlugin.AssertionFailure.dcheck
            else TranslatePageImpl build rv again.2 0
        | WebPlugin.Build.release => TranslatePageImpl build rv executed.2 0
      else TranslatePageImpl build rv available.2 0

/-- Two states of the helper that differ at most in the scripts evaluated: same members, same
posted tasks, same messages sent. -/
def SameUpToScripts (a b : TranslateHelper) : Prop :=
  b.dont_delay_tasks = a.dont_delay_tasks ∧ b.translation_pending_ = a.translation_pending_ ∧
  b.page_id_ = a.page_id_ ∧ b.source_lang_ = a.source_lang_ ∧
  b.target_lang_ = a.target_lang_ ∧ b.posted = a.posted ∧
  SentLog b.trace = SentLog a.trace

end Translate

/-! # The minimal display time of `UpdateScreen`

A shallow embedding of `chrome/browser/chromeos/login/update_screen.cc`. The screen is a record
of its member variables and of the collaborators' state it reads; `trace` records in order the
calls it makes on the view, the timer, the updater and the observer.
-/

namespace ChromeOS

/-- The constant `kMinimalUpdateTime`, in seconds (update_screen.cc:13). -/
def kMinimalUpdateTime : Int := 3

/-- The constant `kUpdateCheckProgressIncrement` (update_screen.cc:16). -/
def kUpdateCheckProgressIncrement : Int := 20

/-- The constant `kUpdateCompleteProgressIncrement` (update_screen.cc:17). -/
def kUpdateCompleteProgressIncrement : Int := 75

/-- Modelled from the spec: the enumeration `GoogleUpdateUpgradeResult` (google_update.h is not
among the sources): the five values the source names and the one it does not. -/
inductive GoogleUpdateUpgradeResult where
  | UPGRADE_STARTED
  | UPGRADE_CHECK_STARTED
  | UPGRADE_IS_AVAILABLE
  | UPGRADE_SUCCESSFUL
  | UPGRADE_ALREADY_UP_TO_DATE
  | UPGRADE_ERROR
deriving DecidableEq, Repr

/-- Modelled from the spec: the enumeration `GoogleUpdateErrorCode` (google_update.h is not
among the sources): the two codes the source names, and any other code. -/
inductive GoogleUpdateErrorCode where
  | GOOGLE_UPDATE_NO_ERROR
  | GOOGLE_UPDATE_ERROR_UPDATING
  | other (code : Nat)
deriving DecidableEq, Repr

/-- Modelled from the spec: the exit codes of `ScreenObserver` (screen_observer.h is not among
the sources) that the update screen reports. -/
inductive ExitCodes where
  | UPDATE_NOUPDATE
  | UPDATE_INSTALLED
  | UPDATE_NETWORK_ERROR
  | UPDATE_OTHER_ERROR
deriving DecidableEq, Repr

/-- The calls the screen makes on its collaborators, in the order it makes them. -/
inductive ScreenEvent where
  /-- Call of `view()->AddProgress(increment)`. -/
  | addProgress (increment : Int)
  /-- Call of `view()->Reset()`. -/
  | viewReset
  /-- Call of `view()->set_controller(this)`. -/
  | setController
  /-- Call of `minimal_update_time_timer_.Start` with the delay in seconds. -/
  | timerStart (seconds : Int)
  /-- Call of `minimal_update_time_timer_.Stop()`. -/
  | timerStop
  /-- Call of `google_updater_->CheckForUpdate(install_if_newer, NULL)` on a new updater. -/
  | checkForUpdate (install_if_newer : Bool)
  /-- Call of `observer->OnExit(code)`. -/
  | onExit (code : ExitCodes)
  /-- A `NOTREACHED()` was reached. -/
  | notreached
deriving DecidableEq, Repr

/-- The member variables of `UpdateScreen` and what it reads from its collaborators.
`timer_running` is `minimal_update_time_timer_.IsRunning()` (modelled from the spec: a one-shot
timer, update_screen.h and the timer class are not among the sources), `has_updater` says
whether `google_updater_` is set, `has_observer` whether `delegate()->GetObserver(this)` gives an
observer, and `official_build` whether `OFFICIAL_BUILD` is defined. -/
structure UpdateScreen where
  update_result_ : GoogleUpdateUpgradeResult
  update_error_ : GoogleUpdateErrorCode
  timer_running : Bool
  has_updater : Bool
  has_observer : Bool
  official_build : Bool
  trace : List ScreenEvent
deriving DecidableEq, Repr

/-- The constructor (update_screen.cc:23-27). -/
def UpdateScreen.create (has_observer official_build : Bool) : UpdateScreen :=
  { update_result_ := GoogleUpdateUpgradeResult.UPGRADE_STARTED,
    update_error_ := GoogleUpdateErrorCode.GOOGLE_UPDATE_NO_ERROR,
    timer_running := false, has_updater := false,
    has_observer := has_observer, official_build := official_build, trace := [] }

/-- `UpdateScreen::MinimalUpdateTimeElapsed` (update_screen.cc:123-125). -/
def MinimalUpdateTimeElapsed (s : UpdateScreen) : Bool := !s.timer_running

/-- `UpdateScreen::ExitUpdate` (update_screen.cc:97-121). -/
def ExitUpdate (s : UpdateScreen) : UpdateScreen :=
  let s1 := { s with timer_running := false, trace := s.trace ++ [ScreenEvent.timerStop] }
  if s1.has_observer then
    match s1.update_result_ with
    | GoogleUpdateUpgradeResult.UPGRADE_ALREADY_UP_TO_DATE =>
      { s1 with trace := s1.trace ++ [ScreenEvent.onExit ExitCodes.UPDATE_NOUPDATE] }
    | GoogleUpdateUpgradeResult.UPGRADE_SUCCESSFUL =>
      { s1 with trace := s1.trace ++ [ScreenEvent.onExit ExitCodes.UPDATE_INSTALLED] }
    | GoogleUpdateUpgradeResult.UPGRADE_ERROR =>
      if s1.update_error_ = GoogleUpdateErrorCode.GOOGLE_UPDATE_ERROR_UPDATING then
        { s1 with trace := s1.trace ++ [ScreenEvent.onExit ExitCodes.UPDATE_NETWORK_ERROR] }
      else
        { s1 with trace := s1.trace ++ [ScreenEvent.onExit ExitCodes.UPDATE_OTHER_ERROR] }
    | _ => { s1 with trace := s1.trace ++ [ScreenEvent.notreached] }
  else s1

/-- The end of the switch in `OnReportResults`, from `case UPGRADE_ERROR` on
(update_screen.cc:62-66). -/
def OnReportResults.exitIfElapsed (s : UpdateScreen) : UpdateScreen :=
  if MinimalUpdateTimeElapsed s then ExitUpdate s else s

/-- `UpdateScreen::OnReportResults` (update_screen.cc:39-70); the cases of the switch fall
through as in the source. The version string is not used. -/
def OnReportResults (s : UpdateScreen) (result : GoogleUpdateUpgradeResult)
    (error_code : GoogleUpdateErrorCode) (version : String) : UpdateScreen :=
  let _ := version
  let s1 := { s with has_updater := false, update_result_ := result,
                     update_error_ := error_code }
  match s1.update_result_ with
  | GoogleUpdateUpgradeResult.UPGRADE_IS_AVAILABLE =>
    { s1 with has_updater := true,
              trace := s1.trace ++ [ScreenEvent.addProgress kUpdateCheckProgressIncrement,
                ScreenEvent.checkForUpdate true] }
  | GoogleUpdateUpgradeResult.UPGRADE_SUCCESSFUL =>
    OnReportResults.exitIfElapsed
      { s1 with trace := s1.trace ++ [ScreenEvent.addProgress kUpdateCompleteProgressIncrement,
                  ScreenEvent.addProgress kUpdateCheckProgressIncrement] }
  | GoogleUpdateUpgradeResult.UPGRADE_ALREADY_UP_TO_DATE =>
    OnReportResults.exitIfElapsed
      { s1 with trace := s1.trace ++ [ScreenEvent.addProgress kUpdateCheckProgressIncrement] }
  | GoogleUpdateUpgradeResult.UPGRADE_ERROR => OnReportResults.exitIfElapsed s1
  | _ => { s1 with trace := s1.trace ++ [ScreenEvent.notreached] }

/-- `UpdateScreen::StartUpdate` (update_screen.cc:72-87). -/
def StartUpdate (s : UpdateScreen) : UpdateScreen :=
  { s with timer_running := true, has_updater := true,
           trace := s.trace ++ [ScreenEvent.viewReset, ScreenEvent.setController,
             ScreenEvent.timerStart kMinimalUpdateTime, ScreenEvent.checkForUpdate false] }

/-- `UpdateScreen::CancelUpdate` (update_screen.cc:89-95). -/
def CancelUpdate (s : UpdateScreen) : UpdateScreen :=
  if !s.official_build then
    ExitUpdate { s with
      update_result_ := GoogleUpdateUpgradeResult.UPGRADE_ALREADY_UP_TO_DATE,
      update_error_ := GoogleUpdateErrorCode.GOOGLE_UPDATE_NO_ERROR }
  else s

/-- `UpdateScreen::OnMinimalUpdateTimeElapsed` (update_screen.cc:131-137). -/
def OnMinimalUpdateTimeElapsed (s : UpdateScreen) : UpdateScreen :=
  if s.update_result_ = GoogleUpdateUpgradeResult.UPGRADE_SUCCESSFUL ∨
      s.update_result_ = GoogleUpdateUpgradeResult.UPGRADE_ALREADY_UP_TO_DATE ∨
      s.update_result_ = GoogleUpdateUpgradeResult.UPGRADE_ERROR then
    ExitUpdate s
  else s

/-- Modelled from the spec: the one-shot timer fires. When it is running and its delay has
passed it stops running and calls `OnMinimalUpdateTimeElapsed`; a stopped timer does nothing. -/
def TimerFires (s : UpdateScreen) : UpdateScreen :=
  if s.timer_running then OnMinimalUpdateTimeElapsed { s with timer_running := false } else s

/-- The codes passed to the observer's `OnExit` so far, read off the trace. -/
def OnExitLog (tr : List ScreenEvent) : List ExitCodes :=
  tr.filterMap (fun e =>
    match e with
    | ScreenEvent.onExit code => some code
    | _ => none)

/-- The number of calls of `ExitUpdate` so far: each one stops the timer, and nothing else
does. -/
def ExitUpdateCalls (tr : List ScreenEvent) : Nat :=
  (tr.filter (fun e =>
    match e with
    | ScreenEvent.timerStop => true
    | _ => false)).length

/-- What can happen to the screen while it is shown, other than `CancelUpdate` and the timer
firing: the updater reports a result, or the update is started again. -/
inductive ScreenOp where
  | reportResults (result : GoogleUpdateUpgradeResult) (error_code : GoogleUpdateErrorCode)
      (version : String)
  | startUpdate
deriving DecidableEq, Repr

/-- One such operation applied to the screen. -/
def ScreenOp.apply (s : UpdateScreen) : ScreenOp → UpdateScreen
  | ScreenOp.reportResults result error_code version =>
    OnReportResults s result error_code version
  | ScreenOp.startUpdate => StartUpdate s

/-- A sequence of such operations applied in order. -/
def ApplyScreenOps (s : UpdateScreen) (ops : List ScreenOp) : UpdateScreen :=
  ops.foldl ScreenOp.apply s

/-- The three results that end the update. -/
def IsTerminal (result : GoogleUpdateUpgradeResult) : Bool :=
  result = GoogleUpdateUpgradeResult.UPGRADE_SUCCESSFUL ||
  result = GoogleUpdateUpgradeResult.UPGRADE_ALREADY_UP_TO_DATE ||
  result = GoogleUpdateUpgradeResult.UPGRADE_ERROR

end ChromeOS

namespace WebPlugin

/-! ## Facts about rectangles -/

theorem Rect.zero_IsEmpty : Rect.zero.IsEmpty = true := by decide

theorem Rect.Union_of_IsEmpty_left (a r : Rect) (h : a.IsEmpty = true) : a.Union r = r := by
  simp [Rect.Union, h]

theorem Rect.Union_zero_left (r : Rect) : Rect.zero.Union r = r :=
  Rect.Union_of_IsEmpty_left Rect.zero r Rect.zero_IsEmpty

theorem Rect.Union_of_IsEmpty_right (a r : Rect) (ha : a.IsEmpty = false)
    (h : r.IsEmpty = true) : a.Union r = a := by
  simp [Rect.Union, h, ha]

theorem Rect.Union_self (r : Rect) : r.Union r = r := by
  cases hr : r.IsEmpty
  · obtain ⟨x, y, w, h⟩ := r
    simp only [Rect.Union, hr, Rect.make, Rect.right, Rect.bottom]
    simp
  · exact Rect.Union_of_IsEmpty_left r r hr

theorem Rect.Union_IsEmpty (a r : Rect) :
    (a.Union r).IsEmpty = (a.IsEmpty && r.IsEmpty) := by
  cases ha : a.IsEmpty
  · cases hr : r.IsEmpty
    · obtain ⟨ax, ay, aw, ah⟩ := a
      obtain ⟨x, y, w, h⟩ := r
      simp only [Rect.Union, ha, hr, Rect.make, Rect.right, Rect.bottom]
      simp only [Rect.IsEmpty, Bool.or_eq_false_iff, beq_eq_false_iff_ne, ne_eq] at ha hr
      simp only [Rect.IsEmpty, Bool.false_and, Bool.or_eq_false_iff, beq_eq_false_iff_ne, ne_eq,
        Bool.false_eq_true, if_false]
      constructor <;> omega
    · simp [Rect.Union, ha, hr]
  · simp [Rect.Union, ha]

theorem Rect.Contains_iff (a r : Rect) :
    a.Contains r = true ↔ (a.x ≤ r.x ∧ r.right ≤ a.right ∧ a.y ≤ r.y ∧ r.bottom ≤ a.bottom) := by
  simp [Rect.Contains, and_assoc]

theorem Rect.Intersects_iff (a r : Rect) :
    a.Intersects r = true ↔ (r.x < a.right ∧ a.x < r.right ∧ r.y < a.bottom ∧ a.y < r.bottom) := by
  simp [Rect.Intersects, and_assoc]

theorem Rect.Contains_refl (a : Rect) : a.Contains a = true := by
  simp [Rect.Contains_iff]

theorem Rect.Contains_trans (a b c : Rect) (hab : a.Contains b = true)
    (hbc : b.Contains c = true) : a.Contains c = true := by
  rw [Rect.Contains_iff] at *
  omega

theorem Rect.Contains_Union_left (a r : Rect) (ha : a.IsEmpty = false) :
    (a.Union r).Contains a = true := by
  cases hr : r.IsEmpty
  · obtain ⟨ax, ay, aw, ah⟩ := a
    obtain ⟨x, y, w, h⟩ := r
    simp only [Rect.Union, ha, hr, Rect.make, Rect.Contains_iff, Rect.right, Rect.bottom,
      Bool.false_eq_true, if_false]
    omega
  · rw [Rect.Union_of_IsEmpty_right a r ha hr]
    exact Rect.Contains_refl a

theorem Rect.Contains_Union_right (a r : Rect) (hr : r.IsEmpty = false) :
    (a.Union r).Contains r = true := by
  cases ha : a.IsEmpty
  · obtain ⟨ax, ay, aw, ah⟩ := a
    obtain ⟨x, y, w, h⟩ := r
    simp only [Rect.Union, ha, hr, Rect.make, Rect.Contains_iff, Rect.right, Rect.bottom,
      Bool.false_eq_true, if_false]
    omega
  · rw [Rect.Union_of_IsEmpty_left a r ha]
    exact Rect.Contains_refl r

theorem Rect.Intersects_of_Contains (c u r : Rect) (hc : c.Intersects r = true)
    (hu : u.Contains r = true) : c.Intersects u = true := by
  rw [Rect.Intersects_iff] at *
  rw [Rect.Contains_iff] at hu
  omega

theorem UnionAll_IsEmpty_false (rs : List Rect) (d : Rect) (hd : d.IsEmpty = false) :
    (UnionAll d rs).IsEmpty = false := by
  induction rs generalizing d with
  | nil => simpa [UnionAll] using hd
  | cons r rs ih =>
    have h : (d.Union r).IsEmpty = false := by rw [Rect.Union_IsEmpty, hd]; rfl
    simpa [UnionAll] using ih (d.Union r) h

theorem UnionAll_Contains_init (rs : List Rect) (d : Rect) (hd : d.IsEmpty = false) :
    (UnionAll d rs).Contains d = true := by
  induction rs generalizing d with
  | nil => simpa [UnionAll] using Rect.Contains_refl d
  | cons r rs ih =>
    have h : (d.Union r).IsEmpty = false := by rw [Rect.Union_IsEmpty, hd]; rfl
    have h1 := ih (d.Union r) h
    have h2 := Rect.Contains_Union_left d r hd
    simpa [UnionAll] using Rect.Contains_trans _ _ _ h1 h2

theorem UnionAll_Contains_mem (rs : List Rect) (d r : Rect) (hr : r ∈ rs)
    (hne : r.IsEmpty = false) : (UnionAll d rs).Contains r = true := by
  induction rs generalizing d with
  | nil => cases hr
  | cons q rs ih =>
    rcases List.mem_cons.mp hr with h | h
    · subst h
      have h0 : (d.Union r).IsEmpty = false := by
        rw [Rect.Union_IsEmpty, hne]; simp
      have h1 := UnionAll_Contains_init rs (d.Union r) h0
      have h2 := Rect.Contains_Union_right d r hne
      simpa [UnionAll] using Rect.Contains_trans _ _ _ h1 h2
    · simpa [UnionAll] using ih (d.Union q) h

/-! ## Facts about `InvalidateRect` -/

theorem InvalidateRect_ignored (s : WebPluginProxy) (rect : Rect)
    (h : (rect.IsEmpty || !(s.delegate_.clip_rect.Intersects rect)) = true) :
    InvalidateRect s rect = { s with damaged_rect_ := s.damaged_rect_.Union rect } := by
  simp only [InvalidateRect, h, if_true]

theorem InvalidateRect_waiting (s : WebPluginProxy) (rect : Rect)
    (h : s.waiting_for_paint_ = true) :
    InvalidateRect s rect = { s with damaged_rect_ := s.damaged_rect_.Union rect } := by
  simp only [InvalidateRect, h]
  split <;> simp

theorem InvalidateRect_schedules (s : WebPluginProxy) (rect : Rect)
    (hw : s.waiting_for_paint_ = false) (hne : rect.IsEmpty = false)
    (hc : s.delegate_.clip_rect.Intersects rect = true) :
    InvalidateRect s rect =
      { s with waiting_for_paint_ := true,
               posted := s.posted ++ [s.damaged_rect_.Union rect],
               damaged_rect_ := Rect.zero } := by
  simp [InvalidateRect, hw, hne, hc]

theorem InvalidateRects_waiting (rs : List Rect) (s : WebPluginProxy)
    (h : s.waiting_for_paint_ = true) :
    InvalidateRects s rs = { s with damaged_rect_ := UnionAll s.damaged_rect_ rs } := by
  induction rs generalizing s with
  | nil => simp [InvalidateRects, UnionAll]
  | cons r rs ih =>
    have h1 := InvalidateRect_waiting s r h
    have h2 := ih (InvalidateRect s r) (by rw [h1]; exact h)
    simp only [InvalidateRects, UnionAll, List.foldl_cons] at h2 ⊢
    rw [h2, h1]

/-! ## Coalescing of invalidations (C1) -/

/-- C1, as stated, fails: on a fresh proxy with clip `(0,0,100,100)` the two calls
`InvalidateRect((0,0,10,10))`, `InvalidateRect((20,20,10,10))` (both rectangles are non-empty and
intersect the clip) post one task, and that task carries `(0,0,10,10)`, not the union
`(0,0,30,30)` of the two rectangles. -/
theorem coalescing_carries_union_counterexample :
    (WebPluginProxy.create Platform.linux 7
        ⟨⟨0, 0, 100, 100⟩, ⟨0, 0, 100, 100⟩, true⟩).waiting_for_paint_ = false ∧
    (WebPluginProxy.create Platform.linux 7
        ⟨⟨0, 0, 100, 100⟩, ⟨0, 0, 100, 100⟩, true⟩).damaged_rect_.IsEmpty = true ∧
    Rect.IsEmpty ⟨0, 0, 10, 10⟩ = false ∧ Rect.IsEmpty ⟨20, 20, 10, 10⟩ = false ∧
    Rect.Intersects ⟨0, 0, 100, 100⟩ ⟨0, 0, 10, 10⟩ = true ∧
    Rect.Intersects ⟨0, 0, 100, 100⟩ ⟨20, 20, 10, 10⟩ = true ∧
    UnionAll Rect.zero [⟨0, 0, 10, 10⟩, ⟨20, 20, 10, 10⟩] = ⟨0, 0, 30, 30⟩ ∧
    (InvalidateRects
        (WebPluginProxy.create Platform.linux 7 ⟨⟨0, 0, 100, 100⟩, ⟨0, 0, 100, 100⟩, true⟩)
        [⟨0, 0, 10, 10⟩, ⟨20, 20, 10, 10⟩]).posted = [⟨0, 0, 10, 10⟩] ∧
    (InvalidateRects
        (WebPluginProxy.create Platform.linux 7 ⟨⟨0, 0, 100, 100⟩, ⟨0, 0, 100, 100⟩, true⟩)
        [⟨0, 0, 10, 10⟩, ⟨20, 20, 10, 10⟩]).posted ≠
      [UnionAll Rect.zero [⟨0, 0, 10, 10⟩, ⟨20, 20, 10, 10⟩]] := by
  decide

/-- C1, amended: from a state with no paint pending and an empty `damaged_rect_`, a run of calls
`InvalidateRect(r1), ..., InvalidateRect(rn)` whose first rectangle is non-empty and intersects
the clip posts exactly one `OnPaint` task; the task carries `r1`, the flag `waiting_for_paint_` is
set, and the union of the later rectangles `r2 ∪ ... ∪ rn` is what `damaged_rect_` holds for the
next cycle. -/
theorem coalescing_posts_first_rect (s : WebPluginProxy) (r : Rect) (rs : List Rect)
    (hw : s.waiting_for_paint_ = false) (hd : s.damaged_rect_.IsEmpty = true)
    (hne : r.IsEmpty = false) (hc : s.delegate_.clip_rect.Intersects r = true) :
    (InvalidateRects s (r :: rs)).posted = s.posted ++ [r] ∧
    (InvalidateRects s (r :: rs)).waiting_for_paint_ = true ∧
    (InvalidateRects s (r :: rs)).damaged_rect_ = UnionAll Rect.zero rs := by
  have h1 := InvalidateRect_schedules s r hw hne hc
  rw [Rect.Union_of_IsEmpty_left _ _ hd] at h1
  have h2 := InvalidateRects_waiting rs (InvalidateRect s r) (by rw [h1])
  have h3 : InvalidateRects s (r :: rs) = InvalidateRects (InvalidateRect s r) rs := rfl
  rw [h3, h2, h1]
  exact ⟨rfl, rfl, rfl⟩

theorem coalescing_posts_first_rect_witness :
    (InvalidateRects
        (WebPluginProxy.create Platform.linux 7 ⟨⟨0, 0, 100, 100⟩, ⟨0, 0, 100, 100⟩, true⟩)
        [⟨0, 0, 10, 10⟩, ⟨20, 20, 10, 10⟩, ⟨5, 50, 10, 10⟩]).posted = [] ++ [⟨0, 0, 10, 10⟩] ∧
    (InvalidateRects
        (WebPluginProxy.create Platform.linux 7 ⟨⟨0, 0, 100, 100⟩, ⟨0, 0, 100, 100⟩, true⟩)
        [⟨0, 0, 10, 10⟩, ⟨20, 20, 10, 10⟩, ⟨5, 50, 10, 10⟩]).waiting_for_paint_ = true ∧
    (InvalidateRects
        (WebPluginProxy.create Platform.linux 7 ⟨⟨0, 0, 100, 100⟩, ⟨0, 0, 100, 100⟩, true⟩)
        [⟨0, 0, 10, 10⟩, ⟨20, 20, 10, 10⟩, ⟨5, 50, 10, 10⟩]).damaged_rect_ =
      UnionAll Rect.zero [⟨20, 20, 10, 10⟩, ⟨5, 50, 10, 10⟩] :=
  coalescing_posts_first_rect
    (WebPluginProxy.create Platform.linux 7 ⟨⟨0, 0, 100, 100⟩, ⟨0, 0, 100, 100⟩, true⟩)
    ⟨0, 0, 10, 10⟩ [⟨20, 20, 10, 10⟩, ⟨5, 50, 10, 10⟩]
    (by decide) (by decide) (by decide) (by decide)

/-! ## Ignored invalidations (C2, C3) -/

/-- C2, as stated, fails: with clip `(0,0,10,10)` and an empty `damaged_rect_`, the call
`InvalidateRect((20,20,5,5))`, whose rectangle does not intersect the clip, changes
`damaged_rect_` from the empty rectangle to `(20,20,5,5)`. -/
theorem ignored_invalidate_changes_damage_counterexample :
    Rect.Intersects ⟨0, 0, 10, 10⟩ ⟨20, 20, 5, 5⟩ = false ∧
    (InvalidateRect
        (WebPluginProxy.create Platform.linux 7 ⟨⟨0, 0, 10, 10⟩, ⟨0, 0, 10, 10⟩, true⟩)
        ⟨20, 20, 5, 5⟩).damaged_rect_ = ⟨20, 20, 5, 5⟩ ∧
    (InvalidateRect
        (WebPluginProxy.create Platform.linux 7 ⟨⟨0, 0, 10, 10⟩, ⟨0, 0, 10, 10⟩, true⟩)
        ⟨20, 20, 5, 5⟩).damaged_rect_ ≠
      (WebPluginProxy.create Platform.linux 7
        ⟨⟨0, 0, 10, 10⟩, ⟨0, 0, 10, 10⟩, true⟩).damaged_rect_ := by
  decide

/-- C2, amended: for every proxy state and every rectangle that is empty or does not intersect
the clip rectangle, `InvalidateRect(rect)` changes nothing but `damaged_rect_`, which becomes
`damaged_rect_ ∪ rect`; `waiting_for_paint_` and the posted tasks are as before. For an empty
`rect` the damage is unchanged: the state is the same when `damaged_rect_` was non-empty, and
`damaged_rect_` stays empty when it was empty. -/
theorem ignored_invalidate_only_accumulates (s : WebPluginProxy) (rect : Rect)
    (h : rect.IsEmpty = true ∨ s.delegate_.clip_rect.Intersects rect = false) :
    InvalidateRect s rect = { s with damaged_rect_ := s.damaged_rect_.Union rect } ∧
    (rect.IsEmpty = true → s.damaged_rect_.IsEmpty = false → InvalidateRect s rect = s) ∧
    (rect.IsEmpty = true →
      (InvalidateRect s rect).damaged_rect_.IsEmpty = s.damaged_rect_.IsEmpty) := by
  have hg : (rect.IsEmpty || !(s.delegate_.clip_rect.Intersects rect)) = true := by
    rcases h with h | h <;> simp [h]
  have h1 := InvalidateRect_ignored s rect hg
  refine ⟨h1, ?_, ?_⟩
  · intro he hd
    rw [h1, Rect.Union_of_IsEmpty_right _ _ hd he]
  · intro he
    rw [h1]
    simp [Rect.Union_IsEmpty, he]

theorem ignored_invalidate_only_accumulates_witness :
    InvalidateRect
        (WebPluginProxy.create Platform.linux 7 ⟨⟨0, 0, 10, 10⟩, ⟨0, 0, 10, 10⟩, true⟩)
        ⟨20, 20, 5, 5⟩ =
      { WebPluginProxy.create Platform.linux 7 ⟨⟨0, 0, 10, 10⟩, ⟨0, 0, 10, 10⟩, true⟩ with
        damaged_rect_ := ⟨20, 20, 5, 5⟩ } :=
  (ignored_invalidate_only_accumulates
    (WebPluginProxy.create Platform.linux 7 ⟨⟨0, 0, 10, 10⟩, ⟨0, 0, 10, 10⟩, true⟩)
    ⟨20, 20, 5, 5⟩ (Or.inr (by decide))).1

/-- C3: for every proxy state (paint pending or not), `InvalidateRect(rect)` with `rect` empty, or
with `rect` not intersecting the current clip rectangle, posts no `OnPaint` task, does not change
`waiting_for_paint_`, and sends nothing to the peer. -/
theorem ignored_invalidate_never_schedules (s : WebPluginProxy) (rect : Rect)
    (h : rect.IsEmpty = true ∨ s.delegate_.clip_rect.Intersects rect = false) :
    (InvalidateRect s rect).posted = s.posted ∧
    (InvalidateRect s rect).waiting_for_paint_ = s.waiting_for_paint_ ∧
    (InvalidateRect s rect).trace = s.trace := by
  have hg : (rect.IsEmpty || !(s.delegate_.clip_rect.Intersects rect)) = true := by
    rcases h with h | h <;> simp [h]
  rw [InvalidateRect_ignored s rect hg]
  exact ⟨rfl, rfl, rfl⟩

theorem ignored_invalidate_never_schedules_witness :
    (InvalidateRect
        (WebPluginProxy.create Platform.win 3 ⟨⟨0, 0, 10, 10⟩, ⟨0, 0, 10, 10⟩, true⟩)
        ⟨4, 4, 0, 5⟩).posted = [] ∧
    (InvalidateRect
        (WebPluginProxy.create Platform.win 3 ⟨⟨0, 0, 10, 10⟩, ⟨0, 0, 10, 10⟩, true⟩)
        ⟨4, 4, 0, 5⟩).waiting_for_paint_ = false ∧
    (InvalidateRect
        (WebPluginProxy.create Platform.win 3 ⟨⟨0, 0, 10, 10⟩, ⟨0, 0, 10, 10⟩, true⟩)
        ⟨4, 4, 0, 5⟩).trace = [] :=
  ignored_invalidate_never_schedules
    (WebPluginProxy.create Platform.win 3 ⟨⟨0, 0, 10, 10⟩, ⟨0, 0, 10, 10⟩, true⟩)
    ⟨4, 4, 0, 5⟩ (Or.inl (by decide))

/-! ## The scheduling step and the in-flight merge (C4, C5) -/

/-- C4: in a state with `waiting_for_paint_` false, `InvalidateRect(rect)` with `rect` non-empty
and intersecting the clip rectangle sets `waiting_for_paint_`, posts exactly one `OnPaint` task
whose argument is the old `damaged_rect_ ∪ rect`, leaves `damaged_rect_` empty, and changes
nothing else. -/
theorem scheduling_step (s : WebPluginProxy) (rect : Rect)
    (hw : s.waiting_for_paint_ = false) (hne : rect.IsEmpty = false)
    (hc : s.delegate_.clip_rect.Intersects rect = true) :
    (InvalidateRect s rect).waiting_for_paint_ = true ∧
    (InvalidateRect s rect).posted = s.posted ++ [s.damaged_rect_.Union rect] ∧
    (InvalidateRect s rect).damaged_rect_.IsEmpty = true ∧
    InvalidateRect s rect =
      { s with waiting_for_paint_ := true,
               posted := s.posted ++ [s.damaged_rect_.Union rect],
               damaged_rect_ := Rect.zero } := by
  have h1 := InvalidateRect_schedules s rect hw hne hc
  rw [h1]
  exact ⟨rfl, rfl, Rect.zero_IsEmpty, rfl⟩

theorem scheduling_step_witness :
    (InvalidateRect
        { WebPluginProxy.create Platform.mac 5 ⟨⟨0, 0, 50, 50⟩, ⟨0, 0, 50, 50⟩, true⟩ with
          damaged_rect_ := ⟨60, 60, 5, 5⟩ }
        ⟨1, 2, 3, 4⟩).posted = [⟨1, 2, 64, 63⟩] :=
  (scheduling_step
    { WebPluginProxy.create Platform.mac 5 ⟨⟨0, 0, 50, 50⟩, ⟨0, 0, 50, 50⟩, true⟩ with
      damaged_rect_ := ⟨60, 60, 5, 5⟩ }
    ⟨1, 2, 3, 4⟩ (by decide) (by decide) (by decide)).2.1

/-- C5: in a state with `waiting_for_paint_` true, `InvalidateRect(rect)` with `rect` non-empty
and intersecting the clip rectangle posts no task (the posted tasks and their rectangles are as
before), sends nothing, leaves `waiting_for_paint_` true, and sets `damaged_rect_` to the old
`damaged_rect_ ∪ rect`, a rectangle that contains `rect`. -/
theorem in_flight_merge (s : WebPluginProxy) (rect : Rect)
    (hw : s.waiting_for_paint_ = true) (hne : rect.IsEmpty = false)
    (hc : s.delegate_.clip_rect.Intersects rect = true) :
    (InvalidateRect s rect).posted = s.posted ∧
    (InvalidateRect s rect).trace = s.trace ∧
    (InvalidateRect s rect).waiting_for_paint_ = true ∧
    (InvalidateRect s rect).damaged_rect_ = s.damaged_rect_.Union rect ∧
    (InvalidateRect s rect).damaged_rect_.Contains rect = true := by
  have _ := hc
  rw [InvalidateRect_waiting s rect hw]
  exact ⟨rfl, rfl, hw, rfl, Rect.Contains_Union_right _ _ hne⟩

theorem in_flight_merge_witness :
    (InvalidateRect
        { WebPluginProxy.create Platform.win 5 ⟨⟨0, 0, 50, 50⟩, ⟨0, 0, 50, 50⟩, true⟩ with
          waiting_for_paint_ := true, posted := [⟨0, 0, 1, 1⟩], damaged_rect_ := ⟨8, 8, 2, 2⟩ }
        ⟨1, 2, 3, 4⟩).damaged_rect_ = Rect.Union ⟨8, 8, 2, 2⟩ ⟨1, 2, 3, 4⟩ :=
  (in_flight_merge
    { WebPluginProxy.create Platform.win 5 ⟨⟨0, 0, 50, 50⟩, ⟨0, 0, 50, 50⟩, true⟩ with
      waiting_for_paint_ := true, posted := [⟨0, 0, 1, 1⟩], damaged_rect_ := ⟨8, 8, 2, 2⟩ }
    ⟨1, 2, 3, 4⟩ (by decide) (by decide) (by decide)).2.2.2.1

/-! ## Facts about the other operations -/

theorem OnPaint_preserves (s : WebPluginProxy) (d : Rect) :
    (OnPaint s d).waiting_for_paint_ = s.waiting_for_paint_ ∧
    (OnPaint s d).damaged_rect_ = s.damaged_rect_ ∧
    (OnPaint s d).posted = s.posted ∧
    (OnPaint s d).delegate_ = s.delegate_ ∧
    (OnPaint s d).windowless_buffer_ = s.windowless_buffer_ := by
  unfold OnPaint Paint
  cases hb : s.windowless_buffer_ <;> cases hp : s.platform <;> simp [hb]

theorem RunPostedTask_preserves (s : WebPluginProxy) :
    (RunPostedTask s).waiting_for_paint_ = s.waiting_for_paint_ ∧
    (RunPostedTask s).damaged_rect_ = s.damaged_rect_ ∧
    (RunPostedTask s).posted = s.posted.tail ∧
    (RunPostedTask s).delegate_ = s.delegate_ := by
  unfold RunPostedTask
  cases hp : s.posted with
  | nil => simp [hp]
  | cons d rest =>
    obtain ⟨h1, h2, h3, h4, _⟩ := OnPaint_preserves { s with posted := rest } d
    simp [h1, h2, h3, h4]

theorem UpdateTransform_preserves (s : WebPluginProxy) :
    (UpdateTransform s).waiting_for_paint_ = s.waiting_for_paint_ ∧
    (UpdateTransform s).damaged_rect_ = s.damaged_rect_ ∧
    (UpdateTransform s).posted = s.posted ∧
    (UpdateTransform s).delegate_ = s.delegate_ := by
  unfold UpdateTransform
  cases hb : s.windowless_buffer_ <;> cases hp : s.platform <;> simp [hb]

theorem ConvertBuffer_returns (build : Build) (buffer : TransportDIBHandle) (old_hdc : Bool) :
    (∃ hdc, ConvertBuffer build buffer old_hdc = Except.ok hdc) ↔
      ConvertBufferReturns build buffer = true := by
  unfold ConvertBuffer ConvertBufferReturns
  cases build <;> cases buffer.maps <;> cases buffer.dib_section <;>
    cases buffer.compatible_dc <;> simp

theorem SetWindowlessBuffer_preserves (build : Build) (s t : WebPluginProxy)
    (wb bb : TransportDIBHandle) (h : SetWindowlessBuffer build s wb bb = Except.ok t) :
    t.waiting_for_paint_ = s.waiting_for_paint_ ∧
    t.damaged_rect_ = s.damaged_rect_ ∧
    t.posted = s.posted ∧
    t.delegate_ = s.delegate_ ∧
    t.platform = s.platform := by
  unfold SetWindowlessBuffer at h
  cases hp : s.platform
  · simp only [hp] at h
    cases h1 : ConvertBuffer build wb s.windowless_buffer_ with
    | error e => simp [h1] at h
    | ok hdc =>
      simp only [h1] at h
      cases hv : bb.is_valid
      · simp only [hv, Bool.false_eq_true, if_false, Except.ok.injEq] at h
        subst h
        unfold UpdateTransform
        cases hdc <;> simp [hp]
      · simp only [hv, if_true] at h
        cases h2 : ConvertBuffer build bb s.background_buffer_ with
        | error e => simp [h2] at h
        | ok bg =>
          simp only [h2, Except.ok.injEq] at h
          subst h
          unfold UpdateTransform
          cases hdc <;> simp [hp]
  · simp only [hp] at h
    cases hm : wb.maps
    · simp [hm] at h
    · simp only [hm, Bool.not_true, Bool.false_eq_true, if_false, Except.ok.injEq] at h
      subst h
      exact ⟨rfl, rfl, rfl, rfl, rfl⟩
  · simp only [hp, Except.ok.injEq] at h
    subst h
    exact ⟨rfl, rfl, rfl, rfl, rfl⟩

theorem SetWindowlessBuffer_returns (build : Build) (s : WebPluginProxy)
    (wb bb : TransportDIBHandle) (hv : wb.is_valid = true) :
    (∃ t, SetWindowlessBuffer build s wb bb = Except.ok t) ↔
      UpdateGeometryReturns build s.platform wb bb = true := by
  unfold SetWindowlessBuffer UpdateGeometryReturns
  cases hp : s.platform
  · simp only [hv, Bool.not_true, Bool.false_or, Bool.and_eq_true, Bool.or_eq_true,
      Bool.not_eq_true']
    rw [← ConvertBuffer_returns build wb s.windowless_buffer_]
    cases h1 : ConvertBuffer build wb s.windowless_buffer_ with
    | error e => simp
    | ok hdc =>
      cases hbv : bb.is_valid
      · simp
      · simp only [if_true, Bool.true_eq_false, false_or]
        rw [← ConvertBuffer_returns build bb s.background_buffer_]
        cases h2 : ConvertBuffer build bb s.background_buffer_ <;> simp
  · cases hm : wb.maps <;> simp [hv, hm]
  · simp [hv]

theorem UpdateGeometry.install_preserves (build : Build) (s s2 : WebPluginProxy) (w c : Rect)
    (wb bb : TransportDIBHandle)
    (h : UpdateGeometry.install build s w c wb bb = Except.ok s2) :
    s2.posted = s.posted ∧ s2.waiting_for_paint_ = s.waiting_for_paint_ ∧
    s2.damaged_rect_ = s.damaged_rect_ ∧
    s2.delegate_ = s.delegate_.UpdateGeometry w c ∧
    s2.platform = s.platform := by
  unfold UpdateGeometry.install at h
  by_cases hv : wb.is_valid = true
  · simp only [hv, if_true] at h
    obtain ⟨a1, a2, a3, a4, a5⟩ := SetWindowlessBuffer_preserves build _ s2 wb bb h
    exact ⟨a3, a1, a2, a4, a5⟩
  · by_cases hm : (s.delegate_.rect.x != w.x || s.delegate_.rect.y != w.y) = true
    · simp only [hv, hm, if_true, if_false, Bool.false_eq_true, Except.ok.injEq] at h
      subst h
      obtain ⟨a1, a2, a3, a4⟩ := UpdateTransform_preserves
        { s with delegate_ := s.delegate_.UpdateGeometry w c }
      refine ⟨a3, a1, a2, a4, ?_⟩
      unfold UpdateTransform
      cases hb : s.windowless_buffer_ <;> cases hp : s.platform <;> simp [hb, hp]
    · simp only [hv, hm, if_false, Bool.false_eq_true, Except.ok.injEq] at h
      subst h
      exact ⟨rfl, rfl, rfl, rfl, rfl⟩

theorem UpdateGeometry.install_returns (build : Build) (s : WebPluginProxy) (w c : Rect)
    (wb bb : TransportDIBHandle) :
    (∃ s2, UpdateGeometry.install build s w c wb bb = Except.ok s2) ↔
      UpdateGeometryReturns build s.platform wb bb = true := by
  unfold UpdateGeometry.install
  by_cases hv : wb.is_valid = true
  · simp only [hv, if_true]
    exact SetWindowlessBuffer_returns build _ wb bb hv
  · have hu : UpdateGeometryReturns build s.platform wb bb = true := by
      simp [UpdateGeometryReturns, hv]
    simp only [hv, Bool.false_eq_true, if_false, hu, iff_true]
    split
    · exact ⟨_, rfl⟩
    · exact ⟨_, rfl⟩

theorem UpdateGeometry_of_install (build : Build) (s s2 : WebPluginProxy) (w c : Rect)
    (wb bb : TransportDIBHandle)
    (h : UpdateGeometry.install build s w c wb bb = Except.ok s2) :
    UpdateGeometry build s w c wb bb =
      Except.ok
        (if (s.delegate_.windowless && !c.IsEmpty && s.delegate_.clip_rect.IsEmpty &&
            !s.damaged_rect_.IsEmpty) = true
          then InvalidateRect s2 s.damaged_rect_ else s2) := by
  obtain ⟨_, _, a3, a4, _⟩ := UpdateGeometry.install_preserves build s s2 w c wb bb h
  unfold UpdateGeometry
  simp only [h, a3, a4, WebPluginDelegate.UpdateGeometry]
  split <;> rfl

theorem UpdateGeometry_ok (build : Build) (s t : WebPluginProxy) (w c : Rect)
    (wb bb : TransportDIBHandle) (h : UpdateGeometry build s w c wb bb = Except.ok t) :
    ∃ s2, UpdateGeometry.install build s w c wb bb = Except.ok s2 ∧
      t = (if (s.delegate_.windowless && !c.IsEmpty && s.delegate_.clip_rect.IsEmpty &&
            !s.damaged_rect_.IsEmpty) = true
          then InvalidateRect s2 s.damaged_rect_ else s2) := by
  cases hi : UpdateGeometry.install build s w c wb bb with
  | error e =>
    unfold UpdateGeometry at h
    simp [hi] at h
  | ok s2 =>
    refine ⟨s2, rfl, ?_⟩
    rw [UpdateGeometry_of_install build s s2 w c wb bb hi] at h
    exact (Except.ok.inj h).symm

theorem UpdateGeometry_returns (build : Build) (s : WebPluginProxy) (w c : Rect)
    (wb bb : TransportDIBHandle) :
    (∃ t, UpdateGeometry build s w c wb bb = Except.ok t) ↔
      UpdateGeometryReturns build s.platform wb bb = true := by
  rw [← UpdateGeometry.install_returns build s w c wb bb]
  constructor
  · rintro ⟨t, ht⟩
    obtain ⟨s2, h2, _⟩ := UpdateGeometry_ok build s t w c wb bb ht
    exact ⟨s2, h2⟩
  · rintro ⟨s2, h2⟩
    exact ⟨_, UpdateGeometry_of_install build s s2 w c wb bb h2⟩

theorem UpdateGeometryReturns_iff (build : Build) (platform : Platform)
    (wb bb : TransportDIBHandle) :
    UpdateGeometryReturns build platform wb bb = true ↔
      (wb.is_valid = false ∨
        (platform = Platform.linux) ∨
        (platform = Platform.mac ∧ wb.maps = true) ∨
        (platform = Platform.win ∧
          (build = Build.release ∨
            ((wb.maps = true ∧ wb.dib_section = true ∧ wb.compatible_dc = true) ∧
              (bb.is_valid = true →
                bb.maps = true ∧ bb.dib_section = true ∧ bb.compatible_dc = true))))) := by
  unfold UpdateGeometryReturns ConvertBufferReturns
  cases build <;> cases platform <;> cases wb.is_valid <;> cases wb.maps <;>
    cases wb.dib_section <;> cases wb.compatible_dc <;> cases bb.is_valid <;>
    cases bb.maps <;> cases bb.dib_section <;> cases bb.compatible_dc <;> decide

theorem UnionAll_append (d : Rect) (xs ys : List Rect) :
    UnionAll d (xs ++ ys) = UnionAll (UnionAll d xs) ys := by
  simp [UnionAll, List.foldl_append]

theorem DuringFlight_waiting (s : WebPluginProxy) (before after : List Rect)
    (hw : s.waiting_for_paint_ = true) :
    (DuringFlight s before after).waiting_for_paint_ = true ∧
    (DuringFlight s before after).damaged_rect_ = UnionAll s.damaged_rect_ (before ++ after) ∧
    (DuringFlight s before after).posted = s.posted.tail ∧
    (DuringFlight s before after).delegate_ = s.delegate_ := by
  have h1 := InvalidateRects_waiting before s hw
  obtain ⟨r1, r2, r3, r4⟩ := RunPostedTask_preserves (InvalidateRects s before)
  have hw2 : (RunPostedTask (InvalidateRects s before)).waiting_for_paint_ = true := by
    rw [r1, h1]; exact hw
  have h2 := InvalidateRects_waiting after (RunPostedTask (InvalidateRects s before)) hw2
  unfold DuringFlight
  rw [h2]
  simp only [hw2, r2, r3, r4, UnionAll_append]
  rw [h1]
  exact ⟨trivial, rfl, rfl, rfl⟩

theorem DidPaint_posts (s : WebPluginProxy) (hne : s.damaged_rect_.IsEmpty = false)
    (hc : s.delegate_.clip_rect.Intersects s.damaged_rect_ = true) :
    DidPaint s =
      { s with waiting_for_paint_ := true,
               posted := s.posted ++ [s.damaged_rect_],
               damaged_rect_ := Rect.zero } := by
  have h := InvalidateRect_schedules { s with waiting_for_paint_ := false } s.damaged_rect_
    rfl hne hc
  simp only [Rect.Union_self] at h
  simp only [DidPaint, hne, Bool.not_false, if_true]
  exact h

theorem DidPaint_clean (s : WebPluginProxy) (he : s.damaged_rect_.IsEmpty = true) :
    DidPaint s = { s with waiting_for_paint_ := false } := by
  simp [DidPaint, he]

theorem DidPaint_off_clip (s : WebPluginProxy)
    (hc : s.delegate_.clip_rect.Intersects s.damaged_rect_ = false) :
    DidPaint s = { s with waiting_for_paint_ := false } := by
  cases he : s.damaged_rect_.IsEmpty
  · have h := InvalidateRect_ignored { s with waiting_for_paint_ := false } s.damaged_rect_
      (by simp [hc])
    simp only [Rect.Union_self] at h
    simp only [DidPaint, he, Bool.not_false, if_true]
    exact h
  · simp [DidPaint, he]

/-! ## Damage arriving while a paint is in flight (C6) -/

/-- C6, as stated, fails: a paint is in flight for `(0,0,5,5)` with clip `(0,0,10,10)`; the call
`InvalidateRect((20,20,5,5))` made during the flight adds damage (`damaged_rect_` goes from empty
to `(20,20,5,5)`), yet `DidPaint` posts no follow-up task and `damaged_rect_` is still non-empty
afterwards, because the damage does not intersect the clip. -/
theorem in_flight_damage_follow_up_counterexample :
    (InvalidateRect
        (WebPluginProxy.create Platform.linux 7 ⟨⟨0, 0, 10, 10⟩, ⟨0, 0, 10, 10⟩, true⟩)
        ⟨0, 0, 5, 5⟩).waiting_for_paint_ = true ∧
    (InvalidateRect
        (WebPluginProxy.create Platform.linux 7 ⟨⟨0, 0, 10, 10⟩, ⟨0, 0, 10, 10⟩, true⟩)
        ⟨0, 0, 5, 5⟩).damaged_rect_ = Rect.zero ∧
    (DuringFlight
        (InvalidateRect
          (WebPluginProxy.create Platform.linux 7 ⟨⟨0, 0, 10, 10⟩, ⟨0, 0, 10, 10⟩, true⟩)
          ⟨0, 0, 5, 5⟩)
        [⟨20, 20, 5, 5⟩] []).damaged_rect_ = ⟨20, 20, 5, 5⟩ ∧
    (DidPaint (DuringFlight
        (InvalidateRect
          (WebPluginProxy.create Platform.linux 7 ⟨⟨0, 0, 10, 10⟩, ⟨0, 0, 10, 10⟩, true⟩)
          ⟨0, 0, 5, 5⟩)
        [⟨20, 20, 5, 5⟩] [])).posted = [] ∧
    (DidPaint (DuringFlight
        (InvalidateRect
          (WebPluginProxy.create Platform.linux 7 ⟨⟨0, 0, 10, 10⟩, ⟨0, 0, 10, 10⟩, true⟩)
          ⟨0, 0, 5, 5⟩)
        [⟨20, 20, 5, 5⟩] [])).damaged_rect_.IsEmpty = false := by
  decide

/-- C6, amended: if, while a paint is in flight, at least one of the rectangles passed to
`InvalidateRect` is non-empty and intersects the clip rectangle, then when that paint completes
(`DidPaint`) exactly one follow-up `OnPaint` task is posted, its rectangle is the accumulated
`damaged_rect_` and contains every non-empty rectangle invalidated during the flight,
`damaged_rect_` is empty afterwards, and a further `DidPaint` with no new invalidation posts no
additional task, before or after the follow-up task has run. -/
theorem in_flight_damage_follow_up (s : WebPluginProxy) (before after : List Rect) (r : Rect)
    (hw : s.waiting_for_paint_ = true) (hr : r ∈ before ++ after)
    (hne : r.IsEmpty = false) (hc : s.delegate_.clip_rect.Intersects r = true) :
    (DuringFlight s before after).posted = s.posted.tail ∧
    (DidPaint (DuringFlight s before after)).posted =
      s.posted.tail ++ [UnionAll s.damaged_rect_ (before ++ after)] ∧
    (∀ q ∈ before ++ after, q.IsEmpty = false →
      (UnionAll s.damaged_rect_ (before ++ after)).Contains q = true) ∧
    (DidPaint (DuringFlight s before after)).damaged_rect_.IsEmpty = true ∧
    (DidPaint (DuringFlight s before after)).waiting_for_paint_ = true ∧
    (DidPaint (DidPaint (DuringFlight s before after))).posted =
      (DidPaint (DuringFlight s before after)).posted ∧
    (DidPaint (RunPostedTask (DidPaint (DuringFlight s before after)))).posted =
      (RunPostedTask (DidPaint (DuringFlight s before after))).posted := by
  obtain ⟨f1, f2, f3, f4⟩ := DuringFlight_waiting s before after hw
  have hcont := UnionAll_Contains_mem (before ++ after) s.damaged_rect_ r hr hne
  have hDne : (DuringFlight s before after).damaged_rect_.IsEmpty = false := by
    rw [f2]
    cases hD : (UnionAll s.damaged_rect_ (before ++ after)).IsEmpty
    · rfl
    · exfalso
      rw [Rect.Contains_iff] at hcont
      simp only [Rect.IsEmpty, Bool.or_eq_true, beq_iff_eq] at hD
      simp only [Rect.IsEmpty, Bool.or_eq_false_iff, beq_eq_false_iff_ne, ne_eq] at hne
      simp only [Rect.right, Rect.bottom] at hcont
      omega
  have hDc : (DuringFlight s before after).delegate_.clip_rect.Intersects
      (DuringFlight s before after).damaged_rect_ = true := by
    rw [f2, f4]
    exact Rect.Intersects_of_Contains _ _ _ hc hcont
  have hdp := DidPaint_posts (DuringFlight s before after) hDne hDc
  have hclean : ∀ t : WebPluginProxy, t.damaged_rect_.IsEmpty = true →
      (DidPaint t).posted = t.posted := by
    intro t ht
    rw [DidPaint_clean t ht]
  have hempty : (DidPaint (DuringFlight s before after)).damaged_rect_.IsEmpty = true := by
    rw [hdp]; exact Rect.zero_IsEmpty
  refine ⟨f3, ?_, ?_, hempty, ?_, hclean _ hempty, ?_⟩
  · rw [hdp]
    simp [f2, f3]
  · intro q hq hqne
    exact UnionAll_Contains_mem (before ++ after) s.damaged_rect_ q hq hqne
  · rw [hdp]
  · apply hclean
    rw [(RunPostedTask_preserves _).2.1]
    exact hempty

theorem in_flight_damage_follow_up_witness :
    (DidPaint (DuringFlight
        (InvalidateRect
          (WebPluginProxy.create Platform.linux 7 ⟨⟨0, 0, 10, 10⟩, ⟨0, 0, 10, 10⟩, true⟩)
          ⟨0, 0, 5, 5⟩)
        [⟨20, 20, 5, 5⟩] [⟨6, 6, 2, 2⟩])).posted =
      List.tail [(⟨0, 0, 5, 5⟩ : Rect)] ++
        [UnionAll Rect.zero ([⟨20, 20, 5, 5⟩] ++ [⟨6, 6, 2, 2⟩])] :=
  (in_flight_damage_follow_up
    (InvalidateRect
      (WebPluginProxy.create Platform.linux 7 ⟨⟨0, 0, 10, 10⟩, ⟨0, 0, 10, 10⟩, true⟩)
      ⟨0, 0, 5, 5⟩)
    [⟨20, 20, 5, 5⟩] [⟨6, 6, 2, 2⟩] ⟨6, 6, 2, 2⟩
    (by decide) (by decide) (by decide) (by decide)).2.1

/-! ## At most one paint task outstanding (C7) -/

theorem InvalidateRect_invariant (s : WebPluginProxy) (rect : Rect) (n : Nat)
    (h : PaintInvariant s n) : PaintInvariant (InvalidateRect s rect) n := by
  obtain ⟨h1, h2⟩ := h
  by_cases hg : (rect.IsEmpty || !(s.delegate_.clip_rect.Intersects rect)) = true
  · rw [InvalidateRect_ignored s rect hg]
    exact ⟨h1, h2⟩
  · cases hw : s.waiting_for_paint_
    · have hne : rect.IsEmpty = false := by
        cases he : rect.IsEmpty
        · rfl
        · simp [he] at hg
      have hc : s.delegate_.clip_rect.Intersects rect = true := by
        cases hi : s.delegate_.clip_rect.Intersects rect
        · simp [hi] at hg
        · rfl
      rw [InvalidateRect_schedules s rect hw hne hc]
      have h0 : s.posted.length + n = 0 := by
        by_contra hcon
        have h1' : s.posted.length + n = 1 := by omega
        have := h2 h1'
        rw [hw] at this
        cases this
      constructor
      · simp only [List.length_append, List.length_singleton]
        omega
      · intro _
        rfl
    · rw [InvalidateRect_waiting s rect hw]
      exact ⟨h1, h2⟩

theorem UpdateGeometry_invariant (build : Build) (s t : WebPluginProxy) (w c : Rect)
    (wb bb : TransportDIBHandle) (n : Nat) (h : PaintInvariant s n)
    (ht : UpdateGeometry build s w c wb bb = Except.ok t) : PaintInvariant t n := by
  obtain ⟨s2, hi, he⟩ := UpdateGeometry_ok build s t w c wb bb ht
  obtain ⟨p1, p2, _, _, _⟩ := UpdateGeometry.install_preserves build s s2 w c wb bb hi
  have h2 : PaintInvariant s2 n := by
    unfold PaintInvariant at h ⊢
    rw [p1, p2]
    exact h
  rw [he]
  split
  · exact InvalidateRect_invariant s2 _ n h2
  · exact h2

theorem DidPaint_invariant (s : WebPluginProxy) (n : Nat) (h : PaintInvariant s (n + 1)) :
    PaintInvariant (DidPaint s) n := by
  have h0 : PaintInvariant { s with waiting_for_paint_ := false } n := by
    obtain ⟨h1, _⟩ := h
    constructor
    · show s.posted.length + n ≤ 1
      omega
    · intro h3
      exfalso
      have h4 : s.posted.length + n = 1 := h3
      omega
  cases he : s.damaged_rect_.IsEmpty
  · have hd : DidPaint s =
        InvalidateRect { s with waiting_for_paint_ := false } s.damaged_rect_ := by
      simp [DidPaint, he]
    rw [hd]
    exact InvalidateRect_invariant _ _ n h0
  · rw [DidPaint_clean s he]
    exact h0

theorem RunPostedTask_invariant (s : WebPluginProxy) (n : Nat) (h : PaintInvariant s n) :
    PaintInvariant (RunPostedTask s) (if s.posted.isEmpty then n else n + 1) := by
  obtain ⟨r1, _, r3, _⟩ := RunPostedTask_preserves s
  obtain ⟨h1, h2⟩ := h
  unfold PaintInvariant
  rw [r1, r3]
  cases hp : s.posted with
  | nil =>
    rw [hp] at h1 h2
    simp only [List.tail_nil, List.isEmpty_nil, if_true]
    exact ⟨h1, h2⟩
  | cons d rest =>
    rw [hp] at h1 h2
    simp only [List.length_cons] at h1 h2
    simp only [List.tail_cons, List.isEmpty_cons, Bool.false_eq_true, if_false]
    constructor
    · omega
    · intro _
      apply h2
      omega

theorem ApplyAnswered_invariant (build : Build) (ops : List Op) (s : WebPluginProxy) (n : Nat)
    (t : WebPluginProxy) (m : Nat) (h : PaintInvariant s n)
    (hr : ApplyAnswered build s n ops = some (t, m)) : PaintInvariant t m := by
  induction ops generalizing s n with
  | nil =>
    simp only [ApplyAnswered, Option.some.injEq, Prod.mk.injEq] at hr
    obtain ⟨rfl, rfl⟩ := hr
    exact h
  | cons op ops ih =>
    cases op with
    | invalidate =>
      simp only [ApplyAnswered] at hr
      exact ih _ _ (InvalidateRect_invariant s _ n h) hr
    | invalidateRect rect =>
      simp only [ApplyAnswered] at hr
      exact ih _ _ (InvalidateRect_invariant s rect n h) hr
    | updateGeometry w c wb bb =>
      simp only [ApplyAnswered] at hr
      cases hu : UpdateGeometry build s w c wb bb with
      | error e => simp [hu] at hr
      | ok u =>
        simp only [hu] at hr
        exact ih _ _ (UpdateGeometry_invariant build s u w c wb bb n h hu) hr
    | runPostedTask =>
      simp only [ApplyAnswered] at hr
      exact ih _ _ (RunPostedTask_invariant s n h) hr
    | didPaint =>
      cases n with
      | zero => simp [ApplyAnswered] at hr
      | succ k =>
        simp only [ApplyAnswered] at hr
        exact ih _ _ (DidPaint_invariant s k h) hr

theorem ApplyAnswered_eq_ApplyOps (build : Build) (ops : List Op) (s : WebPluginProxy) (n : Nat)
    (t : WebPluginProxy) (m : Nat) (hr : ApplyAnswered build s n ops = some (t, m)) :
    ApplyOps build s ops = Except.ok t := by
  induction ops generalizing s n with
  | nil =>
    simp only [ApplyAnswered, Option.some.injEq, Prod.mk.injEq] at hr
    simp [ApplyOps, hr.1]
  | cons op ops ih =>
    cases op with
    | invalidate =>
      simp only [ApplyAnswered] at hr
      simpa [ApplyOps, Op.apply] using ih _ _ hr
    | invalidateRect rect =>
      simp only [ApplyAnswered] at hr
      simpa [ApplyOps, Op.apply] using ih _ _ hr
    | updateGeometry w c wb bb =>
      simp only [ApplyAnswered] at hr
      cases hu : UpdateGeometry build s w c wb bb with
      | error e => simp [hu] at hr
      | ok u =>
        simp only [hu] at hr
        simpa [ApplyOps, Op.apply, hu] using ih _ _ hr
    | runPostedTask =>
      simp only [ApplyAnswered] at hr
      simpa [ApplyOps, Op.apply] using ih _ _ hr
    | didPaint =>
      cases n with
      | zero => simp [ApplyAnswered] at hr
      | succ k =>
        simp only [ApplyAnswered] at hr
        simpa [ApplyOps, Op.apply] using ih _ _ hr

/-- C7, as stated, fails: on a fresh proxy with clip `(0,0,10,10)` the sequence
`InvalidateRect((0,0,5,5))`, `DidPaint`, `InvalidateRect((0,0,5,5))`, in which `DidPaint` arrives
before the posted task has run, returns in either build and leaves two posted `OnPaint` tasks
that have not run. -/
theorem two_paint_tasks_outstanding_counterexample :
    (WebPluginProxy.create Platform.linux 7
        ⟨⟨0, 0, 10, 10⟩, ⟨0, 0, 10, 10⟩, true⟩).posted = [] ∧
    (∀ build : Build, ∃ t : WebPluginProxy,
      ApplyOps build
          (WebPluginProxy.create Platform.linux 7 ⟨⟨0, 0, 10, 10⟩, ⟨0, 0, 10, 10⟩, true⟩)
          [Op.invalidateRect ⟨0, 0, 5, 5⟩, Op.didPaint, Op.invalidateRect ⟨0, 0, 5, 5⟩] =
        Except.ok t ∧
      t.posted = [⟨0, 0, 5, 5⟩, ⟨0, 0, 5, 5⟩] ∧
      ¬ t.posted.length ≤ 1) := by
  refine ⟨rfl, ?_⟩
  intro build
  exact ⟨_, rfl, by decide, by decide⟩

/-- C7, amended: in every state reachable from a freshly constructed proxy by a sequence of
`Invalidate`, `InvalidateRect`, `UpdateGeometry`, execution of a posted `OnPaint` task and
`DidPaint`, in which every `DidPaint` answers a distinct `InvalidateRect` notice sent by an
`OnPaint` task that has run, the number of posted `OnPaint` tasks that have not yet run is at
most one; more precisely the posted tasks and the unanswered notices are at most one together. -/
theorem at_most_one_paint_task_outstanding (build : Build) (platform : Platform)
    (route_id : Int) (delegate : WebPluginDelegate) (ops : List Op) (t : WebPluginProxy)
    (m : Nat)
    (h : ApplyAnswered build (WebPluginProxy.create platform route_id delegate) 0 ops =
      some (t, m)) :
    ApplyOps build (WebPluginProxy.create platform route_id delegate) ops = Except.ok t ∧
    t.posted.length ≤ 1 ∧ t.posted.length + m ≤ 1 := by
  have h0 : PaintInvariant (WebPluginProxy.create platform route_id delegate) 0 := by
    constructor
    · simp [WebPluginProxy.create]
    · intro h1
      simp [WebPluginProxy.create] at h1
  have hinv := ApplyAnswered_invariant build ops _ 0 t m h0 h
  refine ⟨ApplyAnswered_eq_ApplyOps build ops _ 0 t m h, ?_, hinv.1⟩
  have := hinv.1
  omega

theorem at_most_one_paint_task_outstanding_witness :
    ∃ t : WebPluginProxy,
      ApplyOps Build.debug
          (WebPluginProxy.create Platform.win 7 ⟨⟨0, 0, 10, 10⟩, ⟨0, 0, 10, 10⟩, true⟩)
          [Op.updateGeometry ⟨2, 2, 10, 10⟩ ⟨0, 0, 10, 10⟩ ⟨true, true, true, true⟩
             ⟨false, false, false, false⟩,
           Op.invalidateRect ⟨0, 0, 5, 5⟩, Op.invalidateRect ⟨1, 1, 7, 7⟩, Op.runPostedTask,
           Op.didPaint, Op.invalidate, Op.runPostedTask] = Except.ok t ∧
      t.posted.length ≤ 1 ∧ t.posted.length + 1 ≤ 1 :=
  ⟨_, at_most_one_paint_task_outstanding Build.debug Platform.win 7
    ⟨⟨0, 0, 10, 10⟩, ⟨0, 0, 10, 10⟩, true⟩
    [Op.updateGeometry ⟨2, 2, 10, 10⟩ ⟨0, 0, 10, 10⟩ ⟨true, true, true, true⟩
       ⟨false, false, false, false⟩,
     Op.invalidateRect ⟨0, 0, 5, 5⟩, Op.invalidateRect ⟨1, 1, 7, 7⟩, Op.runPostedTask,
     Op.didPaint, Op.invalidate, Op.runPostedTask] _ 1 rfl⟩

/-! ## Execution of the deferred paint (C8, C9) -/

/-- C10, as stated, fails. A windowless proxy with no paint in flight, an empty clip and
`damaged_rect_ = (0,0,5,5)` (left there by an `InvalidateRect` while the clip was empty)
receives `UpdateGeometry` with the non-empty clip `(6,6,4,4)`: the call returns, no `OnPaint`
task is posted and `damaged_rect_` is unchanged, because the new clip does not intersect the
damage. And on Windows, in a build with assertions, the same proxy receives the clip
`(4,4,4,4)`, which intersects the damage, with a valid front-buffer handle that cannot be
converted: the call ends at `NOTREACHED()`, so no invalidation cycle takes place. -/
theorem catch_up_every_nonempty_clip_counterexample :
    (InvalidateRect
        (WebPluginProxy.create Platform.linux 7 ⟨⟨0, 0, 10, 10⟩, Rect.zero, true⟩)
        ⟨0, 0, 5, 5⟩).delegate_.windowless = true ∧
    (InvalidateRect
        (WebPluginProxy.create Platform.linux 7 ⟨⟨0, 0, 10, 10⟩, Rect.zero, true⟩)
        ⟨0, 0, 5, 5⟩).waiting_for_paint_ = false ∧
    (InvalidateRect
        (WebPluginProxy.create Platform.linux 7 ⟨⟨0, 0, 10, 10⟩, Rect.zero, true⟩)
        ⟨0, 0, 5, 5⟩).delegate_.clip_rect.IsEmpty = true ∧
    (InvalidateRect
        (WebPluginProxy.create Platform.linux 7 ⟨⟨0, 0, 10, 10⟩, Rect.zero, true⟩)
        ⟨0, 0, 5, 5⟩).damaged_rect_ = ⟨0, 0, 5, 5⟩ ∧
    Rect.IsEmpty ⟨6, 6, 4, 4⟩ = false ∧
    (∀ build : Build, ∃ t : WebPluginProxy,
      UpdateGeometry build
          (InvalidateRect
            (WebPluginProxy.create Platform.linux 7 ⟨⟨0, 0, 10, 10⟩, Rect.zero, true⟩)
            ⟨0, 0, 5, 5⟩)
          ⟨0, 0, 10, 10⟩ ⟨6, 6, 4, 4⟩ ⟨false, false, false, false⟩
          ⟨false, false, false, false⟩ = Except.ok t ∧
      t.posted = [] ∧ t.waiting_for_paint_ = false ∧ t.damaged_rect_ = ⟨0, 0, 5, 5⟩) ∧
    (InvalidateRect
        (WebPluginProxy.create Platform.win 7 ⟨⟨0, 0, 10, 10⟩, Rect.zero, true⟩)
        ⟨0, 0, 5, 5⟩).damaged_rect_ = ⟨0, 0, 5, 5⟩ ∧
    Rect.Intersects ⟨4, 4, 4, 4⟩ ⟨0, 0, 5, 5⟩ = true ∧
    UpdateGeometry Build.debug
        (InvalidateRect
          (WebPluginProxy.create Platform.win 7 ⟨⟨0, 0, 10, 10⟩, Rect.zero, true⟩)
          ⟨0, 0, 5, 5⟩)
        ⟨0, 0, 10, 10⟩ ⟨4, 4, 4, 4⟩ ⟨true, false, false, false⟩
        ⟨false, false, false, false⟩ = Except.error Crash.notreached := by
  refine ⟨by decide, by decide, by decide, by decide, by decide, ?_, by decide, by decide,
    rfl⟩
  intro build
  exact ⟨_, rfl, by decide, by decide, by decide⟩

/-- C10, amended: for a windowless proxy with no paint in flight whose clip rectangle is empty
and whose `damaged_rect_` is a non-empty rectangle `R`, every `UpdateGeometry` call that returns
and delivers a non-empty clip rectangle intersecting `R` posts exactly one `OnPaint` task
carrying `R`, sets `waiting_for_paint_` and leaves `damaged_rect_` empty. If the old clip was
non-empty, or the new clip is empty, or `damaged_rect_` is empty, or the plugin is not
windowless, or the new clip does not intersect `damaged_rect_`, a call that returns posts no
task and leaves `waiting_for_paint_` and `damaged_rect_` as they were. The call returns
whenever the front-buffer handle is not valid, or the platform is Linux, or it is Mac and the
handle can be mapped, or it is Windows and either the build has no assertions or the handle,
and the background handle if valid, can be converted. -/
theorem geometry_catch_up (build : Build) (s : WebPluginProxy) (w c : Rect)
    (wb bb : TransportDIBHandle) :
    ((wb.is_valid = false ∨
        (s.platform = Platform.linux) ∨
        (s.platform = Platform.mac ∧ wb.maps = true) ∨
        (s.platform = Platform.win ∧
          (build = Build.release ∨
            ((wb.maps = true ∧ wb.dib_section = true ∧ wb.compatible_dc = true) ∧
              (bb.is_valid = true →
                bb.maps = true ∧ bb.dib_section = true ∧ bb.compatible_dc = true))))) →
      ∃ t, UpdateGeometry build s w c wb bb = Except.ok t) ∧
    (∀ t, UpdateGeometry build s w c wb bb = Except.ok t →
      (s.delegate_.windowless = true → s.waiting_for_paint_ = false →
        s.delegate_.clip_rect.IsEmpty = true → s.damaged_rect_.IsEmpty = false →
        c.IsEmpty = false → c.Intersects s.damaged_rect_ = true →
        t.posted = s.posted ++ [s.damaged_rect_] ∧
        t.waiting_for_paint_ = true ∧
        t.damaged_rect_.IsEmpty = true) ∧
      ((s.delegate_.clip_rect.IsEmpty = false ∨ c.IsEmpty = true ∨
          s.damaged_rect_.IsEmpty = true ∨ s.delegate_.windowless = false ∨
          c.Intersects s.damaged_rect_ = false) →
        t.posted = s.posted ∧
        t.waiting_for_paint_ = s.waiting_for_paint_ ∧
        t.damaged_rect_ = s.damaged_rect_)) := by
  constructor
  · intro hc
    exact (UpdateGeometry_returns build s w c wb bb).2
      ((UpdateGeometryReturns_iff build s.platform wb bb).2 hc)
  intro t ht
  obtain ⟨s2, hi, pe⟩ := UpdateGeometry_ok build s t w c wb bb ht
  obtain ⟨p1, p2, p3, p4, _⟩ := UpdateGeometry.install_preserves build s s2 w c wb bb hi
  have hclip : s2.delegate_.clip_rect = c := by rw [p4]; rfl
  constructor
  · intro hwl hw hoc hd hcn hci
    rw [pe]
    simp only [hwl, hcn, hoc, hd, Bool.not_false, Bool.and_self, if_true]
    rw [InvalidateRect_schedules s2 _ (by rw [p2]; exact hw) hd (by rw [hclip]; exact hci)]
    refine ⟨?_, rfl, Rect.zero_IsEmpty⟩
    simp [p1, p3, Rect.Union_self]
  · intro h
    rw [pe]
    by_cases hcond : (s.delegate_.windowless && !c.IsEmpty && s.delegate_.clip_rect.IsEmpty &&
        !s.damaged_rect_.IsEmpty) = true
    · simp only [hcond, if_true]
      simp only [Bool.and_eq_true, Bool.not_eq_true', Bool.not_eq_eq_eq_not, Bool.not_true]
        at hcond
      obtain ⟨⟨⟨c1, c2⟩, c3⟩, c4⟩ := hcond
      have hci : c.Intersects s.damaged_rect_ = false := by
        rcases h with h | h | h | h | h
        · rw [c3] at h; cases h
        · rw [c2] at h; cases h
        · rw [c4] at h; cases h
        · rw [c1] at h; cases h
        · exact h
      rw [InvalidateRect_ignored s2 _ (by rw [hclip, hci]; simp)]
      simp [p1, p2, p3, Rect.Union_self]
    · simp only [hcond, if_false]
      exact ⟨p1, p2, p3⟩

theorem geometry_catch_up_witness :
    (∃ t,
      UpdateGeometry Build.debug
          (InvalidateRect
            (WebPluginProxy.create Platform.win 7 ⟨⟨0, 0, 10, 10⟩, Rect.zero, true⟩)
            ⟨0, 0, 5, 5⟩)
          ⟨0, 0, 10, 10⟩ ⟨4, 4, 4, 4⟩ ⟨true, true, true, true⟩
          ⟨false, false, false, false⟩ = Except.ok t ∧
      t.posted = [] ++ [⟨0, 0, 5, 5⟩] ∧ t.waiting_for_paint_ = true) ∧
    (∃ t,
      UpdateGeometry Build.debug
          (InvalidateRect
            (WebPluginProxy.create Platform.win 7 ⟨⟨0, 0, 10, 10⟩, Rect.zero, true⟩)
            ⟨0, 0, 5, 5⟩)
          ⟨0, 0, 10, 10⟩ ⟨6, 6, 4, 4⟩ ⟨true, true, true, true⟩
          ⟨false, false, false, false⟩ = Except.ok t ∧
      t.posted = []) := by
  constructor
  · obtain ⟨t, ht⟩ := (geometry_catch_up Build.debug
      (InvalidateRect
        (WebPluginProxy.create Platform.win 7 ⟨⟨0, 0, 10, 10⟩, Rect.zero, true⟩)
        ⟨0, 0, 5, 5⟩)
      ⟨0, 0, 10, 10⟩ ⟨4, 4, 4, 4⟩ ⟨true, true, true, true⟩
      ⟨false, false, false, false⟩).1 (by decide)
    have h := ((geometry_catch_up Build.debug
      (InvalidateRect
        (WebPluginProxy.create Platform.win 7 ⟨⟨0, 0, 10, 10⟩, Rect.zero, true⟩)
        ⟨0, 0, 5, 5⟩)
      ⟨0, 0, 10, 10⟩ ⟨4, 4, 4, 4⟩ ⟨true, true, true, true⟩
      ⟨false, false, false, false⟩).2 t ht).1
      (by decide) (by decide) (by decide) (by decide) (by decide) (by decide)
    exact ⟨t, ht, h.1, h.2.1⟩
  · obtain ⟨t, ht⟩ := (geometry_catch_up Build.debug
      (InvalidateRect
        (WebPluginProxy.create Platform.win 7 ⟨⟨0, 0, 10, 10⟩, Rect.zero, true⟩)
        ⟨0, 0, 5, 5⟩)
      ⟨0, 0, 10, 10⟩ ⟨6, 6, 4, 4⟩ ⟨true, true, true, true⟩
      ⟨false, false, false, false⟩).1 (by decide)
    have h := ((geometry_catch_up Build.debug
      (InvalidateRect
        (WebPluginProxy.create Platform.win 7 ⟨⟨0, 0, 10, 10⟩, Rect.zero, true⟩)
        ⟨0, 0, 5, 5⟩)
      ⟨0, 0, 10, 10⟩ ⟨6, 6, 4, 4⟩ ⟨true, true, true, true⟩
      ⟨false, false, false, false⟩).2 t ht).2
      (Or.inr (Or.inr (Or.inr (Or.inr (by decide)))))
    exact ⟨t, ht, h.1⟩

/-! ## Buffer and transform choice of `UpdateGeometry` (C11) -/

theorem InvalidateRect_trace (s : WebPluginProxy) (rect : Rect) :
    (InvalidateRect s rect).trace = s.trace ∧
    (InvalidateRect s rect).delegate_ = s.delegate_ ∧
    (InvalidateRect s rect).windowless_buffer_ = s.windowless_buffer_ := by
  unfold InvalidateRect
  simp only []
  split
  · exact ⟨rfl, rfl, rfl⟩
  · split <;> exact ⟨rfl, rfl, rfl⟩

theorem ConvertBuffer_ok (build : Build) (buffer : TransportDIBHandle) (old_hdc hdc : Bool)
    (h : ConvertBuffer build buffer old_hdc = Except.ok hdc) :
    hdc = (if (buffer.maps && buffer.dib_section) = true then buffer.compatible_dc
      else old_hdc) := by
  unfold ConvertBuffer at h
  cases build <;> cases hm : buffer.maps <;> cases hd : buffer.dib_section <;>
    cases hc : buffer.compatible_dc <;> simp [hm, hd, hc] at h <;> simp [h]

theorem SetWindowlessBuffer_ok (build : Build) (s u : WebPluginProxy)
    (wb bb : TransportDIBHandle) (h : SetWindowlessBuffer build s wb bb = Except.ok u) :
    u.windowless_buffer_ =
      (match s.platform with
        | Platform.win =>
          if (wb.maps && wb.dib_section) = true then wb.compatible_dc
          else s.windowless_buffer_
        | Platform.mac => wb.maps
        | Platform.linux => wb.maps) ∧
    u.trace = s.trace ++ Event.setWindowlessBuffer wb bb ::
      (if s.platform = Platform.win then
        Event.updateTransform ::
          (if u.windowless_buffer_ = true
            then [Event.setWorldTransform s.delegate_.rect.x s.delegate_.rect.y] else [])
      else []) := by
  unfold SetWindowlessBuffer at h
  cases hp : s.platform
  · simp only [hp] at h
    cases h1 : ConvertBuffer build wb s.windowless_buffer_ with
    | error e => simp [h1] at h
    | ok hdc =>
      have hh := ConvertBuffer_ok build wb _ hdc h1
      simp only [h1] at h
      cases hv : bb.is_valid
      · simp only [hv, Bool.false_eq_true, if_false, Except.ok.injEq] at h
        subst h
        rw [← hh]
        unfold UpdateTransform
        cases hdc <;> simp
      · simp only [hv, if_true] at h
        cases h2 : ConvertBuffer build bb s.background_buffer_ with
        | error e => simp [h2] at h
        | ok bg =>
          simp only [h2, Except.ok.injEq] at h
          subst h
          rw [← hh]
          unfold UpdateTransform
          cases hdc <;> simp
  · simp only [hp] at h
    cases hm : wb.maps
    · simp [hm] at h
    · simp only [hm, Bool.not_true, Bool.false_eq_true, if_false, Except.ok.injEq] at h
      subst h
      simp
  · simp only [hp, Except.ok.injEq] at h
    subst h
    simp

/-- C11, as stated, fails in three ways. The window rectangle goes from `(0,0,10,10)` to
`(5,5,20,20)` with no valid buffer supplied: the origin and the size both changed, and
`UpdateTransform` is called all the same. On Linux a valid front-buffer handle whose mapping
fails is passed to `SetWindowlessBuffer`, and no buffer is installed afterwards. On Windows, in
a build with assertions, the same handle makes the call end at `NOTREACHED()`. -/
theorem transform_only_on_pure_move_counterexample :
    (WebPluginProxy.create Platform.linux 7
        ⟨⟨0, 0, 10, 10⟩, ⟨0, 0, 10, 10⟩, true⟩).delegate_.rect.width ≠
      Rect.width ⟨5, 5, 20, 20⟩ ∧
    (∀ build : Build, ∃ t : WebPluginProxy,
      UpdateGeometry build
          (WebPluginProxy.create Platform.linux 7 ⟨⟨0, 0, 10, 10⟩, ⟨0, 0, 10, 10⟩, true⟩)
          ⟨5, 5, 20, 20⟩ ⟨0, 0, 20, 20⟩ ⟨false, false, false, false⟩
          ⟨false, false, false, false⟩ = Except.ok t ∧
      t.trace = [Event.updateTransform]) ∧
    (∀ build : Build, ∃ t : WebPluginProxy,
      UpdateGeometry build
          (WebPluginProxy.create Platform.linux 7 ⟨⟨0, 0, 10, 10⟩, ⟨0, 0, 10, 10⟩, true⟩)
          ⟨0, 0, 20, 20⟩ ⟨0, 0, 20, 20⟩ ⟨true, false, false, false⟩
          ⟨false, false, false, false⟩ = Except.ok t ∧
      t.trace =
        [Event.setWindowlessBuffer ⟨true, false, false, false⟩ ⟨false, false, false, false⟩] ∧
      t.windowless_buffer_ = false) ∧
    UpdateGeometry Build.debug
        (WebPluginProxy.create Platform.win 7 ⟨⟨0, 0, 10, 10⟩, ⟨0, 0, 10, 10⟩, true⟩)
        ⟨0, 0, 20, 20⟩ ⟨0, 0, 20, 20⟩ ⟨true, false, false, false⟩
        ⟨false, false, false, false⟩ = Except.error Crash.notreached := by
  refine ⟨by decide, ?_, ?_, rfl⟩
  · intro build
    exact ⟨_, rfl, by decide⟩
  · intro build
    exact ⟨_, rfl, by decide, by decide⟩

/-- C11, amended: a call of `UpdateGeometry` that returns has stored the new window and clip
rectangles in the delegate. If the supplied front-buffer handle is valid, `SetWindowlessBuffer`
was called with the two handles and `UpdateGeometry` made no call of `UpdateTransform` of its
own (on Windows `SetWindowlessBuffer` ends with one, which sets the world transform for the new
origin when a drawing target is installed); a drawing target is installed afterwards exactly
when the mapping succeeded (Mac, Linux), and on Windows when `CreateCompatibleDC` succeeded
after a successful mapping and `CreateDIBSection`, or one of these two failed and a target was
installed before. Otherwise `UpdateTransform` is called exactly when the origin of the window
rectangle changed, whether or not the size changed and whether or not a buffer is installed.
When neither a valid buffer is supplied nor the origin changed, neither is called. The call
returns whenever the front-buffer handle is not valid, or the platform is Linux, or it is Mac
and the handle can be mapped, or it is Windows and either the build has no assertions or the
handle, and the background handle if valid, can be converted. -/
theorem geometry_buffer_transform_choice (build : Build) (s : WebPluginProxy) (w c : Rect)
    (wb bb : TransportDIBHandle) :
    ((wb.is_valid = false ∨
        (s.platform = Platform.linux) ∨
        (s.platform = Platform.mac ∧ wb.maps = true) ∨
        (s.platform = Platform.win ∧
          (build = Build.release ∨
            ((wb.maps = true ∧ wb.dib_section = true ∧ wb.compatible_dc = true) ∧
              (bb.is_valid = true →
                bb.maps = true ∧ bb.dib_section = true ∧ bb.compatible_dc = true))))) →
      ∃ t, UpdateGeometry build s w c wb bb = Except.ok t) ∧
    (∀ t, UpdateGeometry build s w c wb bb = Except.ok t →
      t.delegate_.rect = w ∧
      t.delegate_.clip_rect = c ∧
      (wb.is_valid = true →
        (∃ u, SetWindowlessBuffer build
            { s with delegate_ := s.delegate_.UpdateGeometry w c } wb bb = Except.ok u ∧
          t.trace = u.trace) ∧
        t.windowless_buffer_ =
          (match s.platform with
            | Platform.win =>
              if (wb.maps && wb.dib_section) = true then wb.compatible_dc
              else s.windowless_buffer_
            | Platform.mac => wb.maps
            | Platform.linux => wb.maps) ∧
        t.trace =
          s.trace ++ Event.setWindowlessBuffer wb bb ::
            (if s.platform = Platform.win then
              Event.updateTransform ::
                (if t.windowless_buffer_ = true
                  then [Event.setWorldTransform w.x w.y] else [])
            else [])) ∧
      (wb.is_valid = false → (s.delegate_.rect.x ≠ w.x ∨ s.delegate_.rect.y ≠ w.y) →
        t.trace =
          s.trace ++ Event.updateTransform ::
            (if s.platform = Platform.win ∧ s.windowless_buffer_ = true
              then [Event.setWorldTransform w.x w.y] else [])) ∧
      (wb.is_valid = false → s.delegate_.rect.x = w.x → s.delegate_.rect.y = w.y →
        t.trace = s.trace)) := by
  constructor
  · intro hc
    exact (UpdateGeometry_returns build s w c wb bb).2
      ((UpdateGeometryReturns_iff build s.platform wb bb).2 hc)
  intro t ht
  obtain ⟨s2, hi, pe⟩ := UpdateGeometry_ok build s t w c wb bb ht
  obtain ⟨_, _, _, p4, _⟩ := UpdateGeometry.install_preserves build s s2 w c wb bb hi
  have htr : t.trace = s2.trace ∧ t.delegate_ = s2.delegate_ ∧
      t.windowless_buffer_ = s2.windowless_buffer_ := by
    rw [pe]
    split
    · exact InvalidateRect_trace s2 _
    · exact ⟨rfl, rfl, rfl⟩
  obtain ⟨t1, t2, t3⟩ := htr
  refine ⟨by rw [t2, p4]; rfl, by rw [t2, p4]; rfl, ?_, ?_, ?_⟩
  · intro hv
    unfold UpdateGeometry.install at hi
    simp only [hv, if_true] at hi
    obtain ⟨k1, k2⟩ := SetWindowlessBuffer_ok build _ s2 wb bb hi
    refine ⟨⟨s2, hi, t1⟩, ?_, ?_⟩
    · rw [t3, k1]
    · rw [t1, t3, k2]
      rfl
  · intro hv hmove
    have hm : (s.delegate_.rect.x != w.x || s.delegate_.rect.y != w.y) = true := by
      rcases hmove with h | h <;> simp [h]
    unfold UpdateGeometry.install at hi
    simp only [hv, hm, if_true, if_false, Bool.false_eq_true, Except.ok.injEq] at hi
    rw [t1, ← hi]
    unfold UpdateTransform
    cases hp : s.platform <;> cases hb : s.windowless_buffer_ <;>
      simp [hp, hb, WebPluginDelegate.UpdateGeometry]
  · intro hv hx hy
    unfold UpdateGeometry.install at hi
    simp only [hv, hx, hy, bne_self_eq_false, Bool.or_self, if_false, Bool.false_eq_true,
      Except.ok.injEq] at hi
    rw [t1, ← hi]

theorem geometry_buffer_transform_choice_witness :
    (∃ t,
      UpdateGeometry Build.debug
          (WebPluginProxy.create Platform.win 7 ⟨⟨0, 0, 10, 10⟩, ⟨0, 0, 10, 10⟩, true⟩)
          ⟨5, 5, 20, 20⟩ ⟨0, 0, 20, 20⟩ ⟨true, true, true, true⟩
          ⟨false, false, false, false⟩ = Except.ok t ∧
      t.windowless_buffer_ = true ∧
      t.trace =
        [Event.setWindowlessBuffer ⟨true, true, true, true⟩ ⟨false, false, false, false⟩,
         Event.updateTransform, Event.setWorldTransform 5 5]) ∧
    (∃ t,
      UpdateGeometry Build.debug
          (WebPluginProxy.create Platform.win 7 ⟨⟨0, 0, 10, 10⟩, ⟨0, 0, 10, 10⟩, true⟩)
          ⟨5, 5, 20, 20⟩ ⟨0, 0, 20, 20⟩ ⟨false, false, false, false⟩
          ⟨false, false, false, false⟩ = Except.ok t ∧
      t.trace = [Event.updateTransform]) ∧
    (∃ t,
      UpdateGeometry Build.debug
          (WebPluginProxy.create Platform.win 7 ⟨⟨0, 0, 10, 10⟩, ⟨0, 0, 10, 10⟩, true⟩)
          ⟨0, 0, 20, 20⟩ ⟨0, 0, 20, 20⟩ ⟨false, false, false, false⟩
          ⟨false, false, false, false⟩ = Except.ok t ∧
      t.trace = []) := by
  refine ⟨?_, ?_, ?_⟩
  · obtain ⟨t, ht⟩ := (geometry_buffer_transform_choice Build.debug
      (WebPluginProxy.create Platform.win 7 ⟨⟨0, 0, 10, 10⟩, ⟨0, 0, 10, 10⟩, true⟩)
      ⟨5, 5, 20, 20⟩ ⟨0, 0, 20, 20⟩ ⟨true, true, true, true⟩
      ⟨false, false, false, false⟩).1 (by decide)
    have h := ((geometry_buffer_transform_choice Build.debug
      (WebPluginProxy.create Platform.win 7 ⟨⟨0, 0, 10, 10⟩, ⟨0, 0, 10, 10⟩, true⟩)
      ⟨5, 5, 20, 20⟩ ⟨0, 0, 20, 20⟩ ⟨true, true, true, true⟩
      ⟨false, false, false, false⟩).2 t ht).2.2.1 (by decide)
    have hb : t.windowless_buffer_ = true := h.2.1
    refine ⟨t, ht, hb, ?_⟩
    have h3 := h.2.2
    rw [hb] at h3
    exact h3
  · obtain ⟨t, ht⟩ := (geometry_buffer_transform_choice Build.debug
      (WebPluginProxy.create Platform.win 7 ⟨⟨0, 0, 10, 10⟩, ⟨0, 0, 10, 10⟩, true⟩)
      ⟨5, 5, 20, 20⟩ ⟨0, 0, 20, 20⟩ ⟨false, false, false, false⟩
      ⟨false, false, false, false⟩).1 (by decide)
    exact ⟨t, ht, ((geometry_buffer_transform_choice Build.debug
      (WebPluginProxy.create Platform.win 7 ⟨⟨0, 0, 10, 10⟩, ⟨0, 0, 10, 10⟩, true⟩)
      ⟨5, 5, 20, 20⟩ ⟨0, 0, 20, 20⟩ ⟨false, false, false, false⟩
      ⟨false, false, false, false⟩).2 t ht).2.2.2.1 (by decide) (Or.inl (by decide))⟩
  · obtain ⟨t, ht⟩ := (geometry_buffer_transform_choice Build.debug
      (WebPluginProxy.create Platform.win 7 ⟨⟨0, 0, 10, 10⟩, ⟨0, 0, 10, 10⟩, true⟩)
      ⟨0, 0, 20, 20⟩ ⟨0, 0, 20, 20⟩ ⟨false, false, false, false⟩
      ⟨false, false, false, false⟩).1 (by decide)
    exact ⟨t, ht, ((geometry_buffer_transform_choice Build.debug
      (WebPluginProxy.create Platform.win 7 ⟨⟨0, 0, 10, 10⟩, ⟨0, 0, 10, 10⟩, true⟩)
      ⟨0, 0, 20, 20⟩ ⟨0, 0, 20, 20⟩ ⟨false, false, false, false⟩
      ⟨false, false, false, false⟩).2 t ht).2.2.2.2 (by decide) (by decide) (by decide)⟩

/-! ## Facts about the resource client map -/

theorem ResourceClientMap.find_cons (k : Int) (v : Nat) (m : ResourceClientMap) (id : Int) :
    ResourceClientMap.find ((k, v) :: m) id =
      if id = k then some v else ResourceClientMap.find m id := by
  unfold ResourceClientMap.find
  rw [List.lookup_cons]
  by_cases h : id = k
  · simp [h]
  · have hb : (id == k) = false := by simpa using h
    simp [h, hb]

theorem ResourceClientMap.find_erase_self (m : ResourceClientMap) (id : Int) :
    (ResourceClientMap.erase m id).find id = none := by
  induction m with
  | nil => rfl
  | cons e m ih =>
    obtain ⟨k, v⟩ := e
    by_cases h : k = id
    · simpa [ResourceClientMap.erase, h] using ih
    · have hne : id ≠ k := fun hc => h hc.symm
      have he : ResourceClientMap.erase ((k, v) :: m) id =
          (k, v) :: ResourceClientMap.erase m id := by
        simp [ResourceClientMap.erase, h]
      rw [he, ResourceClientMap.find_cons, if_neg hne]
      exact ih

theorem ResourceClientMap.find_erase_ne (m : ResourceClientMap) (id j : Int) (hj : j ≠ id) :
    (ResourceClientMap.erase m id).find j = ResourceClientMap.find m j := by
  induction m with
  | nil => rfl
  | cons e m ih =>
    obtain ⟨k, v⟩ := e
    by_cases h : k = id
    · have he : ResourceClientMap.erase ((k, v) :: m) id = ResourceClientMap.erase m id := by
        simp [ResourceClientMap.erase, h]
      have hjk : j ≠ k := by rw [h]; exact hj
      rw [he, ResourceClientMap.find_cons, if_neg hjk]
      exact ih
    · have he : ResourceClientMap.erase ((k, v) :: m) id =
          (k, v) :: ResourceClientMap.erase m id := by
        simp [ResourceClientMap.erase, h]
      rw [he, ResourceClientMap.find_cons, ResourceClientMap.find_cons, ih]

theorem ResourceClientMap.mem_erase (m : ResourceClientMap) (id : Int) (e : Int × Nat) :
    e ∈ ResourceClientMap.erase m id ↔ e ∈ m ∧ e.1 ≠ id := by
  simp [ResourceClientMap.erase]

theorem ResourceClientMap.find_assign_self (m : ResourceClientMap) (id : Int) (c : Nat) :
    (ResourceClientMap.assign m id c).find id = some c := by
  induction m with
  | nil => simp [ResourceClientMap.assign, ResourceClientMap.find_cons]
  | cons e m ih =>
    obtain ⟨k, v⟩ := e
    unfold ResourceClientMap.assign
    by_cases h1 : id < k
    · simp [h1, ResourceClientMap.find_cons]
    · by_cases h2 : id = k
      · simp [h2, ResourceClientMap.find_cons]
      · simp only [h1, h2, if_false]
        rw [ResourceClientMap.find_cons, if_neg h2]
        exact ih

theorem ResourceClientMap.find_assign_ne (m : ResourceClientMap) (id j : Int) (c : Nat)
    (hj : j ≠ id) : (ResourceClientMap.assign m id c).find j = ResourceClientMap.find m j := by
  induction m with
  | nil =>
    simp only [ResourceClientMap.assign]
    rw [ResourceClientMap.find_cons, if_neg hj]
  | cons e m ih =>
    obtain ⟨k, v⟩ := e
    unfold ResourceClientMap.assign
    by_cases h1 : id < k
    · simp only [h1, if_true]
      rw [ResourceClientMap.find_cons, if_neg hj]
    · by_cases h2 : id = k
      · subst h2
        simp only [lt_irrefl, if_false, if_true]
        rw [ResourceClientMap.find_cons, if_neg hj, ResourceClientMap.find_cons, if_neg hj]
      · simp only [h1, h2, if_false]
        rw [ResourceClientMap.find_cons, ResourceClientMap.find_cons, ih]

theorem ResourceClientDeleted.loop_eq (h : Nat) (remaining visited : ResourceClientMap) :
    ResourceClientDeleted.loop h visited remaining =
      visited ++ List.filter (fun e => e.2 != h) remaining := by
  induction remaining generalizing visited with
  | nil => simp [ResourceClientDeleted.loop]
  | cons e rest ih =>
    obtain ⟨id, client⟩ := e
    unfold ResourceClientDeleted.loop
    by_cases hc : client = h
    · simp only [hc, if_true]
      rw [ih]
      simp
    · simp only [hc, if_false]
      rw [ih]
      simp [hc]

/-! ## The resource client registry (C12 to C16) -/

/-- C12: for every resource-client map and handler `h`, after `ResourceClientDeleted(h)` the map
holds exactly the entries whose value is not `h`, each with its original id and value and in
the original order; nothing else in the proxy changes. -/
theorem purge_handler_removes_all (s : ProxyRegistries) (h : Nat) :
    (ResourceClientDeleted s h).resource_clients_ =
      List.filter (fun e => e.2 != h) s.resource_clients_ ∧
    (∀ e : Int × Nat, e ∈ (ResourceClientDeleted s h).resource_clients_ ↔
      (e ∈ s.resource_clients_ ∧ e.2 ≠ h)) ∧
    ResourceClientDeleted s h =
      { s with resource_clients_ := (ResourceClientDeleted s h).resource_clients_ } := by
  have h1 : (ResourceClientDeleted s h).resource_clients_ =
      List.filter (fun e => e.2 != h) s.resource_clients_ := by
    simp [ResourceClientDeleted, ResourceClientDeleted.loop_eq]
  refine ⟨h1, ?_, rfl⟩
  intro e
  rw [h1]
  simp

theorem purge_handler_removes_all_witness :
    (ResourceClientDeleted ⟨4, [(1, 7), (2, 7), (3, 9)], none, none, 0, []⟩ 7).resource_clients_ =
      [(3, 9)] :=
  (purge_handler_removes_all ⟨4, [(1, 7), (2, 7), (3, 9)], none, none, 0, []⟩ 7).1.trans
    (by decide)

/-- C13: in a build with assertions, `OnResourceCreated(id, h2)` with a non-null handler and an
id already present in the resource-client map fails its `DCHECK`. For an id that is not present
the assertion holds in every build, and afterwards the map gives the handler for `id` and what it
gave before for every other id. -/
theorem duplicate_registration_asserts (s : ProxyRegistries) (id : Int) (h2 : Nat) :
    (h2 ≠ 0 → s.resource_clients_.find id ≠ none →
      OnResourceCreated Build.debug s id h2 = Except.error AssertionFailure.dcheck) ∧
    (h2 ≠ 0 → s.resource_clients_.find id = none → ∀ build : Build,
      OnResourceCreated build s id h2 =
        Except.ok { s with resource_clients_ := s.resource_clients_.assign id h2 } ∧
      (s.resource_clients_.assign id h2).find id = some h2 ∧
      (∀ j : Int, j ≠ id →
        (s.resource_clients_.assign id h2).find j = s.resource_clients_.find j)) := by
  constructor
  · intro hn hp
    simp [OnResourceCreated, hn, hp]
  · intro hn ha build
    refine ⟨?_, ResourceClientMap.find_assign_self _ _ _,
      fun j hj => ResourceClientMap.find_assign_ne _ _ _ _ hj⟩
    simp [OnResourceCreated, hn, ha]

theorem duplicate_registration_asserts_witness :
    OnResourceCreated Build.debug ⟨4, [(1, 7), (3, 9)], none, none, 0, []⟩ 3 8 =
      Except.error AssertionFailure.dcheck ∧
    OnResourceCreated Build.debug ⟨4, [(1, 7), (3, 9)], none, none, 0, []⟩ 2 8 =
      Except.ok ⟨4, [(1, 7), (2, 8), (3, 9)], none, none, 0, []⟩ :=
  ⟨(duplicate_registration_asserts ⟨4, [(1, 7), (3, 9)], none, none, 0, []⟩ 3 8).1
      (by decide) (by decide),
   ((duplicate_registration_asserts ⟨4, [(1, 7), (3, 9)], none, none, 0, []⟩ 2 8).2
      (by decide) (by decide) Build.debug).1⟩

/-- C14, as stated, fails: in a release build, with the map `{1: 10}`, the duplicate
registration `OnResourceCreated(1, 20)` replaces the entry, and `GetResourceClient(1)` returns
`20` afterwards, not `10`. -/
theorem release_duplicate_is_ignored_counterexample :
    ResourceClientMap.find [(1, 10)] 1 = some 10 ∧
    OnResourceCreated Build.release ⟨4, [(1, 10)], none, none, 0, []⟩ 1 20 =
      Except.ok ⟨4, [(1, 20)], none, none, 0, []⟩ ∧
    (GetResourceClient ⟨4, [(1, 20)], none, none, 0, []⟩ 1).1 = 20 ∧
    (GetResourceClient ⟨4, [(1, 20)], none, none, 0, []⟩ 1).1 ≠ 10 :=
  ⟨by decide, rfl, by decide, by decide⟩

/-- C14, amended: in a release build (assertions compiled out), a duplicate registration with a
non-null handler is not ignored: for every map containing `id -> h` and every non-null `h2`,
`OnResourceCreated(id, h2)` replaces the entry, so `GetResourceClient(id)` returns `h2`
afterwards, and every other id keeps its entry. With a null handler the call returns with the
proxy unchanged, so `GetResourceClient(id)` still returns `h`. -/
theorem release_duplicate_overwrites (s : ProxyRegistries) (id : Int) (h h2 : Nat)
    (hp : s.resource_clients_.find id = some h) :
    (h2 ≠ 0 →
      OnResourceCreated Build.release s id h2 =
        Except.ok { s with resource_clients_ := s.resource_clients_.assign id h2 } ∧
      (GetResourceClient
        { s with resource_clients_ := s.resource_clients_.assign id h2 } id).1 = h2 ∧
      (∀ j : Int, j ≠ id →
        (s.resource_clients_.assign id h2).find j = s.resource_clients_.find j)) ∧
    (h2 = 0 → OnResourceCreated Build.release s id h2 = Except.ok s ∧
      (GetResourceClient s id).1 = h) := by
  constructor
  · intro hn
    refine ⟨by simp [OnResourceCreated, hn], ?_,
      fun j hj => ResourceClientMap.find_assign_ne _ _ _ _ hj⟩
    simp [GetResourceClient, ResourceClientMap.find_assign_self]
  · intro hz
    refine ⟨by simp [OnResourceCreated, hz], ?_⟩
    simp [GetResourceClient, hp]

theorem release_duplicate_overwrites_witness :
    OnResourceCreated Build.release ⟨4, [(1, 10), (5, 11)], none, none, 0, []⟩ 5 20 =
      Except.ok { (⟨4, [(1, 10), (5, 11)], none, none, 0, []⟩ : ProxyRegistries) with
        resource_clients_ := ResourceClientMap.assign [(1, 10), (5, 11)] 5 20 } ∧
    OnResourceCreated Build.release ⟨4, [(1, 10), (5, 11)], none, none, 0, []⟩ 5 0 =
      Except.ok ⟨4, [(1, 10), (5, 11)], none, none, 0, []⟩ :=
  ⟨((release_duplicate_overwrites ⟨4, [(1, 10), (5, 11)], none, none, 0, []⟩ 5 11 20
    (by decide)).1 (by decide)).1,
   ((release_duplicate_overwrites ⟨4, [(1, 10), (5, 11)], none, none, 0, []⟩ 5 11 0
    (by decide)).2 rfl).1⟩

/-- C15: for every resource-client map and every id, `GetResourceClient(id)` returns the handler
registered under `id` when there is one and `NULL` when there is none; it has no assertion to
fail and leaves the proxy, the map included, exactly as it was (no entry is inserted). -/
theorem lookup_returns_handler_or_null (s : ProxyRegistries) (id : Int) :
    (∀ h : Nat, s.resource_clients_.find id = some h → (GetResourceClient s id).1 = h) ∧
    (s.resource_clients_.find id = none → (GetResourceClient s id).1 = 0) ∧
    (GetResourceClient s id).2 = s := by
  unfold GetResourceClient
  cases hf : s.resource_clients_.find id with
  | none => simp
  | some c => simp

theorem lookup_returns_handler_or_null_witness :
    (GetResourceClient ⟨4, [(1, 10), (5, 11)], none, none, 0, []⟩ 5).1 = 11 ∧
    (GetResourceClient ⟨4, [(1, 10), (5, 11)], none, none, 0, []⟩ 6).1 = 0 :=
  ⟨(lookup_returns_handler_or_null ⟨4, [(1, 10), (5, 11)], none, none, 0, []⟩ 5).1 11
      (by decide),
   (lookup_returns_handler_or_null ⟨4, [(1, 10), (5, 11)], none, none, 0, []⟩ 6).2.1
      (by decide)⟩

/-- C16: for every resource-client map and every id, registered or not, `CancelResource(id)`
sends exactly one `CancelResource(route_id, id)` message to the peer, and afterwards
`GetResourceClient(id)` returns `NULL` while every entry with a different id is unchanged. -/
theorem cancel_notifies_and_removes (s : ProxyRegistries) (id : Int) :
    (CancelResource s id).sent = s.sent ++ [HostMsg.CancelResource s.route_id_ id] ∧
    (GetResourceClient (CancelResource s id) id).1 = 0 ∧
    (∀ j : Int, j ≠ id →
      (CancelResource s id).resource_clients_.find j = s.resource_clients_.find j) ∧
    (∀ e : Int × Nat, e.1 ≠ id →
      (e ∈ (CancelResource s id).resource_clients_ ↔ e ∈ s.resource_clients_)) ∧
    CancelResource s id =
      { s with sent := (CancelResource s id).sent,
               resource_clients_ := (CancelResource s id).resource_clients_ } := by
  refine ⟨rfl, ?_, ?_, ?_, rfl⟩
  · simp [GetResourceClient, CancelResource, ResourceClientMap.find_erase_self]
  · intro j hj
    exact ResourceClientMap.find_erase_ne _ _ _ hj
  · intro e he
    simp only [CancelResource, ResourceClientMap.mem_erase]
    exact ⟨fun h => h.1, fun h => ⟨h, he⟩⟩

theorem cancel_notifies_and_removes_witness :
    (CancelResource ⟨4, [(1, 10), (5, 11)], none, none, 0, []⟩ 5).sent =
      [] ++ [HostMsg.CancelResource 4 5] ∧
    (CancelResource ⟨4, [(1, 10), (5, 11)], none, none, 0, []⟩ 8).sent =
      [] ++ [HostMsg.CancelResource 4 8] :=
  ⟨(cancel_notifies_and_removes ⟨4, [(1, 10), (5, 11)], none, none, 0, []⟩ 5).1,
   (cancel_notifies_and_removes ⟨4, [(1, 10), (5, 11)], none, none, 0, []⟩ 8).1⟩

/-! ## The script object wrappers (C17, C18) -/

theorem GetWindowScriptNPObject_cached (s : ProxyRegistries) (w : NPObject) (reply : Bool × Int)
    (h : s.window_npobject_ = some w) :
    GetWindowScriptNPObject s reply =
      (some (retainObject w), { s with window_npobject_ := some (retainObject w) }) := by
  simp [GetWindowScriptNPObject, h]

theorem GetPluginElement_cached (s : ProxyRegistries) (w : NPObject) (reply : Bool × Int)
    (h : s.plugin_element_ = some w) :
    GetPluginElement s reply =
      (some (retainObject w), { s with plugin_element_ := some (retainObject w) }) := by
  simp [GetPluginElement, h]

theorem GetWindowScriptNPObject_returned (s : ProxyRegistries) (w : NPObject)
    (reply : Bool × Int) (h : (GetWindowScriptNPObject s reply).1 = some w) :
    (GetWindowScriptNPObject s reply).2.window_npobject_ = some w := by
  unfold GetWindowScriptNPObject at h ⊢
  cases hc : s.window_npobject_ with
  | some v => simpa [hc] using h
  | none =>
    cases hr : reply.1
    · simp [hc, hr] at h
    · simpa [hc, hr] using h

theorem GetPluginElement_returned (s : ProxyRegistries) (w : NPObject)
    (reply : Bool × Int) (h : (GetPluginElement s reply).1 = some w) :
    (GetPluginElement s reply).2.plugin_element_ = some w := by
  unfold GetPluginElement at h ⊢
  cases hc : s.plugin_element_ with
  | some v => simpa [hc] using h
  | none =>
    cases hr : reply.1
    · simp [hc, hr] at h
    · simpa [hc, hr] using h

theorem LaterWindowCalls_cached (replies : List (Bool × Int)) (s : ProxyRegistries)
    (w : NPObject) (h : s.window_npobject_ = some w) :
    LaterWindowCalls s replies =
      { s with
        window_npobject_ := some ⟨w.route_id, w.npobject_ptr, w.referenceCount + replies.length⟩
      } := by
  induction replies generalizing s w with
  | nil =>
    simp only [LaterWindowCalls, List.foldl_nil, List.length_nil, Nat.add_zero]
    rw [← h]
  | cons r rest ih =>
    have h1 := GetWindowScriptNPObject_cached s w r h
    have h2 := ih (GetWindowScriptNPObject s r).2 (retainObject w) (by rw [h1])
    simp only [LaterWindowCalls, List.foldl_cons] at h2 ⊢
    rw [h2, h1]
    simp [retainObject, Nat.add_comm, Nat.add_left_comm]

theorem LaterElementCalls_cached (replies : List (Bool × Int)) (s : ProxyRegistries)
    (w : NPObject) (h : s.plugin_element_ = some w) :
    LaterElementCalls s replies =
      { s with
        plugin_element_ := some ⟨w.route_id, w.npobject_ptr, w.referenceCount + replies.length⟩
      } := by
  induction replies generalizing s w with
  | nil =>
    simp only [LaterElementCalls, List.foldl_nil, List.length_nil, Nat.add_zero]
    rw [← h]
  | cons r rest ih =>
    have h1 := GetPluginElement_cached s w r h
    have h2 := ih (GetPluginElement s r).2 (retainObject w) (by rw [h1])
    simp only [LaterElementCalls, List.foldl_cons] at h2 ⊢
    rw [h2, h1]
    simp [retainObject, Nat.add_comm, Nat.add_left_comm]

theorem GetWindowScriptNPObject_result (s : ProxyRegistries) (w : NPObject)
    (reply : Bool × Int) :
    (GetWindowScriptNPObject s reply).1 = some w ↔
      ((∃ v, s.window_npobject_ = some v ∧ w = retainObject v) ∨
        (s.window_npobject_ = none ∧ reply.1 = true ∧
          w = NPObjectProxy.Create s.next_route_id reply.2)) := by
  unfold GetWindowScriptNPObject
  cases hc : s.window_npobject_ with
  | some v =>
    simp only [Option.some.injEq, exists_eq_left', reduceCtorEq, false_and, or_false]
    exact eq_comm
  | none =>
    cases hr : reply.1
    · simp
    · simp only [Bool.not_true, Bool.false_eq_true, if_false, Option.some.injEq,
        reduceCtorEq, false_and, exists_false, true_and, false_or]
      exact eq_comm

theorem GetPluginElement_result (s : ProxyRegistries) (w : NPObject)
    (reply : Bool × Int) :
    (GetPluginElement s reply).1 = some w ↔
      ((∃ v, s.plugin_element_ = some v ∧ w = retainObject v) ∨
        (s.plugin_element_ = none ∧ reply.1 = true ∧
          w = NPObjectProxy.Create s.next_route_id reply.2)) := by
  unfold GetPluginElement
  cases hc : s.plugin_element_ with
  | some v =>
    simp only [Option.some.injEq, exists_eq_left', reduceCtorEq, false_and, or_false]
    exact eq_comm
  | none =>
    cases hr : reply.1
    · simp
    · simp only [Bool.not_true, Bool.false_eq_true, if_false, Option.some.injEq,
        reduceCtorEq, false_and, exists_false, true_and, false_or]
      exact eq_comm

/-- C17: `GetWindowScriptNPObject` (likewise `GetPluginElement`) returns a wrapper `w` exactly
when a wrapper is cached and `w` is that wrapper with one more reference, or none is cached, the
peer reports success and `w` is the newly created wrapper. Once a call has returned a wrapper
`w`, that wrapper is the cached one, and every later call returns the same `w` with its
reference count incremented by one, sends no request to the peer and generates no new route id:
a call on a proxy with a cached wrapper changes nothing but that wrapper's reference count, and
after any number of later calls the proxy differs only in the reference count of the one cached
wrapper. -/
theorem wrapper_lookup_is_idempotent (s : ProxyRegistries) (w : NPObject)
    (reply next : Bool × Int) (later : List (Bool × Int)) :
    (((GetWindowScriptNPObject s reply).1 = some w ↔
        ((∃ v, s.window_npobject_ = some v ∧ w = retainObject v) ∨
          (s.window_npobject_ = none ∧ reply.1 = true ∧
            w = NPObjectProxy.Create s.next_route_id reply.2))) ∧
      (s.window_npobject_ = some w →
        GetWindowScriptNPObject s next =
          (some (retainObject w), { s with window_npobject_ := some (retainObject w) })) ∧
      ((GetWindowScriptNPObject s reply).1 = some w →
        (GetWindowScriptNPObject s reply).2.window_npobject_ = some w ∧
        (GetWindowScriptNPObject (GetWindowScriptNPObject s reply).2 next).1 =
          some { w with referenceCount := w.referenceCount + 1 } ∧
        (GetWindowScriptNPObject (GetWindowScriptNPObject s reply).2 next).2.sent =
          (GetWindowScriptNPObject s reply).2.sent ∧
        (GetWindowScriptNPObject (GetWindowScriptNPObject s reply).2 next).2.next_route_id =
          (GetWindowScriptNPObject s reply).2.next_route_id ∧
        LaterWindowCalls (GetWindowScriptNPObject s reply).2 later =
          { (GetWindowScriptNPObject s reply).2 with
            window_npobject_ :=
              some ⟨w.route_id, w.npobject_ptr, w.referenceCount + later.length⟩ })) ∧
    (((GetPluginElement s reply).1 = some w ↔
        ((∃ v, s.plugin_element_ = some v ∧ w = retainObject v) ∨
          (s.plugin_element_ = none ∧ reply.1 = true ∧
            w = NPObjectProxy.Create s.next_route_id reply.2))) ∧
      (s.plugin_element_ = some w →
        GetPluginElement s next =
          (some (retainObject w), { s with plugin_element_ := some (retainObject w) })) ∧
      ((GetPluginElement s reply).1 = some w →
        (GetPluginElement s reply).2.plugin_element_ = some w ∧
        (GetPluginElement (GetPluginElement s reply).2 next).1 =
          some { w with referenceCount := w.referenceCount + 1 } ∧
        (GetPluginElement (GetPluginElement s reply).2 next).2.sent =
          (GetPluginElement s reply).2.sent ∧
        (GetPluginElement (GetPluginElement s reply).2 next).2.next_route_id =
          (GetPluginElement s reply).2.next_route_id ∧
        LaterElementCalls (GetPluginElement s reply).2 later =
          { (GetPluginElement s reply).2 with
            plugin_element_ :=
              some ⟨w.route_id, w.npobject_ptr, w.referenceCount + later.length⟩ })) := by
  constructor
  · refine ⟨GetWindowScriptNPObject_result s w reply,
      fun h => GetWindowScriptNPObject_cached s w next h, ?_⟩
    intro h
    have hc := GetWindowScriptNPObject_returned s w reply h
    have h1 := GetWindowScriptNPObject_cached _ w next hc
    refine ⟨hc, by rw [h1]; rfl, by rw [h1], by rw [h1], LaterWindowCalls_cached later _ w hc⟩
  · refine ⟨GetPluginElement_result s w reply,
      fun h => GetPluginElement_cached s w next h, ?_⟩
    intro h
    have hc := GetPluginElement_returned s w reply h
    have h1 := GetPluginElement_cached _ w next hc
    refine ⟨hc, by rw [h1]; rfl, by rw [h1], by rw [h1], LaterElementCalls_cached later _ w hc⟩

theorem wrapper_lookup_is_idempotent_witness :
    ((GetWindowScriptNPObject ⟨4, [], none, none, 100, []⟩ (true, 55)).1 =
        some ⟨100, 55, 1⟩ ∧
      (GetWindowScriptNPObject
          (GetWindowScriptNPObject ⟨4, [], none, none, 100, []⟩ (true, 55)).2 (false, 0)).1 =
        some { (⟨100, 55, 1⟩ : NPObject) with referenceCount := 1 + 1 } ∧
      (GetWindowScriptNPObject
          (GetWindowScriptNPObject ⟨4, [], none, none, 100, []⟩ (true, 55)).2
          (false, 0)).2.sent =
        (GetWindowScriptNPObject ⟨4, [], none, none, 100, []⟩ (true, 55)).2.sent ∧
      GetWindowScriptNPObject ⟨4, [], some ⟨100, 55, 1⟩, none, 101, []⟩ (false, 0) =
        (some ⟨100, 55, 2⟩, ⟨4, [], some ⟨100, 55, 2⟩, none, 101, []⟩)) ∧
    ((GetPluginElement ⟨4, [], none, none, 100, []⟩ (true, 66)).1 = some ⟨100, 66, 1⟩ ∧
      (GetPluginElement
          (GetPluginElement ⟨4, [], none, none, 100, []⟩ (true, 66)).2 (false, 0)).1 =
        some { (⟨100, 66, 1⟩ : NPObject) with referenceCount := 1 + 1 } ∧
      (GetPluginElement
          (GetPluginElement ⟨4, [], none, none, 100, []⟩ (true, 66)).2 (false, 0)).2.sent =
        (GetPluginElement ⟨4, [], none, none, 100, []⟩ (true, 66)).2.sent ∧
      GetPluginElement ⟨4, [], none, some ⟨100, 66, 1⟩, 101, []⟩ (false, 0) =
        (some ⟨100, 66, 2⟩, ⟨4, [], none, some ⟨100, 66, 2⟩, 101, []⟩)) :=
  ⟨⟨(wrapper_lookup_is_idempotent ⟨4, [], none, none, 100, []⟩ ⟨100, 55, 1⟩ (true, 55)
        (false, 0) []).1.1.2 (Or.inr ⟨rfl, rfl, rfl⟩),
    ((wrapper_lookup_is_idempotent ⟨4, [], none, none, 100, []⟩ ⟨100, 55, 1⟩ (true, 55)
        (false, 0) []).1.2.2 (by decide)).2.1,
    ((wrapper_lookup_is_idempotent ⟨4, [], none, none, 100, []⟩ ⟨100, 55, 1⟩ (true, 55)
        (false, 0) []).1.2.2 (by decide)).2.2.1,
    (wrapper_lookup_is_idempotent ⟨4, [], some ⟨100, 55, 1⟩, none, 101, []⟩ ⟨100, 55, 1⟩
        (true, 55) (false, 0) []).1.2.1 rfl⟩,
   ⟨(wrapper_lookup_is_idempotent ⟨4, [], none, none, 100, []⟩ ⟨100, 66, 1⟩ (true, 66)
        (false, 0) []).2.1.2 (Or.inr ⟨rfl, rfl, rfl⟩),
    ((wrapper_lookup_is_idempotent ⟨4, [], none, none, 100, []⟩ ⟨100, 66, 1⟩ (true, 66)
        (false, 0) []).2.2.2 (by decide)).2.1,
    ((wrapper_lookup_is_idempotent ⟨4, [], none, none, 100, []⟩ ⟨100, 66, 1⟩ (true, 66)
        (false, 0) []).2.2.2 (by decide)).2.2.1,
    (wrapper_lookup_is_idempotent ⟨4, [], none, some ⟨100, 66, 1⟩, 101, []⟩ ⟨100, 66, 1⟩
        (true, 66) (false, 0) []).2.2.1 rfl⟩⟩

/-- C18: when no wrapper is cached, `GetWindowScriptNPObject` (likewise `GetPluginElement`) asks
the peer with a newly generated route id and returns `NULL` exactly when the peer reports
failure; in that case the cached wrapper stays absent and a later call asks the peer again. When
the peer reports success a new wrapper is constructed for the generated route id and the
pointer the peer gave, stored as the cached wrapper, and returned. -/
theorem wrapper_resolution_outcome (s : ProxyRegistries) (reply next : Bool × Int) :
    (s.window_npobject_ = none →
      ((GetWindowScriptNPObject s reply).1 = none ↔ reply.1 = false) ∧
      (GetWindowScriptNPObject s reply).2.sent =
        s.sent ++ [HostMsg.GetWindowScriptNPObject s.route_id_ s.next_route_id] ∧
      (reply.1 = false →
        (GetWindowScriptNPObject s reply).2.window_npobject_ = none ∧
        (GetWindowScriptNPObject (GetWindowScriptNPObject s reply).2 next).2.sent =
          s.sent ++ [HostMsg.GetWindowScriptNPObject s.route_id_ s.next_route_id,
                     HostMsg.GetWindowScriptNPObject s.route_id_ (s.next_route_id + 1)]) ∧
      (reply.1 = true →
        (GetWindowScriptNPObject s reply).1 =
          some (NPObjectProxy.Create s.next_route_id reply.2) ∧
        (GetWindowScriptNPObject s reply).2.window_npobject_ =
          some (NPObjectProxy.Create s.next_route_id reply.2))) ∧
    (s.plugin_element_ = none →
      ((GetPluginElement s reply).1 = none ↔ reply.1 = false) ∧
      (GetPluginElement s reply).2.sent =
        s.sent ++ [HostMsg.GetPluginElement s.route_id_ s.next_route_id] ∧
      (reply.1 = false →
        (GetPluginElement s reply).2.plugin_element_ = none ∧
        (GetPluginElement (GetPluginElement s reply).2 next).2.sent =
          s.sent ++ [HostMsg.GetPluginElement s.route_id_ s.next_route_id,
                     HostMsg.GetPluginElement s.route_id_ (s.next_route_id + 1)]) ∧
      (reply.1 = true →
        (GetPluginElement s reply).1 = some (NPObjectProxy.Create s.next_route_id reply.2) ∧
        (GetPluginElement s reply).2.plugin_element_ =
          some (NPObjectProxy.Create s.next_route_id reply.2))) := by
  constructor
  · intro hc
    cases hr : reply.1
    · refine ⟨by simp [GetWindowScriptNPObject, hc, hr],
        by simp [GetWindowScriptNPObject, hc, hr], ?_, by simp⟩
      intro _
      cases hn : next.1 <;> simp [GetWindowScriptNPObject, hc, hr, hn]
    · refine ⟨by simp [GetWindowScriptNPObject, hc, hr],
        by simp [GetWindowScriptNPObject, hc, hr], by simp, ?_⟩
      intro _
      simp [GetWindowScriptNPObject, hc, hr]
  · intro hc
    cases hr : reply.1
    · refine ⟨by simp [GetPluginElement, hc, hr],
        by simp [GetPluginElement, hc, hr], ?_, by simp⟩
      intro _
      cases hn : next.1 <;> simp [GetPluginElement, hc, hr, hn]
    · refine ⟨by simp [GetPluginElement, hc, hr],
        by simp [GetPluginElement, hc, hr], by simp, ?_⟩
      intro _
      simp [GetPluginElement, hc, hr]

theorem wrapper_resolution_outcome_witness :
    ((GetWindowScriptNPObject ⟨4, [], none, none, 100, []⟩ (false, 0)).1 = none ↔
      (false, (0 : Int)).1 = false) ∧
    (GetPluginElement ⟨4, [], none, none, 100, []⟩ (true, 9)).1 =
      some (NPObjectProxy.Create 100 (true, (9 : Int)).2) :=
  ⟨((wrapper_resolution_outcome ⟨4, [], none, none, 100, []⟩ (false, 0) (false, 0)).1
      (by decide)).1,
   (((wrapper_resolution_outcome ⟨4, [], none, none, 100, []⟩ (true, 9) (false, 0)).2
      (by decide)).2.2.2 (by decide)).1⟩

end WebPlugin

namespace Translate

/-! ## Facts about the helper's steps -/

theorem ExecuteScriptAndGetBoolResult_frame (rv : RenderView) (h : TranslateHelper)
    (script : String) :
    (ExecuteScriptAndGetBoolResult rv h script).2 =
      { h with trace := h.trace ++ ScriptLog rv script } := by
  unfold ExecuteScriptAndGetBoolResult ScriptLog
  cases hf : rv.main_frame with
  | none => simp
  | some frame =>
    simp only []
    cases hv : frame (ExecutedScripts h.trace) script <;> rfl

theorem NotReached_ok {α : Type} (build : WebPlugin.Build) (x y : α)
    (h : NotReached build x = Except.ok y) : y = x ∧ build = WebPlugin.Build.release := by
  cases build
  · simp [NotReached] at h
  · simp only [NotReached, Except.ok.injEq] at h
    exact ⟨h.symm, rfl⟩

theorem IsTranslateLibReady_state (build : WebPlugin.Build) (rv : RenderView)
    (h : TranslateHelper) (r : Bool × TranslateHelper)
    (hr : IsTranslateLibReady build rv h = Except.ok r) :
    r.2 = { h with trace := h.trace ++ ScriptLog rv "cr.googleTranslate.libReady" ++
        [TranslateEvent.libReadyChecked r.1] } := by
  unfold IsTranslateLibReady at hr
  simp only [ExecuteScriptAndGetBoolResult_frame] at hr
  split at hr
  · obtain ⟨rfl, _⟩ := NotReached_ok _ _ _ hr
    rfl
  · simp only [Except.ok.injEq] at hr
    subst hr
    rfl

theorem StartTranslation_state (build : WebPlugin.Build) (rv : RenderView)
    (h : TranslateHelper) (r : Bool × TranslateHelper)
    (hr : StartTranslation build rv h = Except.ok r) :
    r.2 = { h with
      trace := h.trace ++ ScriptLog rv (TranslateScript h.source_lang_ h.target_lang_) } := by
  unfold StartTranslation at hr
  simp only [ExecuteScriptAndGetBoolResult_frame] at hr
  split at hr
  · obtain ⟨rfl, _⟩ := NotReached_ok _ _ _ hr
    rfl
  · simp only [Except.ok.injEq] at hr
    subst hr
    rfl

theorem IsTranslateLibAvailable_state (build : WebPlugin.Build) (rv : RenderView)
    (h : TranslateHelper) (r : Bool × TranslateHelper)
    (hr : IsTranslateLibAvailable build rv h = Except.ok r) :
    r.2 = { h with trace := h.trace ++ ScriptLog rv LibAvailableScript } := by
  unfold IsTranslateLibAvailable at hr
  simp only [ExecuteScriptAndGetBoolResult_frame] at hr
  split at hr
  · obtain ⟨rfl, _⟩ := NotReached_ok _ _ _ hr
    rfl
  · simp only [Except.ok.injEq] at hr
    subst hr
    rfl

theorem TranslatePageImpl_not_ready (build : WebPlugin.Build) (rv : RenderView)
    (h h1 : TranslateHelper) (count : Int)
    (hp : h.page_id_ = rv.page_id) (hc : count < kMaxTranslateInitCheckAttempts)
    (hnr : IsTranslateLibReady build rv h = Except.ok (false, h1)) :
    TranslatePageImpl build rv h count =
      Except.ok
        (if count + 1 ≥ kMaxTranslateInitCheckAttempts then
          { h with
            translation_pending_ := false,
            trace := h.trace ++ ScriptLog rv "cr.googleTranslate.libReady" ++
              [TranslateEvent.libReadyChecked false,
               TranslateEvent.pageTranslated rv.routing_id h.page_id_ h.source_lang_
                 h.target_lang_ TranslateErrors.INITIALIZATION_ERROR] }
        else
          { h with
            posted := h.posted ++
              [(TranslateTask.TranslatePageImpl (count + 1), InitCheckDelay h (count + 1))],
            trace := h.trace ++ ScriptLog rv "cr.googleTranslate.libReady" ++
              [TranslateEvent.libReadyChecked false,
               TranslateEvent.postDelayedTask (TranslateTask.TranslatePageImpl (count + 1))
                 (InitCheckDelay h (count + 1))] }) := by
  have hs := IsTranslateLibReady_state build rv h _ hnr
  simp only [] at hs
  have hne : (h.page_id_ != rv.page_id) = false := by simp [hp]
  unfold TranslatePageImpl
  rw [if_neg (fun hd => hd.2 hc)]
  simp only [hne, Bool.false_eq_true, if_false, hnr, Bool.not_false, if_true]
  rw [hs]
  split
  · simp [NotifyBrowserTranslationFailed]
  · simp [PostDelayedTask, InitCheckDelay]

theorem RunTasks_snoc (build : WebPlugin.Build) (rv : RenderView) (n : Nat)
    (h t : TranslateHelper) (hr : RunTasks build rv n h = Except.ok t) :
    RunTasks build rv (n + 1) h = RunTask build rv t := by
  induction n generalizing h with
  | zero =>
    simp only [RunTasks, Except.ok.injEq] at hr
    subst hr
    simp only [RunTasks]
    cases RunTask build rv h <;> rfl
  | succ k ih =>
    simp only [RunTasks] at hr
    cases h1 : RunTask build rv h with
    | error e => simp [h1] at hr
    | ok u =>
      simp only [h1] at hr
      have := ih u hr
      rw [← this]
      conv => lhs; unfold RunTasks
      simp only [h1]

theorem RunTasks_add (build : WebPlugin.Build) (rv : RenderView) (a b : Nat)
    (h t : TranslateHelper) (hr : RunTasks build rv a h = Except.ok t) :
    RunTasks build rv (a + b) h = RunTasks build rv b t := by
  induction a generalizing h with
  | zero =>
    simp only [RunTasks, Except.ok.injEq] at hr
    subst hr
    simp
  | succ k ih =>
    simp only [RunTasks] at hr
    cases h1 : RunTask build rv h with
    | error e => simp [h1] at hr
    | ok u =>
      simp only [h1] at hr
      have e : k + 1 + b = (k + b) + 1 := by omega
      rw [e]
      conv => lhs; unfold RunTasks
      simp only [h1]
      exact ih u hr

theorem RunTasks_idle (build : WebPlugin.Build) (rv : RenderView) (n : Nat)
    (h : TranslateHelper) (hq : h.posted = []) : RunTasks build rv n h = Except.ok h := by
  induction n with
  | zero => rfl
  | succ k ih =>
    have e : RunTask build rv h = Except.ok h := by simp [RunTask, hq]
    simp only [RunTasks, e]
    exact ih

theorem retry_progress (build : WebPlugin.Build) (rv : RenderView) (h : TranslateHelper)
    (hp : h.page_id_ = rv.page_id)
    (hnr : ∀ h0, ∃ h1, IsTranslateLibReady build rv h0 = Except.ok (false, h1))
    (k : Nat) (hk : k < 4) :
    RunTasks build rv k
        { h with
          posted := [(TranslateTask.TranslatePageImpl 1, InitCheckDelay h 1)],
          trace := h.trace ++ RetryTrace rv h 1 } =
      Except.ok
        { h with
          posted := [(TranslateTask.TranslatePageImpl ((k : Int) + 1),
            InitCheckDelay h ((k : Int) + 1))],
          trace := h.trace ++ RetryTrace rv h (k + 1) } := by
  induction k with
  | zero => simp [RunTasks]
  | succ j ih =>
    rw [RunTasks_snoc build rv j _ _ (ih (by omega))]
    simp only [RunTask]
    obtain ⟨h1, hh1⟩ := hnr
      { h with posted := [], trace := h.trace ++ RetryTrace rv h (j + 1) }
    have h2 : (j : Int) + 1 < kMaxTranslateInitCheckAttempts := by
      simp only [kMaxTranslateInitCheckAttempts]
      omega
    rw [TranslatePageImpl_not_ready build rv
      { h with posted := [], trace := h.trace ++ RetryTrace rv h (j + 1) } h1 ((j : Int) + 1)
      hp h2 hh1]
    have h3 : ¬ ((j : Int) + 1 + 1 ≥ kMaxTranslateInitCheckAttempts) := by
      simp only [kMaxTranslateInitCheckAttempts]
      omega
    rw [if_neg h3]
    simp [RetryTrace, InitCheckDelay]

theorem retry_first (build : WebPlugin.Build) (rv : RenderView) (h : TranslateHelper)
    (hp : h.page_id_ = rv.page_id) (hq : h.posted = [])
    (hnr : ∀ h0, ∃ h1, IsTranslateLibReady build rv h0 = Except.ok (false, h1)) :
    TranslatePageImpl build rv h 0 =
      Except.ok
        { h with
          posted := [(TranslateTask.TranslatePageImpl 1, InitCheckDelay h 1)],
          trace := h.trace ++ RetryTrace rv h 1 } := by
  obtain ⟨h1, hh1⟩ := hnr h
  rw [TranslatePageImpl_not_ready build rv h h1 0 hp (by decide) hh1]
  simp [kMaxTranslateInitCheckAttempts, hq, RetryTrace]

theorem retry_exhausted (build : WebPlugin.Build) (rv : RenderView) (h : TranslateHelper)
    (hp : h.page_id_ = rv.page_id) (hq : h.posted = [])
    (hnr : ∀ h0, ∃ h1, IsTranslateLibReady build rv h0 = Except.ok (false, h1)) :
    RunTasks build rv 4
        { h with
          posted := [(TranslateTask.TranslatePageImpl 1, InitCheckDelay h 1)],
          trace := h.trace ++ RetryTrace rv h 1 } =
      Except.ok
        { h with
          translation_pending_ := false,
          trace := h.trace ++ RetryTrace rv h 4 ++
            ScriptLog rv "cr.googleTranslate.libReady" ++
            [TranslateEvent.libReadyChecked false,
             TranslateEvent.pageTranslated rv.routing_id h.page_id_ h.source_lang_
               h.target_lang_ TranslateErrors.INITIALIZATION_ERROR] } := by
  rw [RunTasks_snoc build rv 3 _ _ (retry_progress build rv h hp hnr 3 (by omega))]
  simp only [RunTask]
  obtain ⟨h1, hh1⟩ := hnr
    { h with posted := [], trace := h.trace ++ RetryTrace rv h (3 + 1) }
  rw [TranslatePageImpl_not_ready build rv
    { h with posted := [], trace := h.trace ++ RetryTrace rv h (3 + 1) } h1
    (((3 : Nat) : Int) + 1) hp (by decide) hh1]
  simp [kMaxTranslateInitCheckAttempts, hq]

theorem TranslatePageImpl_posted (build : WebPlugin.Build) (rv : RenderView)
    (g t : TranslateHelper) (count : Int)
    (ht : TranslatePageImpl build rv g count = Except.ok t) :
    t.posted = g.posted ∨
    (t.posted =
        g.posted ++ [(TranslateTask.TranslatePageImpl (count + 1),
          InitCheckDelay g (count + 1))] ∧
      count + 1 < kMaxTranslateInitCheckAttempts) ∨
    t.posted = g.posted ++ [(TranslateTask.CheckTranslateStatus, StatusCheckDelay g)] := by
  unfold TranslatePageImpl at ht
  split at ht
  · cases ht
  · split at ht
    · simp only [Except.ok.injEq] at ht
      subst ht
      exact Or.inl rfl
    · cases hr : IsTranslateLibReady build rv g with
      | error e => simp [hr] at ht
      | ok ready =>
        have hs := IsTranslateLibReady_state build rv g ready hr
        simp only [hr] at ht
        split at ht
        · split at ht
          · simp only [Except.ok.injEq] at ht
            subst ht
            left
            simp [NotifyBrowserTranslationFailed, hs]
          · rename_i hlt
            simp only [Except.ok.injEq] at ht
            subst ht
            right; left
            refine ⟨?_, by omega⟩
            simp [PostDelayedTask, hs, InitCheckDelay]
        · cases hst : StartTranslation build rv ready.2 with
          | error e => simp [hst] at ht
          | ok started =>
            have hs2 := StartTranslation_state build rv ready.2 started hst
            simp only [hst] at ht
            split at ht
            · simp only [Except.ok.injEq] at ht
              subst ht
              left
              simp [NotifyBrowserTranslationFailed, hs2, hs]
            · simp only [Except.ok.injEq] at ht
              subst ht
              right; right
              simp [PostDelayedTask, hs2, hs, StatusCheckDelay]

/-! ## The bounded library-readiness check (C20) -/

/-- C20, as stated, fails: when `DontDelayTasks()` holds, the first failed readiness check posts
the retry `TranslatePageImpl(1)` with delay `0`, not `1 * 150` ms. -/
theorem retry_delay_is_count_times_150_counterexample :
    (0 : Int) ≠ 1 * kTranslateInitCheckDelayMs ∧
    (∀ build : WebPlugin.Build, ∃ t : TranslateHelper,
      TranslatePageImpl build ⟨3, 8, some (fun _ _ => V8Value.boolean false)⟩
          ⟨true, true, 3, "en", "fr", [], []⟩ 0 = Except.ok t ∧
      t.posted = [(TranslateTask.TranslatePageImpl 1, 0)]) := by
  refine ⟨by decide, ?_⟩
  intro build
  cases build
  · exact ⟨_, rfl, by decide⟩
  · exact ⟨_, rfl, by decide⟩

/-- C20, amended: starting from `TranslatePageImpl(0)` with the page id unchanged, no other task
of the helper posted and the translate library never becoming ready (every call of
`IsTranslateLibReady` returns false), every call in the chain returns, `IsTranslateLibReady` is
evaluated exactly 5 times, exactly 4 retry tasks are posted, with counts 1 to 4 and delays
`DontDelayTasks() ? 0 : count * 150` ms, and on the 5th failed check the browser is notified of
`INITIALIZATION_ERROR`, `translation_pending_` becomes false and nothing further is posted or
run. No call of `TranslatePageImpl` that returns, whatever its argument, posts a retry task
with a count of 5 or more. -/
theorem library_readiness_check_is_bounded (build : WebPlugin.Build) (rv : RenderView)
    (h : TranslateHelper) (hp : h.page_id_ = rv.page_id) (hq : h.posted = [])
    (hnr : ∀ h0, ∃ h1, IsTranslateLibReady build rv h0 = Except.ok (false, h1)) :
    ∃ first last : TranslateHelper,
      TranslatePageImpl build rv h 0 = Except.ok first ∧
      (∀ k : Nat, k < 4 → ∃ t,
        RunTasks build rv k first = Except.ok t ∧
        t.posted =
          [(TranslateTask.TranslatePageImpl ((k : Int) + 1),
            if h.dont_delay_tasks = true then 0 else ((k : Int) + 1) * 150)]) ∧
      RunTasks build rv 4 first = Except.ok last ∧
      LibReadyChecks last.trace = LibReadyChecks h.trace + 5 ∧
      PostedLog last.trace =
        PostedLog h.trace ++
          [(TranslateTask.TranslatePageImpl 1, if h.dont_delay_tasks = true then 0 else 150),
           (TranslateTask.TranslatePageImpl 2, if h.dont_delay_tasks = true then 0 else 300),
           (TranslateTask.TranslatePageImpl 3, if h.dont_delay_tasks = true then 0 else 450),
           (TranslateTask.TranslatePageImpl 4, if h.dont_delay_tasks = true then 0 else 600)] ∧
      SentLog last.trace =
        SentLog h.trace ++
          [TranslateEvent.pageTranslated rv.routing_id h.page_id_ h.source_lang_ h.target_lang_
            TranslateErrors.INITIALIZATION_ERROR] ∧
      last.translation_pending_ = false ∧
      last.posted = [] ∧
      (∀ n : Nat, RunTasks build rv (4 + n) first = Except.ok last) ∧
      (∀ (g t : TranslateHelper) (count c d : Int),
        TranslatePageImpl build rv g count = Except.ok t →
        (TranslateTask.TranslatePageImpl c, d) ∈ t.posted →
        (TranslateTask.TranslatePageImpl c, d) ∈ g.posted ∨
          c < kMaxTranslateInitCheckAttempts) := by
  have hfin := retry_exhausted build rv h hp hq hnr
  refine ⟨_, _, retry_first build rv h hp hq hnr, ?_, hfin, ?_, ?_, ?_, rfl, hq, ?_, ?_⟩
  · intro k hk
    refine ⟨_, retry_progress build rv h hp hnr k hk, ?_⟩
    simp [InitCheckDelay, kTranslateInitCheckDelayMs]
  · cases hf : rv.main_frame <;>
      simp [LibReadyChecks, RetryTrace, ScriptLog, hf, List.filter_append, List.filter_cons]
  · cases hf : rv.main_frame <;> cases hd : h.dont_delay_tasks <;>
      simp [PostedLog, RetryTrace, ScriptLog, hf, hd, List.filterMap_append,
        List.filterMap_cons, InitCheckDelay, kTranslateInitCheckDelayMs]
  · cases hf : rv.main_frame <;>
      simp [SentLog, RetryTrace, ScriptLog, hf, List.filter_append, List.filter_cons]
  · intro n
    rw [RunTasks_add build rv 4 n _ _ hfin]
    exact RunTasks_idle build rv n _ hq
  · intro g t count c d ht hmem
    rcases TranslatePageImpl_posted build rv g t count ht with h1 | ⟨h1, hlt⟩ | h1
    · left
      rw [h1] at hmem
      exact hmem
    · rw [h1] at hmem
      rcases List.mem_append.mp hmem with hm | hm
      · exact Or.inl hm
      · right
        simp only [List.mem_singleton, Prod.mk.injEq, TranslateTask.TranslatePageImpl.injEq]
          at hm
        rw [hm.1]
        exact hlt
    · rw [h1] at hmem
      rcases List.mem_append.mp hmem with hm | hm
      · exact Or.inl hm
      · simp at hm

theorem library_readiness_check_is_bounded_witness :
    ∃ first last : TranslateHelper,
      TranslatePageImpl WebPlugin.Build.debug ⟨3, 8, some (fun _ _ => V8Value.boolean false)⟩
          ⟨false, true, 3, "auto", "fr", [], []⟩ 0 = Except.ok first ∧
      RunTasks WebPlugin.Build.debug ⟨3, 8, some (fun _ _ => V8Value.boolean false)⟩ 4 first =
        Except.ok last ∧
      PostedLog last.trace =
        [(TranslateTask.TranslatePageImpl 1, 150), (TranslateTask.TranslatePageImpl 2, 300),
         (TranslateTask.TranslatePageImpl 3, 450), (TranslateTask.TranslatePageImpl 4, 600)] ∧
      SentLog last.trace =
        [TranslateEvent.pageTranslated 8 3 "auto" "fr" TranslateErrors.INITIALIZATION_ERROR] ∧
      last.translation_pending_ = false ∧
      last.posted = [] := by
  obtain ⟨first, last, h1, _, h2, _, h3, h4, h5, h6, _⟩ :=
    library_readiness_check_is_bounded WebPlugin.Build.debug
      ⟨3, 8, some (fun _ _ => V8Value.boolean false)⟩
      ⟨false, true, 3, "auto", "fr", [], []⟩ rfl rfl (fun _ => ⟨_, rfl⟩)
  exact ⟨first, last, h1, h2, h3, h4, h5, h6⟩

/-! ## The translation-status poll (C19) -/

theorem CheckTranslateStatus_pending (build : WebPlugin.Build) (rv : RenderView)
    (g : TranslateHelper) (frame : List String → String → V8Value)
    (hf : rv.main_frame = some frame)
    (he : ∀ hist, frame hist "cr.googleTranslate.error" = V8Value.boolean false)
    (hfin : ∀ hist, frame hist "cr.googleTranslate.finished" = V8Value.boolean false)
    (hp : g.page_id_ = rv.page_id) :
    CheckTranslateStatus build rv g =
      Except.ok
        { g with
          posted := g.posted ++ [(TranslateTask.CheckTranslateStatus, StatusCheckDelay g)],
          trace := g.trace ++
            [TranslateEvent.executeScript "cr.googleTranslate.error",
             TranslateEvent.executeScript "cr.googleTranslate.finished",
             TranslateEvent.postDelayedTask TranslateTask.CheckTranslateStatus
               (StatusCheckDelay g)] } := by
  simp [CheckTranslateStatus, HasTranslationFailed, HasTranslationFinished,
    ExecuteScriptAndGetBoolResult, hf, he, hfin, hp, PostDelayedTask, StatusCheckDelay]

theorem status_poll_never_ends (build : WebPlugin.Build) (rv : RenderView)
    (h : TranslateHelper) (frame : List String → String → V8Value) (d : Int)
    (hf : rv.main_frame = some frame)
    (he : ∀ hist, frame hist "cr.googleTranslate.error" = V8Value.boolean false)
    (hfin : ∀ hist, frame hist "cr.googleTranslate.finished" = V8Value.boolean false)
    (hp : h.page_id_ = rv.page_id)
    (hq : h.posted = [(TranslateTask.CheckTranslateStatus, d)]) (n : Nat) :
    RunTasks build rv (n + 1) h =
      Except.ok
        { h with
          posted := [(TranslateTask.CheckTranslateStatus, StatusCheckDelay h)],
          trace := h.trace ++ PollTrace h (n + 1) } := by
  induction n with
  | zero =>
    rw [RunTasks_snoc build rv 0 h h rfl]
    simp only [RunTask, hq]
    rw [CheckTranslateStatus_pending build rv { h with posted := [] } frame hf he hfin hp]
    simp [PollTrace, StatusCheckDelay]
  | succ k ih =>
    rw [RunTasks_snoc build rv (k + 1) h _ ih]
    simp only [RunTask]
    rw [CheckTranslateStatus_pending build rv
      { h with posted := [], trace := h.trace ++ PollTrace h (k + 1) } frame hf he hfin hp]
    simp [PollTrace, StatusCheckDelay]

theorem PollTrace_logs (h : TranslateHelper) (n : Nat) :
    PostedLog (PollTrace h n) =
      List.replicate n (TranslateTask.CheckTranslateStatus, StatusCheckDelay h) ∧
    SentLog (PollTrace h n) = [] := by
  induction n with
  | zero => exact ⟨rfl, rfl⟩
  | succ k ih =>
    obtain ⟨i1, i2⟩ := ih
    constructor
    · simp only [PostedLog] at i1 ⊢
      simp [PollTrace, List.filterMap_append, i1, List.replicate_succ']
    · simp only [SentLog] at i2 ⊢
      simp [PollTrace, List.filter_append, i2]

theorem SentLog_append (a b : List TranslateEvent) :
    SentLog (a ++ b) = SentLog a ++ SentLog b := by
  simp [SentLog, List.filter_append]

theorem PostedLog_append (a b : List TranslateEvent) :
    PostedLog (a ++ b) = PostedLog a ++ PostedLog b := by
  simp [PostedLog, List.filterMap_append]

/-- C19, as stated, fails: on a page that stays current (page id 3) and whose scripts report the
library ready and the translation started, but never an error and never the end, the status
check posted by `TranslatePageImpl(0)` is posted again after every execution: after any number
of executions one `CheckTranslateStatus` task is scheduled, the translation is still pending and
no message at all has been sent to the browser. -/
theorem status_poll_is_bounded_counterexample :
    (⟨false, true, 3, "en", "fr", [], []⟩ : TranslateHelper).translation_pending_ = true ∧
    ∀ build : WebPlugin.Build, ∃ first : TranslateHelper,
      TranslatePageImpl build
          ⟨3, 8, some (fun _ script => V8Value.boolean
            (script != "cr.googleTranslate.error" && script != "cr.googleTranslate.finished"))⟩
          ⟨false, true, 3, "en", "fr", [], []⟩ 0 = Except.ok first ∧
      first.posted = [(TranslateTask.CheckTranslateStatus, 400)] ∧
      (∀ n : Nat, ∃ t : TranslateHelper,
        RunTasks build
            ⟨3, 8, some (fun _ script => V8Value.boolean
              (script != "cr.googleTranslate.error" &&
                script != "cr.googleTranslate.finished"))⟩
            n first = Except.ok t ∧
        t.posted = [(TranslateTask.CheckTranslateStatus, 400)] ∧
        t.translation_pending_ = true ∧
        SentLog t.trace = []) := by
  refine ⟨rfl, ?_⟩
  intro build
  have h0 : TranslatePageImpl build
        ⟨3, 8, some (fun _ script => V8Value.boolean
          (script != "cr.googleTranslate.error" && script != "cr.googleTranslate.finished"))⟩
        ⟨false, true, 3, "en", "fr", [], []⟩ 0 =
      Except.ok ⟨false, true, 3, "en", "fr", [(TranslateTask.CheckTranslateStatus, 400)],
        [TranslateEvent.executeScript "cr.googleTranslate.libReady",
         TranslateEvent.libReadyChecked true,
         TranslateEvent.executeScript "cr.googleTranslate.translate('en','fr')",
         TranslateEvent.postDelayedTask TranslateTask.CheckTranslateStatus 400]⟩ := by
    cases build <;> rfl
  refine ⟨_, h0, rfl, ?_⟩
  intro n
  cases n with
  | zero => exact ⟨_, rfl, rfl, rfl, rfl⟩
  | succ k =>
    refine ⟨_, status_poll_never_ends build _ _ _ 400 rfl (fun _ => rfl) (fun _ => rfl) rfl
      rfl k, rfl, rfl, ?_⟩
    simp only []
    rw [SentLog_append, (PollTrace_logs _ (k + 1)).2]
    rfl

/-- C19, amended: the translation-status poll has no retry bound. For a page that stays current
and a translation that never reports finished and never reports an error (every evaluation of
`cr.googleTranslate.error` and of `cr.googleTranslate.finished` gives the boolean `false`),
every execution of `CheckTranslateStatus` returns and posts exactly one further
`CheckTranslateStatus` task, with delay `DontDelayTasks() ? 0 : 400` ms: after any number `n` of
executions `n` checks have been posted, exactly one is scheduled, nothing has been reported to
the browser and `translation_pending_` is as it was. -/
theorem status_poll_reschedules_without_bound (build : WebPlugin.Build) (rv : RenderView)
    (h : TranslateHelper) (frame : List String → String → V8Value) (d : Int)
    (hf : rv.main_frame = some frame)
    (he : ∀ hist, frame hist "cr.googleTranslate.error" = V8Value.boolean false)
    (hfin : ∀ hist, frame hist "cr.googleTranslate.finished" = V8Value.boolean false)
    (hp : h.page_id_ = rv.page_id)
    (hq : h.posted = [(TranslateTask.CheckTranslateStatus, d)]) (n : Nat) :
    ∃ t : TranslateHelper,
      RunTasks build rv n h = Except.ok t ∧
      t.posted =
        [(TranslateTask.CheckTranslateStatus,
          if n = 0 then d else if h.dont_delay_tasks = true then 0 else 400)] ∧
      PostedLog t.trace =
        PostedLog h.trace ++
          List.replicate n
            (TranslateTask.CheckTranslateStatus,
              if h.dont_delay_tasks = true then 0 else 400) ∧
      SentLog t.trace = SentLog h.trace ∧
      t.translation_pending_ = h.translation_pending_ := by
  have hd : StatusCheckDelay h = if h.dont_delay_tasks = true then 0 else 400 := rfl
  cases n with
  | zero => exact ⟨h, rfl, by simp [hq], by simp, rfl, rfl⟩
  | succ k =>
    refine ⟨_, status_poll_never_ends build rv h frame d hf he hfin hp hq k, ?_, ?_, ?_, rfl⟩
    · simp [hd]
    · obtain ⟨l1, _⟩ := PollTrace_logs h (k + 1)
      simp only []
      rw [PostedLog_append, l1, hd]
    · obtain ⟨_, l2⟩ := PollTrace_logs h (k + 1)
      simp only []
      rw [SentLog_append, l2, List.append_nil]

theorem status_poll_reschedules_without_bound_witness :
    ∃ t : TranslateHelper,
      RunTasks WebPlugin.Build.debug ⟨3, 8, some (fun _ _ => V8Value.boolean false)⟩ 7
          ⟨false, true, 3, "en", "fr", [(TranslateTask.CheckTranslateStatus, 400)], []⟩ =
        Except.ok t ∧
      t.posted = [(TranslateTask.CheckTranslateStatus, 400)] ∧
      PostedLog t.trace = List.replicate 7 (TranslateTask.CheckTranslateStatus, 400) ∧
      SentLog t.trace = [] ∧
      t.translation_pending_ = true := by
  obtain ⟨t, h1, h2, h3, h4, h5⟩ :=
    status_poll_reschedules_without_bound WebPlugin.Build.debug
      ⟨3, 8, some (fun _ _ => V8Value.boolean false)⟩
      ⟨false, true, 3, "en", "fr", [(TranslateTask.CheckTranslateStatus, 400)], []⟩
      (fun _ _ => V8Value.boolean false) 400 rfl (fun _ => rfl) (fun _ => rfl) rfl rfl 7
  exact ⟨t, h1, h2, h3, h4, h5⟩

end Translate

namespace ChromeOS

/-! ## Facts about the update screen -/

theorem OnReportResults_while_running (s : UpdateScreen) (result : GoogleUpdateUpgradeResult)
    (error_code : GoogleUpdateErrorCode) (version : String) (hr : s.timer_running = true) :
    (OnReportResults s result error_code version).timer_running = true ∧
    OnExitLog (OnReportResults s result error_code version).trace = OnExitLog s.trace ∧
    ExitUpdateCalls (OnReportResults s result error_code version).trace =
      ExitUpdateCalls s.trace ∧
    (OnReportResults s result error_code version).update_result_ = result ∧
    (OnReportResults s result error_code version).update_error_ = error_code := by
  cases result <;>
    simp [OnReportResults, OnReportResults.exitIfElapsed, MinimalUpdateTimeElapsed, hr,
      OnExitLog, ExitUpdateCalls, List.filterMap_append, List.filter_append]

theorem StartUpdate_effect (s : UpdateScreen) :
    (StartUpdate s).timer_running = true ∧
    OnExitLog (StartUpdate s).trace = OnExitLog s.trace := by
  simp [StartUpdate, OnExitLog, List.filterMap_append]

theorem ApplyScreenOps_while_running (ops : List ScreenOp) (s : UpdateScreen)
    (hr : s.timer_running = true) :
    (ApplyScreenOps s ops).timer_running = true ∧
    OnExitLog (ApplyScreenOps s ops).trace = OnExitLog s.trace := by
  induction ops generalizing s with
  | nil => exact ⟨hr, rfl⟩
  | cons op ops ih =>
    have hstep : (op.apply s).timer_running = true ∧
        OnExitLog (op.apply s).trace = OnExitLog s.trace := by
      cases op with
      | reportResults result error_code version =>
        obtain ⟨h1, h2, _⟩ := OnReportResults_while_running s result error_code version hr
        exact ⟨h1, h2⟩
      | startUpdate => exact StartUpdate_effect s
    obtain ⟨i1, i2⟩ := ih (op.apply s) hstep.1
    simp only [ApplyScreenOps, List.foldl_cons] at i1 i2 ⊢
    exact ⟨i1, i2.trans hstep.2⟩

theorem ExitUpdate_effect (s : UpdateScreen) :
    ExitUpdateCalls (ExitUpdate s).trace = ExitUpdateCalls s.trace + 1 ∧
    (ExitUpdate s).timer_running = false ∧
    (ExitUpdate s).update_result_ = s.update_result_ ∧
    (ExitUpdate s).update_error_ = s.update_error_ := by
  unfold ExitUpdate
  cases ho : s.has_observer <;> cases hres : s.update_result_ <;>
    simp [ho, hres, ExitUpdateCalls, List.filter_append]
  split <;> simp [List.filter_append]

theorem OnReportResults_terminal (s : UpdateScreen) (result : GoogleUpdateUpgradeResult)
    (error_code : GoogleUpdateErrorCode) (version : String)
    (ht : IsTerminal result = true) :
    ∃ progress : List ScreenEvent,
      (∀ e ∈ progress, ∃ n, e = ScreenEvent.addProgress n) ∧
      OnReportResults s result error_code version =
        OnReportResults.exitIfElapsed
          { s with has_updater := false, update_result_ := result,
                   update_error_ := error_code, trace := s.trace ++ progress } := by
  cases result with
  | UPGRADE_STARTED => simp [IsTerminal] at ht
  | UPGRADE_CHECK_STARTED => simp [IsTerminal] at ht
  | UPGRADE_IS_AVAILABLE => simp [IsTerminal] at ht
  | UPGRADE_SUCCESSFUL =>
    refine ⟨[ScreenEvent.addProgress kUpdateCompleteProgressIncrement,
      ScreenEvent.addProgress kUpdateCheckProgressIncrement], ?_, rfl⟩
    intro e he
    simp only [List.mem_cons, List.mem_singleton, List.not_mem_nil, or_false] at he
    rcases he with h | h <;> exact ⟨_, h⟩
  | UPGRADE_ALREADY_UP_TO_DATE =>
    refine ⟨[ScreenEvent.addProgress kUpdateCheckProgressIncrement], ?_, rfl⟩
    intro e he
    simp only [List.mem_singleton] at he
    exact ⟨_, he⟩
  | UPGRADE_ERROR =>
    refine ⟨[], ?_, ?_⟩
    · intro e he
      cases he
    · simp [OnReportResults]

/-! ## Minimal display time of the update screen (C21) -/

/-- C21: for every terminal result (`UPGRADE_SUCCESSFUL`, `UPGRADE_ALREADY_UP_TO_DATE`,
`UPGRADE_ERROR`), `OnReportResults` records the result and the error code, advances the progress
bar, and calls `ExitUpdate` (once) if and only if the minimal-update-time timer is not running;
with the timer running nothing else happens: the timer keeps running and the observer is not
called. `OnMinimalUpdateTimeElapsed` calls `ExitUpdate` exactly when the recorded result is one
of the three terminal results. Hence while the timer is running no sequence of reports and
restarts invokes the observer's `OnExit`: that takes `CancelUpdate` or the timer firing, after
which the timer is not running. -/
theorem minimal_display_time (s : UpdateScreen) (result : GoogleUpdateUpgradeResult)
    (error_code : GoogleUpdateErrorCode) (version : String) (ops : List ScreenOp) :
    (IsTerminal result = true → s.timer_running = false →
      ExitUpdateCalls (OnReportResults s result error_code version).trace =
        ExitUpdateCalls s.trace + 1 ∧
      ∃ progress : List ScreenEvent,
        (∀ e ∈ progress, ∃ n, e = ScreenEvent.addProgress n) ∧
        OnReportResults s result error_code version =
          ExitUpdate { s with has_updater := false, update_result_ := result,
                              update_error_ := error_code, trace := s.trace ++ progress }) ∧
    (IsTerminal result = true → s.timer_running = true →
      ExitUpdateCalls (OnReportResults s result error_code version).trace =
        ExitUpdateCalls s.trace ∧
      OnExitLog (OnReportResults s result error_code version).trace = OnExitLog s.trace ∧
      ∃ progress : List ScreenEvent,
        (∀ e ∈ progress, ∃ n, e = ScreenEvent.addProgress n) ∧
        OnReportResults s result error_code version =
          { s with has_updater := false, update_result_ := result,
                   update_error_ := error_code, trace := s.trace ++ progress }) ∧
    (IsTerminal s.update_result_ = true → OnMinimalUpdateTimeElapsed s = ExitUpdate s) ∧
    (IsTerminal s.update_result_ = false → OnMinimalUpdateTimeElapsed s = s) ∧
    ExitUpdateCalls (ExitUpdate s).trace = ExitUpdateCalls s.trace + 1 ∧
    (s.timer_running = true →
      (ApplyScreenOps s ops).timer_running = true ∧
      OnExitLog (ApplyScreenOps s ops).trace = OnExitLog s.trace) ∧
    (TimerFires s).timer_running = false ∧
    (CancelUpdate s).timer_running = (s.official_build && s.timer_running) := by
  refine ⟨?_, ?_, ?_, ?_, (ExitUpdate_effect s).1, ApplyScreenOps_while_running ops s, ?_, ?_⟩
  · intro ht hr
    obtain ⟨progress, hp, he⟩ := OnReportResults_terminal s result error_code version ht
    have he2 : OnReportResults s result error_code version =
        ExitUpdate { s with has_updater := false, update_result_ := result,
                            update_error_ := error_code, trace := s.trace ++ progress } := by
      rw [he]
      simp [OnReportResults.exitIfElapsed, MinimalUpdateTimeElapsed, hr]
    refine ⟨?_, progress, hp, he2⟩
    rw [he2, (ExitUpdate_effect _).1]
    have hz : ExitUpdateCalls progress = 0 := by
      unfold ExitUpdateCalls
      rw [List.length_eq_zero, List.filter_eq_nil_iff]
      intro e hmem
      obtain ⟨n, hn⟩ := hp e hmem
      rw [hn]
      simp
    simp only [ExitUpdateCalls, List.filter_append, List.length_append] at hz ⊢
    omega
  · intro ht hr
    obtain ⟨h1, h2, h3, _, _⟩ := OnReportResults_while_running s result error_code version hr
    obtain ⟨progress, hp, he⟩ := OnReportResults_terminal s result error_code version ht
    refine ⟨h3, h2, progress, hp, ?_⟩
    rw [he]
    simp [OnReportResults.exitIfElapsed, MinimalUpdateTimeElapsed, hr]
  · intro ht
    cases hres : s.update_result_ <;> simp [IsTerminal, hres] at ht <;>
      simp [OnMinimalUpdateTimeElapsed, hres]
  · intro ht
    cases hres : s.update_result_ <;> simp [IsTerminal, hres] at ht <;>
      simp [OnMinimalUpdateTimeElapsed, hres]
  · unfold TimerFires
    cases hr : s.timer_running
    · simp [hr]
    · simp only [if_true]
      unfold OnMinimalUpdateTimeElapsed
      split
      · exact (ExitUpdate_effect _).2.1
      · rfl
  · unfold CancelUpdate
    cases ho : s.official_build
    · simp [(ExitUpdate_effect _).2.1]
    · simp

theorem minimal_display_time_witness :
    OnExitLog (OnReportResults (StartUpdate (UpdateScreen.create true true))
        GoogleUpdateUpgradeResult.UPGRADE_SUCCESSFUL
        GoogleUpdateErrorCode.GOOGLE_UPDATE_NO_ERROR "1.0").trace =
      OnExitLog (StartUpdate (UpdateScreen.create true true)).trace ∧
    ExitUpdateCalls (OnReportResults (UpdateScreen.create true true)
        GoogleUpdateUpgradeResult.UPGRADE_ERROR
        GoogleUpdateErrorCode.GOOGLE_UPDATE_ERROR_UPDATING "").trace =
      ExitUpdateCalls (UpdateScreen.create true true).trace + 1 :=
  ⟨((minimal_display_time (StartUpdate (UpdateScreen.create true true))
      GoogleUpdateUpgradeResult.UPGRADE_SUCCESSFUL
      GoogleUpdateErrorCode.GOOGLE_UPDATE_NO_ERROR "1.0" []).2.1 (by decide) (by decide)).2.1,
   ((minimal_display_time (UpdateScreen.create true true)
      GoogleUpdateUpgradeResult.UPGRADE_ERROR
      GoogleUpdateErrorCode.GOOGLE_UPDATE_ERROR_UPDATING "" []).1 (by decide) (by decide)).1⟩

end ChromeOS

namespace Translate

/-! ## Facts about `TranslatePage` -/

theorem SentLog_ScriptLog_nil (rv : RenderView) (script : String) :
    SentLog (ScriptLog rv script) = [] := by
  unfold ScriptLog SentLog
  cases rv.main_frame <;> simp

theorem SentLog_ScriptLog (rv : RenderView) (script : String) (tr : List TranslateEvent) :
    SentLog (tr ++ ScriptLog rv script) = SentLog tr := by
  rw [SentLog_append, SentLog_ScriptLog_nil, List.append_nil]

theorem SameUpToScripts.rfl (a : TranslateHelper) : SameUpToScripts a a :=
  ⟨Eq.refl _, Eq.refl _, Eq.refl _, Eq.refl _, Eq.refl _, Eq.refl _, Eq.refl _⟩

theorem SameUpToScripts.trans (a b c : TranslateHelper) (h1 : SameUpToScripts a b)
    (h2 : SameUpToScripts b c) : SameUpToScripts a c := by
  obtain ⟨a1, a2, a3, a4, a5, a6, a7⟩ := h1
  obtain ⟨b1, b2, b3, b4, b5, b6, b7⟩ := h2
  exact ⟨b1.trans a1, b2.trans a2, b3.trans a3, b4.trans a4, b5.trans a5, b6.trans a6,
    b7.trans a7⟩

theorem IsTranslateLibAvailable_same (build : WebPlugin.Build) (rv : RenderView)
    (h : TranslateHelper) (r : Bool × TranslateHelper)
    (hr : IsTranslateLibAvailable build rv h = Except.ok r) : SameUpToScripts h r.2 := by
  rw [IsTranslateLibAvailable_state build rv h r hr]
  exact ⟨rfl, rfl, rfl, rfl, rfl, rfl, SentLog_ScriptLog rv _ h.trace⟩

theorem ExecuteScript_same (rv : RenderView) (h : TranslateHelper) (script : String) :
    SameUpToScripts h (ExecuteScript rv h script).2 := by
  unfold ExecuteScript
  cases rv.main_frame with
  | none => exact SameUpToScripts.rfl h
  | some frame =>
    refine ⟨rfl, rfl, rfl, rfl, rfl, rfl, ?_⟩
    simp [SentLog, List.filter_append]

theorem TranslatePageImpl_first (build : WebPlugin.Build) (rv : RenderView)
    (g t : TranslateHelper) (hp : g.page_id_ = rv.page_id)
    (ht : TranslatePageImpl build rv g 0 = Except.ok t) :
    t.page_id_ = g.page_id_ ∧
    t.source_lang_ = g.source_lang_ ∧
    t.target_lang_ = g.target_lang_ ∧
    ((∃ h4, IsTranslateLibReady build rv g = Except.ok (false, h4) ∧
        t.translation_pending_ = g.translation_pending_ ∧
        t.posted = g.posted ++ [(TranslateTask.TranslatePageImpl 1, InitCheckDelay g 1)] ∧
        SentLog t.trace = SentLog g.trace) ∨
      (∃ h4 h5, IsTranslateLibReady build rv g = Except.ok (true, h4) ∧
        StartTranslation build rv h4 = Except.ok (true, h5) ∧
        t.translation_pending_ = g.translation_pending_ ∧
        t.posted = g.posted ++ [(TranslateTask.CheckTranslateStatus, StatusCheckDelay g)] ∧
        SentLog t.trace = SentLog g.trace) ∨
      (∃ h4 h5, IsTranslateLibReady build rv g = Except.ok (true, h4) ∧
        StartTranslation build rv h4 = Except.ok (false, h5) ∧
        t.translation_pending_ = false ∧
        t.posted = g.posted ∧
        SentLog t.trace =
          SentLog g.trace ++ [TranslateEvent.pageTranslated rv.routing_id g.page_id_
            g.source_lang_ g.target_lang_ TranslateErrors.TRANSLATION_ERROR])) := by
  have hne : (g.page_id_ != rv.page_id) = false := by simp [hp]
  unfold TranslatePageImpl at ht
  rw [if_neg (fun hd => hd.2 (by decide))] at ht
  simp only [hne, Bool.false_eq_true, if_false] at ht
  cases hr : IsTranslateLibReady build rv g with
  | error e => simp [hr] at ht
  | ok ready =>
    have hs := IsTranslateLibReady_state build rv g ready hr
    obtain ⟨b, h4⟩ := ready
    simp only [] at hs
    simp only [hr] at ht
    cases b
    · simp only [Bool.not_false, if_true] at ht
      rw [if_neg (by simp [kMaxTranslateInitCheckAttempts])] at ht
      simp only [Except.ok.injEq] at ht
      subst ht
      subst hs
      refine ⟨rfl, rfl, rfl, Or.inl ⟨_, rfl, rfl, ?_, ?_⟩⟩
      · simp [PostDelayedTask, InitCheckDelay]
      · simp only [PostDelayedTask]
        rw [SentLog_append, SentLog_append, SentLog_append, SentLog_ScriptLog_nil]
        simp [SentLog]
    · simp only [Bool.not_true, Bool.false_eq_true, if_false] at ht
      cases hst : StartTranslation build rv h4 with
      | error e => simp [hst] at ht
      | ok started =>
        have hs2 := StartTranslation_state build rv h4 started hst
        obtain ⟨c, h5⟩ := started
        simp only [] at hs2
        simp only [hst] at ht
        cases c
        · simp only [Bool.not_false, if_true, Except.ok.injEq] at ht
          subst ht
          subst hs2
          subst hs
          refine ⟨rfl, rfl, rfl, Or.inr (Or.inr ⟨_, _, rfl, hst, rfl, rfl, ?_⟩)⟩
          simp only [NotifyBrowserTranslationFailed]
          rw [SentLog_append, SentLog_append, SentLog_append, SentLog_append,
            SentLog_ScriptLog_nil, SentLog_ScriptLog_nil]
          simp [SentLog]
        · simp only [Bool.not_true, Bool.false_eq_true, if_false, Except.ok.injEq] at ht
          subst ht
          subst hs2
          subst hs
          refine ⟨rfl, rfl, rfl, Or.inr (Or.inl ⟨_, _, rfl, hst, rfl, ?_, ?_⟩)⟩
          · simp [PostDelayedTask, StatusCheckDelay]
          · simp only [PostDelayedTask]
            rw [SentLog_append, SentLog_append, SentLog_append, SentLog_append,
              SentLog_ScriptLog_nil, SentLog_ScriptLog_nil]
            simp [SentLog]

theorem TranslatePage_unfold (build : WebPlugin.Build) (kUnknownLanguageCode : String)
    (rv : RenderView) (h : TranslateHelper) (page_id : Int)
    (source_lang target_lang translate_script : String) (hpage : rv.page_id = page_id)
    (hnd : ¬ (h.translation_pending_ = true ∧ h.page_id_ = page_id ∧
      h.target_lang_ = target_lang)) :
    TranslatePage build kUnknownLanguageCode rv h page_id source_lang target_lang
        translate_script =
      match IsTranslateLibAvailable build rv
        { h with
          posted := [], translation_pending_ := true, page_id_ := page_id,
          source_lang_ :=
            if source_lang = kUnknownLanguageCode then kAutoDetectionLanguage else source_lang,
          target_lang_ := target_lang } with
      | Except.error e => Except.error e
      | Except.ok available =>
        if !available.1 then
          match build with
          | WebPlugin.Build.debug =>
            match IsTranslateLibAvailable build rv
              (ExecuteScript rv available.2 translate_script).2 with
            | Except.error e => Except.error e
            | Except.ok again =>
              if !again.1 then Except.error WebPlugin.AssertionFailure.dcheck
              else TranslatePageImpl build rv again.2 0
          | WebPlugin.Build.release =>
            TranslatePageImpl build rv (ExecuteScript rv available.2 translate_script).2 0
        else TranslatePageImpl build rv available.2 0 := by
  have c1 : (rv.page_id != page_id) = false := by simp [hpage]
  have c2 : (h.translation_pending_ && page_id == h.page_id_ &&
      h.target_lang_ == target_lang) = false := by
    cases hb : (h.translation_pending_ && page_id == h.page_id_ &&
      h.target_lang_ == target_lang)
    · rfl
    · exfalso
      simp only [Bool.and_eq_true, beq_iff_eq] at hb
      exact hnd ⟨hb.1.1, hb.1.2.symm, hb.2⟩
  have hsrc : (if (source_lang != kUnknownLanguageCode) = true then source_lang
      else kAutoDetectionLanguage) =
      (if source_lang = kUnknownLanguageCode then kAutoDetectionLanguage else source_lang) := by
    by_cases he : source_lang = kUnknownLanguageCode <;> simp [he]
  unfold TranslatePage
  simp only [c1, c2, Bool.false_eq_true, if_false, CancelPendingTranslation, hsrc]

theorem TranslatePage_proceeds (build : WebPlugin.Build) (kUnknownLanguageCode : String)
    (rv : RenderView) (h t : TranslateHelper) (page_id : Int)
    (source_lang target_lang translate_script : String) (hpage : rv.page_id = page_id)
    (hnd : ¬ (h.translation_pending_ = true ∧ h.page_id_ = page_id ∧
      h.target_lang_ = target_lang))
    (ht : TranslatePage build kUnknownLanguageCode rv h page_id source_lang target_lang
      translate_script = Except.ok t) :
    ∃ h3 : TranslateHelper,
      SameUpToScripts
        { h with
          posted := [], translation_pending_ := true, page_id_ := page_id,
          source_lang_ :=
            if source_lang = kUnknownLanguageCode then kAutoDetectionLanguage else source_lang,
          target_lang_ := target_lang } h3 ∧
      TranslatePageImpl build rv h3 0 = Except.ok t := by
  rw [TranslatePage_unfold build kUnknownLanguageCode rv h page_id source_lang target_lang
    translate_script hpage hnd] at ht
  cases hav : IsTranslateLibAvailable build rv
    { h with
      posted := [], translation_pending_ := true, page_id_ := page_id,
      source_lang_ :=
        if source_lang = kUnknownLanguageCode then kAutoDetectionLanguage else source_lang,
      target_lang_ := target_lang } with
  | error e => simp [hav] at ht
  | ok available =>
    have a1 := IsTranslateLibAvailable_same build rv _ available hav
    simp only [hav] at ht
    cases hb : available.1
    · simp only [hb, Bool.not_false, if_true] at ht
      have a2 := ExecuteScript_same rv available.2 translate_script
      cases build with
      | release =>
        simp only [] at ht
        exact ⟨_, SameUpToScripts.trans _ _ _ a1 a2, ht⟩
      | debug =>
        simp only [] at ht
        cases hag : IsTranslateLibAvailable WebPlugin.Build.debug rv
          (ExecuteScript rv available.2 translate_script).2 with
        | error e => simp [hag] at ht
        | ok again =>
          have a3 := IsTranslateLibAvailable_same WebPlugin.Build.debug rv _ again hag
          simp only [hag] at ht
          cases hb2 : again.1
          · simp [hb2] at ht
          · simp only [hb2, Bool.not_true, Bool.false_eq_true, if_false] at ht
            exact ⟨_, SameUpToScripts.trans _ _ _ (SameUpToScripts.trans _ _ _ a1 a2) a3, ht⟩
    · simp only [hb, Bool.not_true, Bool.false_eq_true, if_false] at ht
      exact ⟨_, a1, ht⟩

theorem BoolCall_release (rv : RenderView) (h : TranslateHelper) :
    (∃ r, IsTranslateLibReady WebPlugin.Build.release rv h = Except.ok r) ∧
    (∃ r, StartTranslation WebPlugin.Build.release rv h = Except.ok r) ∧
    (∃ r, IsTranslateLibAvailable WebPlugin.Build.release rv h = Except.ok r) := by
  refine ⟨?_, ?_, ?_⟩
  · unfold IsTranslateLibReady
    simp only []
    split
    · exact ⟨_, rfl⟩
    · exact ⟨_, rfl⟩
  · unfold StartTranslation
    simp only []
    split
    · exact ⟨_, rfl⟩
    · exact ⟨_, rfl⟩
  · unfold IsTranslateLibAvailable
    simp only []
    split
    · exact ⟨_, rfl⟩
    · exact ⟨_, rfl⟩

theorem TranslatePageImpl_returns (build : WebPlugin.Build) (rv : RenderView)
    (g : TranslateHelper) (count : Int) (hc : count < kMaxTranslateInitCheckAttempts)
    (h1 : ∀ h0, ∃ r, IsTranslateLibReady build rv h0 = Except.ok r)
    (h2 : ∀ h0, h0.source_lang_ = g.source_lang_ → h0.target_lang_ = g.target_lang_ →
      ∃ r, StartTranslation build rv h0 = Except.ok r) :
    ∃ t, TranslatePageImpl build rv g count = Except.ok t := by
  unfold TranslatePageImpl
  rw [if_neg (fun hd => hd.2 hc)]
  split
  · exact ⟨_, rfl⟩
  · obtain ⟨ready, hr⟩ := h1 g
    have hs := IsTranslateLibReady_state build rv g ready hr
    simp only [hr]
    split
    · split
      · exact ⟨_, rfl⟩
      · exact ⟨_, rfl⟩
    · obtain ⟨started, hst⟩ := h2 ready.2 (by rw [hs]) (by rw [hs])
      simp only [hst]
      split
      · exact ⟨_, rfl⟩
      · exact ⟨_, rfl⟩

theorem TranslatePage_release_returns (kUnknownLanguageCode : String)
    (rv : RenderView) (h : TranslateHelper) (page_id : Int)
    (source_lang target_lang translate_script : String) :
    ∃ t, TranslatePage WebPlugin.Build.release kUnknownLanguageCode rv h page_id source_lang
      target_lang translate_script = Except.ok t := by
  have hi : ∀ g, ∃ t, TranslatePageImpl WebPlugin.Build.release rv g 0 = Except.ok t :=
    fun g => TranslatePageImpl_returns WebPlugin.Build.release rv g 0 (by decide)
      (fun h0 => (BoolCall_release rv h0).1) (fun h0 _ _ => (BoolCall_release rv h0).2.1)
  unfold TranslatePage
  split
  · exact ⟨_, rfl⟩
  · split
    · exact ⟨_, rfl⟩
    · simp only []
      obtain ⟨a, ha⟩ := (BoolCall_release rv
        { CancelPendingTranslation h with
          translation_pending_ := true,
          page_id_ := page_id,
          source_lang_ :=
            if source_lang != kUnknownLanguageCode then source_lang
            else kAutoDetectionLanguage,
          target_lang_ := target_lang }).2.2
      simp only [ha]
      split
      · exact hi _
      · exact hi _

theorem ExecutedScripts_append (a b : List TranslateEvent) :
    ExecutedScripts (a ++ b) = ExecutedScripts a ++ ExecutedScripts b := by
  simp [ExecutedScripts, List.filterMap_append]

theorem ExecuteScriptAndGetBoolResult_boolean (rv : RenderView) (h : TranslateHelper)
    (frame : List String → String → V8Value) (script : String) (b : Bool)
    (hf : rv.main_frame = some frame)
    (hv : frame (ExecutedScripts h.trace) script = V8Value.boolean b) :
    ExecuteScriptAndGetBoolResult rv h script =
      (some b, { h with trace := h.trace ++ [TranslateEvent.executeScript script] }) := by
  simp [ExecuteScriptAndGetBoolResult, hf, hv]

theorem TranslatePage_returns (build : WebPlugin.Build) (kUnknownLanguageCode : String)
    (rv : RenderView) (h : TranslateHelper) (page_id : Int)
    (source_lang target_lang translate_script : String)
    (frame : List String → String → V8Value) (hf : rv.main_frame = some frame)
    (hav : ∀ hist, ∃ b, frame hist LibAvailableScript = V8Value.boolean b)
    (hex : ∀ hist, frame (hist ++ [translate_script]) LibAvailableScript = V8Value.boolean true)
    (hrd : ∀ hist, ∃ b, frame hist "cr.googleTranslate.libReady" = V8Value.boolean b)
    (hst : ∀ hist, ∃ b,
      frame hist (TranslateScript
        (if source_lang = kUnknownLanguageCode then kAutoDetectionLanguage else source_lang)
        target_lang) = V8Value.boolean b) :
    ∃ t, TranslatePage build kUnknownLanguageCode rv h page_id source_lang target_lang
      translate_script = Except.ok t := by
  by_cases hpage : rv.page_id = page_id
  swap
  · exact ⟨h, by simp [TranslatePage, hpage]⟩
  by_cases hnd : (h.translation_pending_ = true ∧ h.page_id_ = page_id ∧
      h.target_lang_ = target_lang)
  · exact ⟨h, by simp [TranslatePage, hpage, hnd.1, hnd.2.1, hnd.2.2]⟩
  have hi : ∀ g : TranslateHelper,
      g.source_lang_ =
        (if source_lang = kUnknownLanguageCode then kAutoDetectionLanguage
          else source_lang) →
      g.target_lang_ = target_lang →
      ∃ t, TranslatePageImpl build rv g 0 = Except.ok t := by
    intro g hs ht
    apply TranslatePageImpl_returns build rv g 0 (by decide)
    · intro h0
      obtain ⟨b, hb⟩ := hrd (ExecutedScripts h0.trace)
      have hr : IsTranslateLibReady build rv h0 =
          Except.ok (b, { h0 with trace := h0.trace ++
            [TranslateEvent.executeScript "cr.googleTranslate.libReady"] ++
            [TranslateEvent.libReadyChecked b] }) := by
        unfold IsTranslateLibReady
        simp only [ExecuteScriptAndGetBoolResult_boolean rv h0 frame _ b hf hb]
      exact ⟨_, hr⟩
    · intro h0 e1 e2
      obtain ⟨b, hb⟩ := hst (ExecutedScripts h0.trace)
      have hr : StartTranslation build rv h0 =
          Except.ok (b, { h0 with trace := h0.trace ++
            [TranslateEvent.executeScript
              (TranslateScript h0.source_lang_ h0.target_lang_)] }) := by
        unfold StartTranslation
        rw [← hs, ← ht, ← e1, ← e2] at hb
        simp only [ExecuteScriptAndGetBoolResult_boolean rv h0 frame _ b hf hb]
      exact ⟨_, hr⟩
  have hA : ∀ (g : TranslateHelper) (b : Bool),
      frame (ExecutedScripts g.trace) LibAvailableScript = V8Value.boolean b →
      IsTranslateLibAvailable build rv g =
        Except.ok (b, { g with trace := g.trace ++
          [TranslateEvent.executeScript LibAvailableScript] }) := by
    intro g b hb
    unfold IsTranslateLibAvailable
    simp only [ExecuteScriptAndGetBoolResult_boolean rv g frame _ b hf hb]
  rw [TranslatePage_unfold build kUnknownLanguageCode rv h page_id source_lang target_lang
    translate_script hpage hnd]
  obtain ⟨b, hb⟩ := hav (ExecutedScripts h.trace)
  rw [hA
    { h with
      posted := [], translation_pending_ := true, page_id_ := page_id,
      source_lang_ :=
        if source_lang = kUnknownLanguageCode then kAutoDetectionLanguage else source_lang,
      target_lang_ := target_lang } b hb]
  cases b
  · simp only [Bool.not_false, if_true]
    have hx : ExecuteScript rv
        { h with
          posted := [], translation_pending_ := true, page_id_ := page_id,
          source_lang_ :=
            if source_lang = kUnknownLanguageCode then kAutoDetectionLanguage else source_lang,
          target_lang_ := target_lang,
          trace := h.trace ++ [TranslateEvent.executeScript LibAvailableScript] }
        translate_script =
        (true,
          { h with
            posted := [], translation_pending_ := true, page_id_ := page_id,
            source_lang_ :=
              if source_lang = kUnknownLanguageCode then kAutoDetectionLanguage
              else source_lang,
            target_lang_ := target_lang,
            trace := h.trace ++ [TranslateEvent.executeScript LibAvailableScript] ++
              [TranslateEvent.executeScript translate_script] }) := by
      simp [ExecuteScript, hf]
    rw [hx]
    cases build with
    | release => exact hi _ rfl rfl
    | debug =>
      simp only []
      have hb2 := hex (ExecutedScripts
        (h.trace ++ [TranslateEvent.executeScript LibAvailableScript]))
      have he : ExecutedScripts
          (h.trace ++ [TranslateEvent.executeScript LibAvailableScript] ++
            [TranslateEvent.executeScript translate_script]) =
          ExecutedScripts (h.trace ++ [TranslateEvent.executeScript LibAvailableScript]) ++
            [translate_script] := by
        rw [ExecutedScripts_append]
        rfl
      rw [← he] at hb2
      rw [hA
        { h with
          posted := [], translation_pending_ := true, page_id_ := page_id,
          source_lang_ :=
            if source_lang = kUnknownLanguageCode then kAutoDetectionLanguage
            else source_lang,
          target_lang_ := target_lang,
          trace := h.trace ++ [TranslateEvent.executeScript LibAvailableScript] ++
            [TranslateEvent.executeScript translate_script] } true hb2]
      simp only [Bool.not_true, Bool.false_eq_true, if_false]
      exact hi _ rfl rfl
  · simp only [Bool.not_true, Bool.false_eq_true, if_false]
    exact hi _ rfl rfl

/-! ## Suppression of duplicate translation requests (C22) -/

/-- C22, as stated, fails: no translation is pending, the page (id 3) has the translate library
available and ready, and its `translate('en','fr')` call returns false. `TranslatePage(3, "en",
"fr", ...)` is then not a suppressed duplicate, it returns in either build, yet on return the
state is not pending: the failure `TRANSLATION_ERROR` has been reported and
`translation_pending_` is false. -/
theorem translate_page_becomes_pending_counterexample :
    (⟨false, false, -1, "", "", [], []⟩ : TranslateHelper).translation_pending_ = false ∧
    (∀ build : WebPlugin.Build, ∃ t : TranslateHelper,
      TranslatePage build "und"
          ⟨3, 8, some (fun _ script => V8Value.boolean
            (script != "cr.googleTranslate.translate('en','fr')"))⟩
          ⟨false, false, -1, "", "", [], []⟩ 3 "en" "fr" "lib" = Except.ok t ∧
      t.translation_pending_ = false ∧
      t.posted = [] ∧
      SentLog t.trace =
        [TranslateEvent.pageTranslated 8 3 "en" "fr" TranslateErrors.TRANSLATION_ERROR]) := by
  refine ⟨rfl, ?_⟩
  intro build
  cases build
  · exact ⟨_, rfl, by decide, by decide, by decide⟩
  · exact ⟨_, rfl, by decide, by decide, by decide⟩

/-- C22, amended: if a translation is pending and `TranslatePage` is called with the current
page id, the same `page_id_` and the same target language (for any source language and any
script), the call returns having changed nothing: no member, no scheduled task, no script, no
message; and if the render view's page id differs from the requested one the call is likewise a
no-op. In every other case the call returns in a build without assertions, and in either build
when the page answers the availability, readiness and translate scripts with booleans and
reports the library available once the translate script has been executed. When it returns,
the tasks of the previous translation are revoked, `page_id_` and `target_lang_` are the
requested ones and `source_lang_` is the given source language, or `"auto"` when that is the
unknown-language code, and `TranslatePageImpl(0)` has run on that state: if its
`IsTranslateLibReady` call returned false, the translation is pending, exactly the retry
`TranslatePageImpl(1)` is scheduled (delay `DontDelayTasks() ? 0 : 150`) and nothing is
reported; if it returned true and `StartTranslation` returned true, the translation is pending,
exactly one `CheckTranslateStatus` is scheduled (delay `DontDelayTasks() ? 0 : 400`) and nothing
is reported; if it returned true and `StartTranslation` returned false, `TRANSLATION_ERROR`
has been reported, nothing is scheduled and `translation_pending_` is false. -/
theorem duplicate_translation_suppressed (build : WebPlugin.Build)
    (kUnknownLanguageCode : String) (rv : RenderView) (h : TranslateHelper) (page_id : Int)
    (source_lang target_lang translate_script : String) :
    (h.translation_pending_ = true → rv.page_id = page_id → h.page_id_ = page_id →
      h.target_lang_ = target_lang →
      TranslatePage build kUnknownLanguageCode rv h page_id source_lang target_lang
        translate_script = Except.ok h) ∧
    (rv.page_id ≠ page_id →
      TranslatePage build kUnknownLanguageCode rv h page_id source_lang target_lang
        translate_script = Except.ok h) ∧
    (build = WebPlugin.Build.release →
      ∃ t, TranslatePage build kUnknownLanguageCode rv h page_id source_lang target_lang
        translate_script = Except.ok t) ∧
    (∀ frame, rv.main_frame = some frame →
      (∀ hist, ∃ b, frame hist LibAvailableScript = V8Value.boolean b) →
      (∀ hist, frame (hist ++ [translate_script]) LibAvailableScript = V8Value.boolean true) →
      (∀ hist, ∃ b, frame hist "cr.googleTranslate.libReady" = V8Value.boolean b) →
      (∀ hist, ∃ b,
        frame hist (TranslateScript
          (if source_lang = kUnknownLanguageCode then kAutoDetectionLanguage else source_lang)
          target_lang) = V8Value.boolean b) →
      ∃ t, TranslatePage build kUnknownLanguageCode rv h page_id source_lang target_lang
        translate_script = Except.ok t) ∧
    (rv.page_id = page_id →
      ¬ (h.translation_pending_ = true ∧ h.page_id_ = page_id ∧
        h.target_lang_ = target_lang) →
      ∀ t, TranslatePage build kUnknownLanguageCode rv h page_id source_lang target_lang
        translate_script = Except.ok t →
      t.page_id_ = page_id ∧
      t.target_lang_ = target_lang ∧
      t.source_lang_ =
        (if source_lang = kUnknownLanguageCode then kAutoDetectionLanguage
          else source_lang) ∧
      ∃ h3 : TranslateHelper,
        SameUpToScripts
          { h with
            posted := [], translation_pending_ := true, page_id_ := page_id,
            source_lang_ :=
              if source_lang = kUnknownLanguageCode then kAutoDetectionLanguage
              else source_lang,
            target_lang_ := target_lang } h3 ∧
        TranslatePageImpl build rv h3 0 = Except.ok t ∧
        ((∃ h4, IsTranslateLibReady build rv h3 = Except.ok (false, h4) ∧
            t.translation_pending_ = true ∧
            t.posted =
              [(TranslateTask.TranslatePageImpl 1,
                if h.dont_delay_tasks = true then 0 else 150)] ∧
            SentLog t.trace = SentLog h.trace) ∨
          (∃ h4 h5, IsTranslateLibReady build rv h3 = Except.ok (true, h4) ∧
            StartTranslation build rv h4 = Except.ok (true, h5) ∧
            t.translation_pending_ = true ∧
            t.posted =
              [(TranslateTask.CheckTranslateStatus,
                if h.dont_delay_tasks = true then 0 else 400)] ∧
            SentLog t.trace = SentLog h.trace) ∨
          (∃ h4 h5, IsTranslateLibReady build rv h3 = Except.ok (true, h4) ∧
            StartTranslation build rv h4 = Except.ok (false, h5) ∧
            t.translation_pending_ = false ∧
            t.posted = [] ∧
            SentLog t.trace =
              SentLog h.trace ++
                [TranslateEvent.pageTranslated rv.routing_id page_id
                  (if source_lang = kUnknownLanguageCode then kAutoDetectionLanguage
                    else source_lang)
                  target_lang TranslateErrors.TRANSLATION_ERROR]))) := by
  refine ⟨?_, ?_, ?_, ?_, ?_⟩
  · intro hpend hpage hid htl
    unfold TranslatePage
    simp [hpend, hpage, hid, htl]
  · intro hne
    unfold TranslatePage
    simp [hne]
  · intro hb
    subst hb
    exact TranslatePage_release_returns kUnknownLanguageCode rv h page_id source_lang
      target_lang translate_script
  · intro frame hf hav hex hrd hst
    exact TranslatePage_returns build kUnknownLanguageCode rv h page_id source_lang
      target_lang translate_script frame hf hav hex hrd hst
  · intro hpage hnd t ht
    obtain ⟨h3, hsame, he⟩ :=
      TranslatePage_proceeds build kUnknownLanguageCode rv h t page_id source_lang target_lang
        translate_script hpage hnd ht
    obtain ⟨b1, b2, b3, b4, b5, b6, b7⟩ := hsame
    simp only [] at b1 b2 b3 b4 b5 b6 b7
    have hp3 : h3.page_id_ = rv.page_id := by rw [b3, hpage]
    obtain ⟨f1, f2, f3, f4⟩ := TranslatePageImpl_first build rv h3 t hp3 he
    have hd1 : InitCheckDelay h3 1 = if h.dont_delay_tasks = true then 0 else 150 := by
      simp [InitCheckDelay, b1, kTranslateInitCheckDelayMs]
    have hd2 : StatusCheckDelay h3 = if h.dont_delay_tasks = true then 0 else 400 := by
      simp [StatusCheckDelay, b1, kTranslateStatusCheckDelayMs]
    refine ⟨by rw [f1, b3], by rw [f3, b5], by rw [f2, b4],
      h3, ⟨b1, b2, b3, b4, b5, b6, b7⟩, he, ?_⟩
    rcases f4 with ⟨h4, g0, g1, g2, g3⟩ | ⟨h4, h5, g0, g0', g1, g2, g3⟩ |
      ⟨h4, h5, g0, g0', g1, g2, g3⟩
    · left
      refine ⟨h4, g0, by rw [g1, b2], ?_, by rw [g3, b7]⟩
      rw [g2, b6, hd1]
      rfl
    · right; left
      refine ⟨h4, h5, g0, g0', by rw [g1, b2], ?_, by rw [g3, b7]⟩
      rw [g2, b6, hd2]
      rfl
    · right; right
      refine ⟨h4, h5, g0, g0', g1, by rw [g2, b6], ?_⟩
      rw [g3, b7, b3, b4, b5]

theorem duplicate_translation_suppressed_witness :
    TranslatePage WebPlugin.Build.debug "und"
        ⟨3, 8, some (fun _ _ => V8Value.boolean true)⟩
        ⟨false, true, 3, "en", "fr", [(TranslateTask.CheckTranslateStatus, 400)], []⟩
        3 "de" "fr" "lib" =
      Except.ok
        ⟨false, true, 3, "en", "fr", [(TranslateTask.CheckTranslateStatus, 400)], []⟩ ∧
    TranslatePage WebPlugin.Build.debug "und"
        ⟨4, 8, some (fun _ _ => V8Value.boolean true)⟩
        ⟨false, true, 3, "en", "fr", [(TranslateTask.CheckTranslateStatus, 400)], []⟩
        3 "de" "es" "lib" =
      Except.ok
        ⟨false, true, 3, "en", "fr", [(TranslateTask.CheckTranslateStatus, 400)], []⟩ ∧
    (∃ t, TranslatePage WebPlugin.Build.debug "und"
        ⟨3, 8, some (fun hist script => V8Value.boolean
          (script != LibAvailableScript || hist.contains "lib"))⟩
        ⟨false, true, 3, "en", "fr", [(TranslateTask.CheckTranslateStatus, 400)], []⟩
        3 "und" "es" "lib" = Except.ok t ∧
      t.page_id_ = 3 ∧ t.target_lang_ = "es" ∧ t.source_lang_ = "auto") := by
  refine ⟨?_, ?_, ?_⟩
  · exact (duplicate_translation_suppressed WebPlugin.Build.debug "und"
      ⟨3, 8, some (fun _ _ => V8Value.boolean true)⟩
      ⟨false, true, 3, "en", "fr", [(TranslateTask.CheckTranslateStatus, 400)], []⟩
      3 "de" "fr" "lib").1 rfl rfl rfl rfl
  · exact (duplicate_translation_suppressed WebPlugin.Build.debug "und"
      ⟨4, 8, some (fun _ _ => V8Value.boolean true)⟩
      ⟨false, true, 3, "en", "fr", [(TranslateTask.CheckTranslateStatus, 400)], []⟩
      3 "de" "es" "lib").2.1 (by decide)
  · obtain ⟨t, ht⟩ := (duplicate_translation_suppressed WebPlugin.Build.debug "und"
      ⟨3, 8, some (fun hist script => V8Value.boolean
        (script != LibAvailableScript || hist.contains "lib"))⟩
      ⟨false, true, 3, "en", "fr", [(TranslateTask.CheckTranslateStatus, 400)], []⟩
      3 "und" "es" "lib").2.2.2.1 _ rfl
      (fun _ => ⟨_, rfl⟩)
      (fun hist => by simp)
      (fun _ => ⟨_, rfl⟩) (fun _ => ⟨_, rfl⟩)
    obtain ⟨k1, k2, k3, _⟩ := (duplicate_translation_suppressed WebPlugin.Build.debug "und"
      ⟨3, 8, some (fun hist script => V8Value.boolean
        (script != LibAvailableScript || hist.contains "lib"))⟩
      ⟨false, true, 3, "en", "fr", [(TranslateTask.CheckTranslateStatus, 400)], []⟩
      3 "und" "es" "lib").2.2.2.2 rfl (by decide) t ht
    exact ⟨t, ht, k1, k2, k3⟩

end Translate

